import Mathlib

/-!
# RDA5807 FM tuner driver: register synchronisation and tuning

A shallow embedding of `RDA5807_FM_Tuner.cpp` / `RDA5807_FM_Tuner.h`.

* Registers are `uint16_t` in the source; here they are natural numbers and every
  store that the C++ types truncate is reduced modulo `2 ^ 16` (or the width of the
  bit-field) explicitly.
* Bit-fields are laid out least-significant-bit first inside their 16-bit word, the
  layout of the little-endian GCC targets the driver is written for (it is the layout
  that matches the register map of the chip: `powerUpEnable` is bit 0 of register 02).
* The Arduino `Wire` object is not part of the repository.  It is modelled by
  `TwoWire`: a transmit buffer, a receive buffer, the log of completed bus
  operations and the bytes the slave hands over on each read request.
* The tune-completion poll of `updateReceivedFrequency` has no bound in the source;
  the embedding takes a fuel argument and returns `none` when it runs out.
-/

namespace RDA

/-! ## The two-wire bus (environment) -/

/-- One completed operation on the bus: a transmission that was ended with
`endTransmission`, or a read request issued with `requestFrom`. -/
inductive BusEvent where
  | transmit (address : Nat) (bytes : List Nat) (sendStop : Bool)
  | request (address : Nat) (quantity : Nat)
  deriving DecidableEq, Repr

/-- State of the `Wire` object together with the device behind it.  `slave k` is the
byte sequence the device supplies on the `k`-th read request (counted from 0). -/
structure TwoWire where
  txAddress : Nat
  txBuffer : List Nat
  rxBuffer : List Nat
  requests : Nat
  slave : Nat → List Nat
  log : List BusEvent

namespace TwoWire

/-- `Wire.beginTransmission(address)`: start queueing bytes for `address`. -/
def beginTransmission (w : TwoWire) (address : Nat) : TwoWire :=
  { w with txAddress := address, txBuffer := [] }

/-- `Wire.write(uint8_t)`: queue one byte. -/
def write (w : TwoWire) (data : Nat) : TwoWire :=
  { w with txBuffer := w.txBuffer ++ [data % 256] }

/-- `Wire.endTransmission(sendStop)`: put the queued bytes on the bus. -/
def endTransmission (w : TwoWire) (sendStop : Bool) : TwoWire :=
  { w with txBuffer := [], log := w.log ++ [BusEvent.transmit w.txAddress w.txBuffer sendStop] }

/-- `Wire.requestFrom(address, quantity)`: the receive buffer is replaced by what the
slave delivered, at most `quantity` bytes. -/
def requestFrom (w : TwoWire) (address quantity : Nat) : TwoWire :=
  { w with
    rxBuffer := ((w.slave w.requests).take quantity).map (fun b => b % 256)
    requests := w.requests + 1
    log := w.log ++ [BusEvent.request address quantity] }

/-- `Wire.available()`: number of bytes left in the receive buffer. -/
def available (w : TwoWire) : Nat := w.rxBuffer.length

/-- `Wire.read()`: next received byte, or `-1` when the buffer is empty. -/
def read (w : TwoWire) : Int × TwoWire :=
  match w.rxBuffer with
  | [] => (-1, w)
  | b :: rest => (Int.ofNat b, { w with rxBuffer := rest })

end TwoWire

/-! ## Machine integers and bit-fields -/

/-- Conversion of a C `int` to `uint16_t`. -/
def toU16 (x : Int) : Nat := (x % 65536).toNat

/-- Read the bit-field of `width` bits that starts at bit `off` of `v`. -/
def getField (v off width : Nat) : Nat := (v / 2 ^ off) % 2 ^ width

/-- Assign `x` to the bit-field of `width` bits that starts at bit `off` of `v`:
the value is truncated to the width of the field and the other bits are kept. -/
def setField (v off width x : Nat) : Nat :=
  (v / 2 ^ (off + width)) * 2 ^ (off + width) + (x % 2 ^ width) * 2 ^ off + v % 2 ^ off

/-! ## Register image -/

/-- Possible receiving bands values. -/
inductive band where
  | usEurope | japan | worldWide | eastEurope
  deriving DecidableEq, Repr

/-- Possible channel spacing values. -/
inductive channelSpacing where
  | spc100kHz | spc200kHz | spc50kHz | spc25kHz
  deriving DecidableEq, Repr

/-- `static_cast<band>` of a two-bit field. -/
def band.cast (n : Nat) : band :=
  match n % 4 with
  | 0 => band.usEurope
  | 1 => band.japan
  | 2 => band.worldWide
  | _ => band.eastEurope

/-- `static_cast<channelSpacing>` of a two-bit field. -/
def channelSpacing.cast (n : Nat) : channelSpacing :=
  match n % 4 with
  | 0 => channelSpacing.spc100kHz
  | 1 => channelSpacing.spc200kHz
  | 2 => channelSpacing.spc50kHz
  | _ => channelSpacing.spc25kHz

/-- `getEnumValue` on a band: the position of the enumerator. -/
def band.getEnumValue : band → Nat
  | band.usEurope => 0
  | band.japan => 1
  | band.worldWide => 2
  | band.eastEurope => 3

/-- `getEnumValue` on a channel spacing: the position of the enumerator. -/
def channelSpacing.getEnumValue : channelSpacing → Nat
  | channelSpacing.spc100kHz => 0
  | channelSpacing.spc200kHz => 1
  | channelSpacing.spc50kHz => 2
  | channelSpacing.spc25kHz => 3

/-- `struct RDAWriteRegisters`: the raw 16-bit values (`regValue`) of the writable
registers. -/
structure RDAWriteRegisters where
  reg00 : Nat
  reg02 : Nat
  reg03 : Nat
  reg04 : Nat
  reg05 : Nat
  reg06 : Nat
  reg07 : Nat
  reg08 : Nat
  deriving DecidableEq, Repr

/-- `struct RDAReadRegisters`: the raw 16-bit values of the status registers. -/
structure RDAReadRegisters where
  reg0A : Nat
  reg0B : Nat
  reg0C : Nat
  reg0D : Nat
  reg0E : Nat
  reg0F : Nat
  deriving DecidableEq, Repr

/-- The anonymous struct `m_rdaWriteRegistersCheck`: copies of the write registers
used to check which register values were changed. -/
structure RDAWriteRegistersCheck where
  reg02 : Nat
  reg03 : Nat
  reg04 : Nat
  reg05 : Nat
  reg06 : Nat
  reg07 : Nat
  reg08 : Nat
  deriving DecidableEq, Repr

/-- The driver object `RDA5807` (without the optional RDS decoder) and the bus it
talks to. -/
structure RDA5807 where
  m_rdaWriteRegisters : RDAWriteRegisters
  m_rdaReadRegisters : RDAReadRegisters
  m_rdaWriteRegistersCheck : RDAWriteRegistersCheck
  Wire : TwoWire

/-- The member initialisers of the class: documented reset values, the check struct
initialised from the write registers. -/
def RDA5807.init (slave : Nat → List Nat) : RDA5807 :=
  { m_rdaWriteRegisters :=
      { reg00 := 0x5804, reg02 := 0x0, reg03 := 0x4FC0, reg04 := 0x0400, reg05 := 0x888B,
        reg06 := 0x0, reg07 := 0x4202, reg08 := 0x0 }
    m_rdaReadRegisters :=
      { reg0A := 0x0400, reg0B := 0x0, reg0C := 0x5803, reg0D := 0x5804, reg0E := 0x5808,
        reg0F := 0x5804 }
    m_rdaWriteRegistersCheck :=
      { reg02 := 0x0, reg03 := 0x4FC0, reg04 := 0x0400, reg05 := 0x888B, reg06 := 0x0,
        reg07 := 0x4202, reg08 := 0x0 }
    Wire := { txAddress := 0, txBuffer := [], rxBuffer := [], requests := 0, slave := slave,
              log := [] } }

namespace RDA5807

/-! ### Accessors of the header (local only, no bus access) -/

/-- `setMute`: bit 14 of register 02 is cleared to mute and set to unmute. -/
def setMute (s : RDA5807) (setting : Bool) : RDA5807 :=
  { s with m_rdaWriteRegisters :=
      { s.m_rdaWriteRegisters with
        reg02 := setField s.m_rdaWriteRegisters.reg02 14 1 (if setting then 0 else 1) } }

/-- `getMute`. -/
def getMute (s : RDA5807) : Bool :=
  if getField s.m_rdaWriteRegisters.reg02 14 1 ≠ 0 then false else true

/-- `setSeek`: bit 8 of register 02. -/
def setSeek (s : RDA5807) (setting : Bool) : RDA5807 :=
  { s with m_rdaWriteRegisters :=
      { s.m_rdaWriteRegisters with
        reg02 := setField s.m_rdaWriteRegisters.reg02 8 1 (if setting then 1 else 0) } }

/-- `setChannel`: bits 6..15 of register 03. -/
def setChannel (s : RDA5807) (channel : Nat) : RDA5807 :=
  { s with m_rdaWriteRegisters :=
      { s.m_rdaWriteRegisters with
        reg03 := setField s.m_rdaWriteRegisters.reg03 6 10 channel } }

/-- `getChannel`. -/
def getChannel (s : RDA5807) : Nat := getField s.m_rdaWriteRegisters.reg03 6 10

/-- `setTune`: bit 4 of register 03. -/
def setTune (s : RDA5807) (setting : Bool) : RDA5807 :=
  { s with m_rdaWriteRegisters :=
      { s.m_rdaWriteRegisters with
        reg03 := setField s.m_rdaWriteRegisters.reg03 4 1 (if setting then 1 else 0) } }

/-- `getTune`. -/
def getTune (s : RDA5807) : Bool :=
  if getField s.m_rdaWriteRegisters.reg03 4 1 ≠ 0 then true else false

/-- `setBand`: bits 2..3 of register 03. -/
def setBand (s : RDA5807) (setting : band) : RDA5807 :=
  { s with m_rdaWriteRegisters :=
      { s.m_rdaWriteRegisters with
        reg03 := setField s.m_rdaWriteRegisters.reg03 2 2 setting.getEnumValue } }

/-- `getBand`. -/
def getBand (s : RDA5807) : band := band.cast (getField s.m_rdaWriteRegisters.reg03 2 2)

/-- `setChannelSpacing`: bits 0..1 of register 03. -/
def setChannelSpacing (s : RDA5807) (setting : channelSpacing) : RDA5807 :=
  { s with m_rdaWriteRegisters :=
      { s.m_rdaWriteRegisters with
        reg03 := setField s.m_rdaWriteRegisters.reg03 0 2 setting.getEnumValue } }

/-- `getChannelSpacing`. -/
def getChannelSpacing (s : RDA5807) : channelSpacing :=
  channelSpacing.cast (getField s.m_rdaWriteRegisters.reg03 0 2)

/-- `setVolume`: bits 0..3 of register 05. -/
def setVolume (s : RDA5807) (value : Nat) : RDA5807 :=
  { s with m_rdaWriteRegisters :=
      { s.m_rdaWriteRegisters with
        reg05 := setField s.m_rdaWriteRegisters.reg05 0 4 value } }

/-- `getVolume`. -/
def getVolume (s : RDA5807) : Nat := getField s.m_rdaWriteRegisters.reg05 0 4

/-- `set65mMode`: bit 9 of register 07. -/
def set65mMode (s : RDA5807) (setting : Bool) : RDA5807 :=
  { s with m_rdaWriteRegisters :=
      { s.m_rdaWriteRegisters with
        reg07 := setField s.m_rdaWriteRegisters.reg07 9 1 (if setting then 1 else 0) } }

/-- `get65mMode`. -/
def get65mMode (s : RDA5807) : Bool :=
  if getField s.m_rdaWriteRegisters.reg07 9 1 ≠ 0 then true else false

/-- `setAlternativeFrequencySettingMode`: bit 0 of register 07. -/
def setAlternativeFrequencySettingMode (s : RDA5807) (setting : Bool) : RDA5807 :=
  { s with m_rdaWriteRegisters :=
      { s.m_rdaWriteRegisters with
        reg07 := setField s.m_rdaWriteRegisters.reg07 0 1 (if setting then 1 else 0) } }

/-- `getAlternativeFrequencySettingMode`. -/
def getAlternativeFrequencySettingMode (s : RDA5807) : Bool :=
  if getField s.m_rdaWriteRegisters.reg07 0 1 ≠ 0 then true else false

/-- `setFrequencyDirectly`: the whole of register 08 (a `uint16_t` argument). -/
def setFrequencyDirectly (s : RDA5807) (freq : Nat) : RDA5807 :=
  { s with m_rdaWriteRegisters := { s.m_rdaWriteRegisters with reg08 := freq % 65536 } }

/-- `getFrequencyDirectly`. -/
def getFrequencyDirectly (s : RDA5807) : Nat := s.m_rdaWriteRegisters.reg08

/-- `getRdsGroupState`: bit 15 of register 0A. -/
def getRdsGroupState (s : RDA5807) : Bool :=
  if getField s.m_rdaReadRegisters.reg0A 15 1 ≠ 0 then true else false

/-- `getSeekTuneComplete`: bit 14 of register 0A. -/
def getSeekTuneComplete (s : RDA5807) : Bool :=
  if getField s.m_rdaReadRegisters.reg0A 14 1 ≠ 0 then true else false

/-! ### Bus primitives -/

/-- `i2cWriteShort`: high byte, then low byte. -/
def i2cWriteShort (w : TwoWire) (data : Nat) : TwoWire :=
  let w1 := w.write ((data &&& 0xFF00) >>> 8)
  w1.write (data &&& 0x00FF)

/-- `i2cReadShort`: two reads combined high byte first, in `uint16_t` arithmetic. -/
def i2cReadShort (w : TwoWire) : Nat × TwoWire :=
  let r1 := w.read
  let data := toU16 r1.1
  let data := (data <<< 8) % 65536
  let r2 := r1.2.read
  let data := data ||| toU16 r2.1
  (data, r2.2)

/-- `i2cWriteRegister`: selector byte and value in one transmission to `0x11`. -/
def i2cWriteRegister (s : RDA5807) (reg value : Nat) : RDA5807 :=
  let w := s.Wire.beginTransmission 0x11
  let w := w.write reg
  let w := i2cWriteShort w value
  { s with Wire := w.endTransmission true }

/-- `i2cReadRegister`: selector sent without stop, then a two-byte read from `0x11`. -/
def i2cReadRegister (s : RDA5807) (reg : Nat) : Nat × RDA5807 :=
  let w := s.Wire.beginTransmission 0x11
  let w := w.write reg
  let w := w.endTransmission false
  let w := w.requestFrom 0x11 2
  let r := i2cReadShort w
  (r.1, { s with Wire := r.2 })

/-! ### Synchronisation with the receiver -/

/-- `writeSettingsToReceiver`: registers 02..08 in one transmission to `0x10`. -/
def writeSettingsToReceiver (s : RDA5807) : RDA5807 :=
  let w := s.Wire.beginTransmission 0x10
  let w := i2cWriteShort w s.m_rdaWriteRegisters.reg02
  let w := i2cWriteShort w s.m_rdaWriteRegisters.reg03
  let w := i2cWriteShort w s.m_rdaWriteRegisters.reg04
  let w := i2cWriteShort w s.m_rdaWriteRegisters.reg05
  let w := i2cWriteShort w s.m_rdaWriteRegisters.reg06
  let w := i2cWriteShort w s.m_rdaWriteRegisters.reg07
  let w := i2cWriteShort w s.m_rdaWriteRegisters.reg08
  { s with Wire := w.endTransmission true }

/-- The array `writeRegs` of `writeModifiedRegistersToReceiver`: entry `i` points to
the value of the `i`-th writable register. -/
def writeRegs (r : RDAWriteRegisters) (i : Nat) : Nat :=
  match i with
  | 0 => r.reg02
  | 1 => r.reg03
  | 2 => r.reg04
  | 3 => r.reg05
  | 4 => r.reg06
  | 5 => r.reg07
  | _ => r.reg08

/-- The array `writeRegsCheck`: entry `i` points to the copy of the `i`-th writable
register. -/
def writeRegsCheck (c : RDAWriteRegistersCheck) (i : Nat) : Nat :=
  match i with
  | 0 => c.reg02
  | 1 => c.reg03
  | 2 => c.reg04
  | 3 => c.reg05
  | 4 => c.reg06
  | 5 => c.reg07
  | _ => c.reg08

/-- Assignment through `writeRegsCheck[i]`. -/
def writeRegsCheckSet (c : RDAWriteRegistersCheck) (i v : Nat) : RDAWriteRegistersCheck :=
  match i with
  | 0 => { c with reg02 := v }
  | 1 => { c with reg03 := v }
  | 2 => { c with reg04 := v }
  | 3 => { c with reg05 := v }
  | 4 => { c with reg06 := v }
  | 5 => { c with reg07 := v }
  | _ => { c with reg08 := v }

/-- Body of the loop of `writeModifiedRegistersToReceiver` for index `i`. -/
def writeModifiedStep (s : RDA5807) (i : Nat) : RDA5807 :=
  if writeRegsCheck s.m_rdaWriteRegistersCheck i ≠ writeRegs s.m_rdaWriteRegisters i then
    let s1 := s.i2cWriteRegister i (writeRegs s.m_rdaWriteRegisters i)
    { s1 with m_rdaWriteRegistersCheck :=
        writeRegsCheckSet s1.m_rdaWriteRegistersCheck i (writeRegs s1.m_rdaWriteRegisters i) }
  else s

/-- `writeModifiedRegistersToReceiver`: `for (uint8_t i = 0; i < 7; i++)`. -/
def writeModifiedRegistersToReceiver (s : RDA5807) : RDA5807 :=
  (List.range 7).foldl writeModifiedStep s

/-- `readSettingsFromReceiver`: twelve bytes requested from `0x10`; the status
registers are assigned only when twelve bytes are available. -/
def readSettingsFromReceiver (s : RDA5807) : Bool × RDA5807 :=
  let w := s.Wire.requestFrom 0x10 12
  if w.available ≠ 12 then (false, { s with Wire := w }) else
  let a := i2cReadShort w
  let b := i2cReadShort a.2
  let c := i2cReadShort b.2
  let d := i2cReadShort c.2
  let e := i2cReadShort d.2
  let f := i2cReadShort e.2
  (true, { s with
    m_rdaReadRegisters :=
      { reg0A := a.1, reg0B := b.1, reg0C := c.1, reg0D := d.1, reg0E := e.1, reg0F := f.1 }
    Wire := f.2 })

/-- `updateMute`. -/
def updateMute (s : RDA5807) (setting : Bool) : RDA5807 :=
  let s := s.setMute setting
  s.i2cWriteRegister 0x02 s.m_rdaWriteRegisters.reg02

/-- `updateVolumeLevel`: the argument is a `uint8_t`. -/
def updateVolumeLevel (s : RDA5807) (value : Nat) : RDA5807 :=
  let level := if value ≠ 0 then (value / 0x10) % 256 else 0
  let s := s.setVolume level
  s.i2cWriteRegister 0x05 s.m_rdaWriteRegisters.reg05

/-- `updateSeek`. -/
def updateSeek (s : RDA5807) : RDA5807 :=
  let s := s.setSeek true
  s.i2cWriteRegister 0x02 s.m_rdaWriteRegisters.reg02

/-- `updateTune`. -/
def updateTune (s : RDA5807) : RDA5807 :=
  let s := s.setTune true
  s.i2cWriteRegister 0x03 s.m_rdaWriteRegisters.reg03

/-- The band `switch` of `updateReceivedFrequency`: the value of `channel` when the
switch is left, or `none` where it executes `return false`.  The subtraction and the
product are reduced to `uint16_t` by the assignment to `channel`. -/
def channelOfFrequency (b : band) (otherEastEuropeBand : Bool) (freq : Nat) : Option Nat :=
  match b with
  | band.usEurope =>
    if freq = 870 then some 0 else
    let channel := toU16 (((freq : Int) - 870) * 100)
    if channel > 21000 then none else some channel
  | band.japan =>
    if freq = 760 then some 0 else
    let channel := toU16 (((freq : Int) - 760) * 100)
    if channel > 15000 then none else some channel
  | band.worldWide =>
    -- the source compares `channel`, still 0 here, with 760
    if (0 : Nat) = 760 then some 0 else
    let channel := toU16 (((freq : Int) - 760) * 100)
    if channel > 32000 then none else some channel
  | band.eastEurope =>
    if otherEastEuropeBand then
      if freq = 500 then some 0 else
      let channel := toU16 (((freq : Int) - 500) * 100)
      if channel > 26000 then none else some channel
    else
      if freq = 650 then some 0 else
      let channel := toU16 (((freq : Int) - 650) * 100)
      if channel > 11000 then none else some channel

/-- The channel-spacing `switch` of `updateReceivedFrequency`. -/
def channelSpacingValue (c : channelSpacing) : Nat :=
  match c with
  | channelSpacing.spc25kHz => 25
  | channelSpacing.spc50kHz => 50
  | channelSpacing.spc100kHz => 100
  | channelSpacing.spc200kHz => 200

/-- Body of the tune poll: `m_rdaReadRegisters.reg0A.regValue = i2cReadRegister(0x0A);
updateTune();`. -/
def tunePollBody (s : RDA5807) : RDA5807 :=
  let r := s.i2cReadRegister 0x0A
  let s1 : RDA5807 :=
    { r.2 with m_rdaReadRegisters := { r.2.m_rdaReadRegisters with reg0A := r.1 } }
  s1.updateTune

/-- The loop `do { ... } while (!getSeekTuneComplete())`, with at most `fuel`
iterations. -/
def tunePoll : Nat → RDA5807 → Option RDA5807
  | 0, _ => none
  | fuel + 1, s =>
    let s2 := s.tunePollBody
    if s2.getSeekTuneComplete then some s2 else tunePoll fuel s2

/-- The 16-bit word that `i2cReadRegister` assembles from what the slave delivers on read
request number `k`: it is what the `k`-th poll of the device reports. -/
def polledStatus (w : TwoWire) (k : Nat) : Nat :=
  (i2cReadShort (TwoWire.requestFrom { w with requests := k } 0x11 2)).1

/-- `updateReceivedFrequency`: `freq` is a `uint16_t`.  The result is `none` when the
tune poll is still running after `fuel` iterations. -/
def updateReceivedFrequency (fuel : Nat) (s : RDA5807) (freq : Nat) :
    Option (Bool × RDA5807) :=
  let otherEastEuropeBand := !s.get65mMode
  if otherEastEuropeBand && decide (freq < 500) then some (false, s) else
  if freq < 650 ∨ freq > 1080 then some (false, s) else
  match channelOfFrequency s.getBand otherEastEuropeBand freq with
  | none => some (false, s)
  | some channel =>
    if s.getAlternativeFrequencySettingMode then
      let s1 := s.setFrequencyDirectly channel
      let s2 := s1.i2cWriteRegister 0x07 s1.m_rdaWriteRegisters.reg07
      let s3 := s2.i2cWriteRegister 0x08 s2.m_rdaWriteRegisters.reg08
      some (true, s3)
    else
      let channel :=
        if channel ≠ 0 then channel / channelSpacingValue s.getChannelSpacing else channel
      let s1 := s.setChannel channel
      let s2 := s1.i2cWriteRegister 0x02 s1.m_rdaWriteRegisters.reg02
      let s3 := s2.i2cWriteRegister 0x03 s2.m_rdaWriteRegisters.reg03
      match tunePoll fuel s3 with
      | none => none
      | some s4 => some (true, s4)

end RDA5807

/-! ## RDA5807_Utilities

The functions return `float` in the source; they are evaluated here in exact rational
arithmetic. -/

/-- `RDA5807_Utilities::getFrequencyValue`: frequency in MHz of channel `freq`. -/
def getFrequencyValue (freq : Nat) (chanSpac : channelSpacing) (selBand : band)
    (altEurBand : Bool) : ℚ :=
  let spc : Nat :=
    match chanSpac with
    | channelSpacing.spc25kHz => 25
    | channelSpacing.spc50kHz => 50
    | channelSpacing.spc100kHz => 100
    | channelSpacing.spc200kHz => 200
  let bandValue : ℚ :=
    match selBand with
    | band.usEurope => 87.0
    | band.japan => 76.0
    | band.worldWide => 76.0
    | band.eastEurope => if altEurBand then 50.0 else 65.0
  ((freq * spc : Nat) : ℚ) / 1000.0 + bandValue

/-- `RDA5807_Utilities::getAlternativeFrequencyValue`: frequency in MHz of the direct
frequency value `freq`. -/
def getAlternativeFrequencyValue (freq : Nat) (selBand : band) (altEurBand : Bool) : ℚ :=
  let bandValue : ℚ :=
    match selBand with
    | band.usEurope => 87.0
    | band.japan => 76.0
    | band.worldWide => 76.0
    | band.eastEurope => if altEurBand then 50.0 else 65.0
  (freq : ℚ) / 1000.0 + bandValue

/-! ## RDS decoder (`RdsDecoder.h`, `RdsDecoder.cpp`)

* The decoder reads the four blocks through pointers into the status registers of the
  driver; here the values behind the pointers are handed to each function as a
  `RdsDataBlocks`.
* Character buffers are lists of byte values; an assignment to element `i` is `List.set`.
* `double` expressions are evaluated in exact rational arithmetic; a cast of a floating
  value to an unsigned integer type truncates toward zero and is then reduced modulo the
  width of the type.
* `decodeReceivedData` has no `default` in its `switch` and no `return` after it: for a
  code no case matches control reaches the end of a function that must return a value,
  which is undefined.  `decodeReceivedDataWith` takes what happens there as a parameter;
  `decodeReceivedData` is its instance in which nothing happens and no value is returned
  (`Option.none`).
-/

/-- Possible RDS group types. -/
inductive groupType where
  | g0A | g0B | g1A | g1B | g2A | g2B | g3A | g3B | g4A | g4B | g5A | g5B | g6A | g6B | g7A | g7B | g8A | g8B | g9A | g9B | g10A | g10B | g11A | g11B | g12A | g12B | g13A | g13B | g14A | g14B | g15A | g15B
  | none
  deriving DecidableEq, Repr

/-- `static_cast<groupType>` of a code: the enumerators are numbered from 0, `none` is
32 (larger values name no enumerator and are mapped to `none` as well). -/
def groupType.cast (n : Nat) : groupType :=
  match n with
  | 0 => groupType.g0A
  | 1 => groupType.g0B
  | 2 => groupType.g1A
  | 3 => groupType.g1B
  | 4 => groupType.g2A
  | 5 => groupType.g2B
  | 6 => groupType.g3A
  | 7 => groupType.g3B
  | 8 => groupType.g4A
  | 9 => groupType.g4B
  | 10 => groupType.g5A
  | 11 => groupType.g5B
  | 12 => groupType.g6A
  | 13 => groupType.g6B
  | 14 => groupType.g7A
  | 15 => groupType.g7B
  | 16 => groupType.g8A
  | 17 => groupType.g8B
  | 18 => groupType.g9A
  | 19 => groupType.g9B
  | 20 => groupType.g10A
  | 21 => groupType.g10B
  | 22 => groupType.g11A
  | 23 => groupType.g11B
  | 24 => groupType.g12A
  | 25 => groupType.g12B
  | 26 => groupType.g13A
  | 27 => groupType.g13B
  | 28 => groupType.g14A
  | 29 => groupType.g14B
  | 30 => groupType.g15A
  | 31 => groupType.g15B
  | _ => groupType.none

/-- Conversion of a C `int` to `uint8_t`. -/
def toU8 (x : Int) : Nat := (x % 256).toNat

/-- Truncation toward zero of a floating value. -/
def truncate (q : ℚ) : Int := if 0 ≤ q then Rat.floor q else Rat.ceil q

/-- `static_cast<uint8_t>` of a floating value. -/
def castU8 (q : ℚ) : Nat := toU8 (truncate q)

/-- `static_cast<uint16_t>` of a floating value. -/
def castU16 (q : ℚ) : Nat := toU16 (truncate q)

/-- The values behind the pointers `m_rdsDataBlocks` at the time of a call. -/
structure RdsDataBlocks where
  blockA : Nat
  blockB : Nat
  blockC : Nat
  blockD : Nat
  deriving DecidableEq, Repr

/-- `m_programmeIdentification`: PI block, always in block A. -/
structure ProgrammeIdentification where
  countryCode : Nat
  programmeAreaCoverage : Nat
  programmeReferenceNumber : Nat
  deriving DecidableEq, Repr

/-- `m_blockBData`: data from block B. -/
structure BlockBData where
  trafficProgramme : Bool
  progType : Nat
  deriving DecidableEq, Repr

/-- `m_group0`: RDS data group 0A and 0B. -/
structure Group0 where
  trafficAnnouncement : Bool
  musicSpeech : Bool
  decoderControlBits : Nat
  programmeServiceName : List Nat
  deriving DecidableEq, Repr

/-- `m_group1`: RDS data group 1A and 1B. -/
structure Group1 where
  extendedCountryCode : Nat
  languageCode : Nat
  rawBroadcastTimeData : Nat
  deriving DecidableEq, Repr

/-- `m_group2`: RDS data group 2A and 2B. -/
structure Group2 where
  textAbFlag : Bool
  radioText : List Nat
  deriving DecidableEq, Repr

/-- `m_group4A`: RDS data group 4A. -/
structure Group4A where
  modifiedJulianDay : Nat
  hour : Nat
  minute : Nat
  timeOffsetType : Bool
  localTimeOffset : Nat
  deriving DecidableEq, Repr

/-- `m_group10A`: RDS data group 10A. -/
structure Group10A where
  nameAbFlag : Bool
  programmeTypeName : List Nat
  deriving DecidableEq, Repr

/-- `m_date`: date data. -/
structure DateData where
  year : Nat
  month : Nat
  day : Nat
  weekDay : Nat
  weekNumber : Nat
  deriving DecidableEq, Repr

/-- The data members of `RdsDecoder` other than the block pointers. -/
structure RdsDecoder where
  m_programmeIdentification : ProgrammeIdentification
  m_blockBData : BlockBData
  m_group0 : Group0
  m_group1 : Group1
  m_group2 : Group2
  m_group4A : Group4A
  m_group10A : Group10A
  m_date : DateData
  deriving DecidableEq, Repr

/-- The member initialisers `= { 0 }`. -/
def RdsDecoder.init : RdsDecoder :=
  { m_programmeIdentification :=
      { countryCode := 0, programmeAreaCoverage := 0, programmeReferenceNumber := 0 }
    m_blockBData := { trafficProgramme := false, progType := 0 }
    m_group0 :=
      { trafficAnnouncement := false, musicSpeech := false, decoderControlBits := 0,
        programmeServiceName := List.replicate 9 0 }
    m_group1 := { extendedCountryCode := 0, languageCode := 0, rawBroadcastTimeData := 0 }
    m_group2 := { textAbFlag := false, radioText := List.replicate 65 0 }
    m_group4A :=
      { modifiedJulianDay := 0, hour := 0, minute := 0, timeOffsetType := false,
        localTimeOffset := 0 }
    m_group10A := { nameAbFlag := false, programmeTypeName := List.replicate 9 0 }
    m_date := { year := 0, month := 0, day := 0, weekDay := 0, weekNumber := 0 } }

namespace RdsDecoder

/-- `getVersion`: true if version B. -/
def getVersion (b : RdsDataBlocks) : Bool := decide ((b.blockB &&& 0x0800) ≠ 0)

/-- `getGroupTypeCode`: the high nibble of block B or-ed with the version flag. -/
def getGroupTypeCode (b : RdsDataBlocks) : groupType :=
  groupType.cast (((b.blockB &&& 0xF000) >>> 12) ||| (if getVersion b then 1 else 0))

/-- `setCountryCode`. -/
def setCountryCode (d : RdsDecoder) (b : RdsDataBlocks) : RdsDecoder :=
  { d with m_programmeIdentification :=
      { d.m_programmeIdentification with
        countryCode := (((b.blockA &&& 0xF000) >>> 12) % 256) % 16 } }

/-- `setProgrammeAreaCoverage`. -/
def setProgrammeAreaCoverage (d : RdsDecoder) (b : RdsDataBlocks) : RdsDecoder :=
  { d with m_programmeIdentification :=
      { d.m_programmeIdentification with
        programmeAreaCoverage := (((b.blockA &&& 0x0F00) >>> 8) % 256) % 16 } }

/-- `setProgrammeReferenceNumber`. -/
def setProgrammeReferenceNumber (d : RdsDecoder) (b : RdsDataBlocks) : RdsDecoder :=
  { d with m_programmeIdentification :=
      { d.m_programmeIdentification with
        programmeReferenceNumber := (b.blockA &&& 0x00FF) % 256 } }

/-- `setTrafficProgramme`. -/
def setTrafficProgramme (d : RdsDecoder) (b : RdsDataBlocks) : RdsDecoder :=
  { d with m_blockBData :=
      { d.m_blockBData with trafficProgramme := decide ((b.blockB &&& 0x0400) ≠ 0) } }

/-- `setProgrammeTypeCode`. -/
def setProgrammeTypeCode (d : RdsDecoder) (b : RdsDataBlocks) : RdsDecoder :=
  { d with m_blockBData :=
      { d.m_blockBData with progType := ((b.blockB &&& 0x03E0) >>> 5) % 256 } }

/-- `setProgrammeServiceName`.  The decoder-identification bit is shifted by
`~segmentAddress`, which is negative after integer promotion; the language leaves the
value of such a shift open, so the shift of the target is the parameter `shl`
(`shl v c` stands for `v << c` on `int`). -/
def setProgrammeServiceName (shl : Int → Int → Int) (d : RdsDecoder) (b : RdsDataBlocks) :
    RdsDecoder :=
  let segmentAddress := (b.blockB &&& 0x0003) % 256
  let g0 : Group0 :=
    if segmentAddress = 0 then
      { d.m_group0 with decoderControlBits := 0, programmeServiceName := List.replicate 9 0 }
    else d.m_group0
  let name1 :=
    g0.programmeServiceName.set (((segmentAddress + 1) * 2) - 2)
      (((b.blockD &&& 0xFF00) >>> 8) % 256)
  let name2 := name1.set (((segmentAddress + 1) * 2) - 1) ((b.blockD &&& 0x00FF) % 256)
  let bits :=
    (g0.decoderControlBits |||
      toU8 (shl (((b.blockB &&& 0x0004) >>> 2 : Nat) : Int) (-(segmentAddress : Int) - 1))) % 16
  let g3 : Group0 := { g0 with decoderControlBits := bits, programmeServiceName := name2 }
  { d with m_group0 := g3 }

/-- `setExtendedCountryCode`. -/
def setExtendedCountryCode (d : RdsDecoder) (b : RdsDataBlocks) : RdsDecoder :=
  { d with m_group1 := { d.m_group1 with extendedCountryCode := (b.blockC &&& 0x00FF) % 256 } }

/-- `setProgrammeItemNumberCode`. -/
def setProgrammeItemNumberCode (d : RdsDecoder) (b : RdsDataBlocks) : RdsDecoder :=
  { d with m_group1 := { d.m_group1 with rawBroadcastTimeData := b.blockD % 65536 } }

/-- `setLanguageCode`. -/
def setLanguageCode (d : RdsDecoder) (b : RdsDataBlocks) : RdsDecoder :=
  if (b.blockC &&& 0xB000) ≠ 0 then
    { d with m_group1 := { d.m_group1 with languageCode := (b.blockC &&& 0x0FFF) % 4096 } }
  else d

/-- `getBroadcastStartDay`: bits 11..15 of the raw broadcast time. -/
def getBroadcastStartDay (d : RdsDecoder) : Nat := getField d.m_group1.rawBroadcastTimeData 11 5

/-- `getBroadcastStartHour`: bits 6..10 of the raw broadcast time. -/
def getBroadcastStartHour (d : RdsDecoder) : Nat := getField d.m_group1.rawBroadcastTimeData 6 5

/-- `getBroadcastStartMinute`: bits 0..5 of the raw broadcast time. -/
def getBroadcastStartMinute (d : RdsDecoder) : Nat :=
  getField d.m_group1.rawBroadcastTimeData 0 6

/-- `prepareRadioText`: the masked block B (0 or 16) is compared with the stored flag
(0 or 1). -/
def prepareRadioText (d : RdsDecoder) (b : RdsDataBlocks) : RdsDecoder :=
  if (b.blockB &&& 0x0010) ≠ (if d.m_group2.textAbFlag then 1 else 0) then
    let flag := decide ((b.blockB &&& 0x0010) ≠ 0)
    { d with m_group2 := { textAbFlag := flag, radioText := List.replicate 65 0 } }
  else d

/-- `setRadioText2A`. -/
def setRadioText2A (d : RdsDecoder) (b : RdsDataBlocks) : RdsDecoder :=
  let d1 := prepareRadioText d b
  let startPosition :=
    if (b.blockB &&& 0x000F) ≠ 0 then ((b.blockB &&& 0x000F) * 4) % 256 else 0
  let t0 := d1.m_group2.radioText.set startPosition (((b.blockC &&& 0xFF00) >>> 8) % 256)
  let t1 := t0.set (startPosition + 1) ((b.blockC &&& 0x00FF) % 256)
  let t2 := t1.set (startPosition + 2) (((b.blockD &&& 0xFF00) >>> 8) % 256)
  let t3 := t2.set (startPosition + 3) ((b.blockD &&& 0x00FF) % 256)
  { d1 with m_group2 := { d1.m_group2 with radioText := t3 } }

/-- `setRadioText2B`. -/
def setRadioText2B (d : RdsDecoder) (b : RdsDataBlocks) : RdsDecoder :=
  let d1 := prepareRadioText d b
  let startPosition :=
    if (b.blockB &&& 0x000F) ≠ 0 then ((b.blockB &&& 0x000F) * 2) % 256 else 0
  let t0 := d1.m_group2.radioText.set startPosition (((b.blockD &&& 0xFF00) >>> 8) % 256)
  let t1 := t0.set (startPosition + 1) ((b.blockD &&& 0x00FF) % 256)
  { d1 with m_group2 := { d1.m_group2 with radioText := t1 } }

/-- `prepareTimeAndDate`: the fields are bit-fields of 17, 5, 6, 1 and 5 bits. -/
def prepareTimeAndDate (d : RdsDecoder) (b : RdsDataBlocks) : RdsDecoder :=
  let modifiedJulianDay :=
    (((b.blockB &&& 0x0003) <<< 14) ||| (b.blockC &&& 0xFFFE)) % 131072
  let hour := ((((b.blockC &&& 0x0001) <<< 5) ||| ((b.blockD &&& 0xF000) >>> 12)) % 65536) % 32
  let minute := (((b.blockD &&& 0x0FC0) >>> 6) % 65536) % 64
  let timeOffsetType := decide ((b.blockD &&& 0x0020) ≠ 0)
  let localTimeOffset := ((b.blockD &&& 0x001F) % 65536) % 32
  let hour := if hour > 23 then 23 else hour
  let minute := if minute > 59 then 59 else minute
  { d with m_group4A :=
      { modifiedJulianDay := modifiedJulianDay, hour := hour, minute := minute,
        timeOffsetType := timeOffsetType, localTimeOffset := localTimeOffset } }

/-- `setDate`: the fields of `m_date` are bit-fields of 7, 4, 5, 4 and 7 bits. -/
def setDate (d : RdsDecoder) : RdsDecoder :=
  let mjd := d.m_group4A.modifiedJulianDay
  let year0 := castU8 (((mjd : ℚ) - 15078.2) / 365.25)
  let month0 :=
    castU8 ((mjd : ℚ) - 14956.1 - ((castU16 ((year0 : ℚ) * 365.25) : Nat) : ℚ) / 30.6001)
  let day :=
    toU8 ((mjd : Int) - 14956 - (castU16 ((year0 : ℚ) * 365.25) : Nat) -
      (castU8 ((month0 : ℚ) * 30.6001) : Nat)) % 32
  let year := if month0 = 14 ∨ month0 = 15 then (year0 + 1) % 128 else year0 % 128
  let month :=
    if month0 = 14 ∨ month0 = 15 then ((((month0 : Int) - 2) * 12) % 16).toNat
    else ((((month0 : Int) - 1) * 12) % 16).toNat
  let weekDay := ((((mjd + 2) % 7) + 1) % 256) % 16
  let week := castU16 (((mjd / 7 : Nat) : ℚ) - 2144.64)
  let weekYear := castU8 ((((week * 28) / 1461 : Nat) : ℚ) - 0.0079)
  let weekNumber :=
    toU8 ((week : Int) - (castU16 ((((weekYear * 1461) / 28 : Nat) : ℚ) + 0.41) : Nat)) % 128
  let day := if day > 31 then 31 else if day = 0 then 1 else day
  let month := if month > 12 then 12 else if month = 0 then 1 else month
  let weekDay := if weekDay > 7 then 7 else if weekDay = 0 then 1 else weekDay
  let weekNumber := if weekNumber > 53 then 53 else if weekNumber = 0 then 1 else weekNumber
  { d with m_date :=
      { year := year, month := month, day := day, weekDay := weekDay,
        weekNumber := weekNumber } }

/-- The integer part of `setDate`: the values it stores in `m_date` once its
float-to-integer casts have produced `year0`, `c16`, `month0`, `c8`, `week` and `w16`
(the lemma `setDate_of_casts` ties the two together). -/
def dateOfCasts (mjd year0 c16 month0 c8 week w16 : Nat) : DateData :=
  let day := toU8 ((mjd : Int) - 14956 - (c16 : Nat) - (c8 : Nat)) % 32
  let year := if month0 = 14 ∨ month0 = 15 then (year0 + 1) % 128 else year0 % 128
  let month :=
    if month0 = 14 ∨ month0 = 15 then ((((month0 : Int) - 2) * 12) % 16).toNat
    else ((((month0 : Int) - 1) * 12) % 16).toNat
  let weekDay := ((((mjd + 2) % 7) + 1) % 256) % 16
  let weekNumber := toU8 ((week : Int) - (w16 : Nat)) % 128
  let day := if day > 31 then 31 else if day = 0 then 1 else day
  let month := if month > 12 then 12 else if month = 0 then 1 else month
  let weekDay := if weekDay > 7 then 7 else if weekDay = 0 then 1 else weekDay
  let weekNumber := if weekNumber > 53 then 53 else if weekNumber = 0 then 1 else weekNumber
  { year := year, month := month, day := day, weekDay := weekDay, weekNumber := weekNumber }

/-- `setProgrammeTypeName`. -/
def setProgrammeTypeName (d : RdsDecoder) (b : RdsDataBlocks) : RdsDecoder :=
  if (b.blockB &&& 0x000E) ≠ 0 then d else
  let g0 : Group10A :=
    if (b.blockB &&& 0x0010) ≠ (if d.m_group10A.nameAbFlag then 1 else 0) then
      let flag := decide ((b.blockB &&& 0x0010) ≠ 0)
      { nameAbFlag := flag, programmeTypeName := List.replicate 9 0 }
    else d.m_group10A
  let first := if (b.blockB &&& 0x0001) ≠ 0 then 4 else 0
  let t0 := g0.programmeTypeName.set first (((b.blockC &&& 0xFF00) >>> 8) % 256)
  let t1 := t0.set (first + 1) ((b.blockC &&& 0x00FF) % 256)
  let t2 := t1.set (first + 2) (((b.blockD &&& 0xFF00) >>> 8) % 256)
  let t3 := t2.set (first + 3) ((b.blockD &&& 0x00FF) % 256)
  { d with m_group10A := { g0 with programmeTypeName := t3 } }

/-- `decodeReceivedData` with the end of the function left open: the common fields,
then the `switch` over the group type code.  The switch has eight cases and no default,
and nothing follows it: for every other code control reaches the closing brace without a
`return`, which is undefined in a function that returns a value.  The result is then
whatever `fall` yields from the state the common setters have left. -/
def decodeReceivedDataWith (shl : Int → Int → Int)
    (fall : RdsDecoder → RdsDataBlocks → Option groupType × RdsDecoder)
    (d : RdsDecoder) (b : RdsDataBlocks) : Option groupType × RdsDecoder :=
  let d := setCountryCode d b
  let d := setProgrammeAreaCoverage d b
  let d := setProgrammeReferenceNumber d b
  let d := setTrafficProgramme d b
  let d := setProgrammeTypeCode d b
  match getGroupTypeCode b with
  | groupType.g0A => (some groupType.g0A, setProgrammeServiceName shl d b)
  | groupType.g0B => (some groupType.g0B, setProgrammeServiceName shl d b)
  | groupType.g1A =>
    (some groupType.g1A,
      setLanguageCode (setProgrammeItemNumberCode (setExtendedCountryCode d b) b) b)
  | groupType.g1B => (some groupType.g1B, setProgrammeItemNumberCode d b)
  | groupType.g2A => (some groupType.g2A, setRadioText2A (prepareRadioText d b) b)
  | groupType.g2B => (some groupType.g2B, setRadioText2B (prepareRadioText d b) b)
  | groupType.g4A => (some groupType.g4A, setDate (prepareTimeAndDate d b))
  | groupType.g10A => (some groupType.g10A, setProgrammeTypeName d b)
  | _ => fall d b

/-- `decodeReceivedData` in the instance where control that reaches the end of the
function changes nothing and returns no value (`Option.none`). -/
def decodeReceivedData (shl : Int → Int → Int) (d : RdsDecoder) (b : RdsDataBlocks) :
    Option groupType × RdsDecoder :=
  decodeReceivedDataWith shl (fun s _ => (Option.none, s)) d b

/-! ### Accessors of `RdsDecoder.h` -/

/-- `getTrafficAnnouncement`. -/
def getTrafficAnnouncement (d : RdsDecoder) : Bool := d.m_group0.trafficAnnouncement

/-- `getMusicOrSpeech`. -/
def getMusicOrSpeech (d : RdsDecoder) : Bool := d.m_group0.musicSpeech

/-- `getDecoderMono`: false when bit 0 of the decoder-control bits is set. -/
def getDecoderMono (d : RdsDecoder) : Bool :=
  if (d.m_group0.decoderControlBits &&& 0x1) ≠ 0 then false else true

/-- `getDecoderNotArtificialHead`: false when bit 1 of the decoder-control bits is set. -/
def getDecoderNotArtificialHead (d : RdsDecoder) : Bool :=
  if (d.m_group0.decoderControlBits &&& 0x2) ≠ 0 then false else true

/-- `getDecoderNotCompressed`: false when bit 2 of the decoder-control bits is set. -/
def getDecoderNotCompressed (d : RdsDecoder) : Bool :=
  if (d.m_group0.decoderControlBits &&& 0x4) ≠ 0 then false else true

/-- `getDecoderStaticProgrammeTypeCode`: false when bit 3 of the decoder-control bits is
set. -/
def getDecoderStaticProgrammeTypeCode (d : RdsDecoder) : Bool :=
  if (d.m_group0.decoderControlBits &&& 0x8) ≠ 0 then false else true

/-- `getLanguageCode`. -/
def getLanguageCode (d : RdsDecoder) : Nat := d.m_group1.languageCode

/-- `getProgrammeTypeName`. -/
def getProgrammeTypeName (d : RdsDecoder) : List Nat := d.m_group10A.programmeTypeName

/-- `getProgrammeServiceName`. -/
def getProgrammeServiceName (d : RdsDecoder) : List Nat := d.m_group0.programmeServiceName

/-- `getRadioText`. -/
def getRadioText (d : RdsDecoder) : List Nat := d.m_group2.radioText

/-- `getYear`. -/
def getYear (d : RdsDecoder) : Nat := d.m_date.year

/-- `getMonth`. -/
def getMonth (d : RdsDecoder) : Nat := d.m_date.month

/-- `getDay`. -/
def getDay (d : RdsDecoder) : Nat := d.m_date.day

/-- `getWeekDay`. -/
def getWeekDay (d : RdsDecoder) : Nat := d.m_date.weekDay

/-- `getWeekNumber`. -/
def getWeekNumber (d : RdsDecoder) : Nat := d.m_date.weekNumber

/-- `getHour`. -/
def getHour (d : RdsDecoder) : Nat := d.m_group4A.hour

/-- `getMinute`. -/
def getMinute (d : RdsDecoder) : Nat := d.m_group4A.minute

/-- The standard conversion of a Modified Julian Day to (year since 1900, month, day),
written after the words of the specification, in exact arithmetic; it is what `setDate`
is compared with. -/
def standardMjdDate (m : Nat) : Int × Int × Int :=
  let y : Int := Rat.floor (((m : ℚ) - 15078.2) / 365.25)
  let mo : Int := Rat.floor (((m : ℚ) - 14956.1 - (Rat.floor ((y : ℚ) * 365.25) : Int)) / 30.6001)
  let day : Int := (m : Int) - 14956 - Rat.floor ((y : ℚ) * 365.25) - Rat.floor ((mo : ℚ) * 30.6001)
  let k : Int := if mo = 14 ∨ mo = 15 then 1 else 0
  (y + k, mo - 1 - 12 * k, day)

/-- The day of the week counted from the epoch, written after the words of the
specification: day 0 of the Modified Julian Day count (17 November 1858) is a Wednesday
(3, with 1 = Monday and 7 = Sunday) and every day is followed by the next day of the
week; it is what the `weekDay` of `setDate` is compared with. -/
def weekDayFromEpoch : Nat → Nat
  | 0 => 3
  | m + 1 => if weekDayFromEpoch m = 7 then 1 else weekDayFromEpoch m + 1

end RdsDecoder

/-! ## Lemmas -/

theorem and_ff_eq_mod (x : Nat) : x &&& 0x00FF = x % 256 :=
  Nat.and_pow_two_sub_one_eq_mod x 8

theorem and_ff00_shift (x : Nat) : (x &&& 0xFF00) >>> 8 = x / 256 % 256 := by
  have h : (x &&& 0xFF00) >>> 8 = (x >>> 8) &&& 0xFF := by
    apply Nat.eq_of_testBit_eq
    intro j
    have h3 : Nat.testBit (255 <<< 8) (8 + j) = Nat.testBit 255 j := by
      rw [Nat.testBit_shiftLeft]; simp
    have h2 : (255 <<< 8 : Nat) = 65280 := by decide
    rw [h2] at h3
    simp [h3]
  rw [h, Nat.shiftRight_eq_div_pow]
  exact Nat.and_pow_two_sub_one_eq_mod (x / 2 ^ 8) 8

theorem toU16_natCast (a : Nat) : toU16 (a : Int) = a % 65536 := by
  unfold toU16
  omega

theorem shift_or_bytes (a b : Nat) (ha : a < 256) (hb : b < 256) :
    (a <<< 8) % 65536 ||| b = 256 * a + b := by
  have h1 : a <<< 8 = 2 ^ 8 * a := by rw [Nat.shiftLeft_eq, Nat.mul_comm]
  have h2 : (2 ^ 8 * a) % 65536 = 2 ^ 8 * a := Nat.mod_eq_of_lt (by omega)
  rw [h1, h2, ← Nat.mul_add_lt_is_or (by omega : b < 2 ^ 8) a]

theorem toU16_offset (f m : Nat) (h1 : 650 ≤ f) (h2 : f ≤ 1080) (h3 : 500 ≤ m)
    (h4 : m ≤ 870) :
    toU16 (((f : Int) - (m : Int)) * 100) =
      if m ≤ f then (f - m) * 100 else 65536 - (m - f) * 100 := by
  unfold toU16
  split
  · have h : ((f : Int) - (m : Int)) * 100 % 65536 = ((f : Int) - (m : Int)) * 100 :=
      Int.emod_eq_of_lt (by omega) (by omega)
    rw [h]
    omega
  · have h : ((f : Int) - (m : Int)) * 100 % 65536 =
        ((f : Int) - (m : Int)) * 100 + 65536 := by
      rw [← Int.add_emod_self]
      exact Int.emod_eq_of_lt (by omega) (by omega)
    rw [h]
    omega

theorem list_of_length_twelve (l : List Nat) (h : l.length = 12) :
    ∃ b0 b1 b2 b3 b4 b5 b6 b7 b8 b9 b10 b11,
      l = [b0, b1, b2, b3, b4, b5, b6, b7, b8, b9, b10, b11] := by
  obtain _ | ⟨b0, l⟩ := l
  · simp at h
  obtain _ | ⟨b1, l⟩ := l
  · simp at h
  obtain _ | ⟨b2, l⟩ := l
  · simp at h
  obtain _ | ⟨b3, l⟩ := l
  · simp at h
  obtain _ | ⟨b4, l⟩ := l
  · simp at h
  obtain _ | ⟨b5, l⟩ := l
  · simp at h
  obtain _ | ⟨b6, l⟩ := l
  · simp at h
  obtain _ | ⟨b7, l⟩ := l
  · simp at h
  obtain _ | ⟨b8, l⟩ := l
  · simp at h
  obtain _ | ⟨b9, l⟩ := l
  · simp at h
  obtain _ | ⟨b10, l⟩ := l
  · simp at h
  obtain _ | ⟨b11, l⟩ := l
  · simp at h
  obtain _ | ⟨b12, l⟩ := l
  · exact ⟨b0, b1, b2, b3, b4, b5, b6, b7, b8, b9, b10, b11, rfl⟩
  · simp at h

namespace RDA5807

theorem i2cReadShort_cons (w : TwoWire) (a b : Nat) (rest : List Nat)
    (h : w.rxBuffer = a :: b :: rest) (ha : a < 256) (hb : b < 256) :
    i2cReadShort w = (256 * a + b, { w with rxBuffer := rest }) := by
  have ha2 : a % 65536 = a := Nat.mod_eq_of_lt (by omega)
  have hb2 : b % 65536 = b := Nat.mod_eq_of_lt (by omega)
  simp only [i2cReadShort, TwoWire.read, h, Int.ofNat_eq_coe, toU16_natCast, ha2, hb2,
    shift_or_bytes a b ha hb]

theorem i2cWriteShort_eq (w : TwoWire) (data : Nat) :
    i2cWriteShort w data =
      { w with txBuffer := w.txBuffer ++ [data / 256 % 256, data % 256] } := by
  simp [i2cWriteShort, TwoWire.write, and_ff_eq_mod, and_ff00_shift]

theorem i2cWriteRegister_eq (s : RDA5807) (reg value : Nat) :
    s.i2cWriteRegister reg value =
      { s with Wire :=
          { s.Wire with
            txAddress := 0x11
            txBuffer := []
            log := s.Wire.log ++
              [BusEvent.transmit 0x11 [reg % 256, value / 256 % 256, value % 256] true] } } := by
  simp [i2cWriteRegister, i2cWriteShort_eq, TwoWire.write, TwoWire.beginTransmission,
    TwoWire.endTransmission]

theorem writeRegsCheckSet_self (c : RDAWriteRegistersCheck) (i : Nat) :
    writeRegsCheckSet c i (writeRegsCheck c i) = c := by
  obtain _ | _ | _ | _ | _ | _ | i := i <;> rfl

theorem writeRegsCheck_set_ne (c : RDAWriteRegistersCheck) (i j v : Nat)
    (hi : i < 7) (hj : j < 7) (hne : j ≠ i) :
    writeRegsCheck (writeRegsCheckSet c i v) j = writeRegsCheck c j := by
  interval_cases i <;> interval_cases j <;> first | rfl | exact absurd rfl hne

theorem writeModifiedStep_regs (s : RDA5807) (i : Nat) :
    (writeModifiedStep s i).m_rdaWriteRegisters = s.m_rdaWriteRegisters := by
  unfold writeModifiedStep
  split <;> simp [i2cWriteRegister_eq]

theorem writeModifiedStep_read (s : RDA5807) (i : Nat) :
    (writeModifiedStep s i).m_rdaReadRegisters = s.m_rdaReadRegisters := by
  unfold writeModifiedStep
  split <;> simp [i2cWriteRegister_eq]

theorem writeModifiedStep_check (s : RDA5807) (i : Nat) :
    (writeModifiedStep s i).m_rdaWriteRegistersCheck =
      writeRegsCheckSet s.m_rdaWriteRegistersCheck i (writeRegs s.m_rdaWriteRegisters i) := by
  unfold writeModifiedStep
  split
  · simp [i2cWriteRegister_eq]
  · rename_i h
    have h2 : writeRegsCheck s.m_rdaWriteRegistersCheck i = writeRegs s.m_rdaWriteRegisters i :=
      not_not.mp h
    rw [← h2, writeRegsCheckSet_self]

theorem writeModifiedStep_log (s : RDA5807) (i : Nat) :
    (writeModifiedStep s i).Wire.log =
      s.Wire.log ++
        (if writeRegsCheck s.m_rdaWriteRegistersCheck i ≠ writeRegs s.m_rdaWriteRegisters i then
          [BusEvent.transmit 0x11
            [i % 256, writeRegs s.m_rdaWriteRegisters i / 256 % 256,
              writeRegs s.m_rdaWriteRegisters i % 256] true]
        else []) := by
  unfold writeModifiedStep
  split <;> simp [i2cWriteRegister_eq]

theorem foldl_writeModifiedStep_regs (l : List Nat) (s : RDA5807) :
    (l.foldl writeModifiedStep s).m_rdaWriteRegisters = s.m_rdaWriteRegisters := by
  induction l generalizing s with
  | nil => rfl
  | cons i l ih => rw [List.foldl_cons, ih, writeModifiedStep_regs]

theorem foldl_writeModifiedStep_read (l : List Nat) (s : RDA5807) :
    (l.foldl writeModifiedStep s).m_rdaReadRegisters = s.m_rdaReadRegisters := by
  induction l generalizing s with
  | nil => rfl
  | cons i l ih => rw [List.foldl_cons, ih, writeModifiedStep_read]

theorem foldl_writeModifiedStep_check (l : List Nat) (s : RDA5807) :
    (l.foldl writeModifiedStep s).m_rdaWriteRegistersCheck =
      l.foldl (fun c i => writeRegsCheckSet c i (writeRegs s.m_rdaWriteRegisters i))
        s.m_rdaWriteRegistersCheck := by
  induction l generalizing s with
  | nil => rfl
  | cons i l ih =>
    rw [List.foldl_cons, ih, writeModifiedStep_check, writeModifiedStep_regs, List.foldl_cons]

theorem foldl_writeModifiedStep_log (l : List Nat) (hl : l.Nodup) (hb : ∀ i ∈ l, i < 7)
    (s : RDA5807) :
    (l.foldl writeModifiedStep s).Wire.log =
      s.Wire.log ++
        (l.filter (fun i =>
            decide (writeRegsCheck s.m_rdaWriteRegistersCheck i ≠
              writeRegs s.m_rdaWriteRegisters i))).map
          (fun i => BusEvent.transmit 0x11
            [i % 256, writeRegs s.m_rdaWriteRegisters i / 256 % 256,
              writeRegs s.m_rdaWriteRegisters i % 256] true) := by
  induction l generalizing s with
  | nil => simp
  | cons i l ih =>
    have hi : i < 7 := hb i (List.mem_cons_self i l)
    have hnd := List.nodup_cons.mp hl
    have hfil :
        l.filter (fun j =>
          decide (writeRegsCheck (writeModifiedStep s i).m_rdaWriteRegistersCheck j ≠
            writeRegs (writeModifiedStep s i).m_rdaWriteRegisters j)) =
        l.filter (fun j =>
          decide (writeRegsCheck s.m_rdaWriteRegistersCheck j ≠
            writeRegs s.m_rdaWriteRegisters j)) := by
      apply List.filter_congr
      intro j hj
      have hj7 : j < 7 := hb j (List.mem_cons_of_mem i hj)
      have hne : j ≠ i := fun h => hnd.1 (h ▸ hj)
      rw [writeModifiedStep_check, writeModifiedStep_regs,
        writeRegsCheck_set_ne _ _ _ _ hi hj7 hne]
    rw [List.foldl_cons, ih hnd.2 (fun j hj => hb j (List.mem_cons_of_mem i hj)), hfil,
      writeModifiedStep_log, writeModifiedStep_regs, List.filter_cons]
    by_cases h : writeRegsCheck s.m_rdaWriteRegistersCheck i = writeRegs s.m_rdaWriteRegisters i
    · simp [h]
    · simp [h]

/-- C1. `writeModifiedRegistersToReceiver` puts on the bus exactly one three-byte
transmission for each of the seven writable registers whose value differs from its
copy in the check struct and none for the others, in ascending register order, each
carrying the high and the low byte of that register's current value (the first byte
is the loop index `i` handed to `i2cWriteRegister`); afterwards every entry of the check
struct equals its register, and the write registers and the status registers are
unchanged. -/
theorem writeModifiedRegistersToReceiver_spec (s : RDA5807) :
    (s.writeModifiedRegistersToReceiver).Wire.log =
        s.Wire.log ++
          ((List.range 7).filter (fun i =>
              decide (writeRegsCheck s.m_rdaWriteRegistersCheck i ≠
                writeRegs s.m_rdaWriteRegisters i))).map
            (fun i => BusEvent.transmit 0x11
              [i, writeRegs s.m_rdaWriteRegisters i / 256 % 256,
                writeRegs s.m_rdaWriteRegisters i % 256] true)
      ∧ (s.writeModifiedRegistersToReceiver).m_rdaWriteRegistersCheck =
          { reg02 := s.m_rdaWriteRegisters.reg02, reg03 := s.m_rdaWriteRegisters.reg03,
            reg04 := s.m_rdaWriteRegisters.reg04, reg05 := s.m_rdaWriteRegisters.reg05,
            reg06 := s.m_rdaWriteRegisters.reg06, reg07 := s.m_rdaWriteRegisters.reg07,
            reg08 := s.m_rdaWriteRegisters.reg08 }
      ∧ (s.writeModifiedRegistersToReceiver).m_rdaWriteRegisters = s.m_rdaWriteRegisters
      ∧ (s.writeModifiedRegistersToReceiver).m_rdaReadRegisters = s.m_rdaReadRegisters := by
  unfold writeModifiedRegistersToReceiver
  refine ⟨?_, ?_, foldl_writeModifiedStep_regs _ s, foldl_writeModifiedStep_read _ s⟩
  · rw [foldl_writeModifiedStep_log _ (List.nodup_range 7)
      (fun i hi => List.mem_range.mp hi)]
    congr 1
    apply List.map_congr_left
    intro i hi
    have hi7 : i < 7 := List.mem_range.mp (List.mem_of_mem_filter hi)
    rw [Nat.mod_eq_of_lt (by omega)]
  · rw [foldl_writeModifiedStep_check]
    rfl

/-- C2 (evaluation at the failing input). On the power-on image with only the mute bit
of register 02 changed, `writeModifiedRegistersToReceiver` addresses its single write
with selector `0x00`, while `updateMute` sends the same register value with selector
`0x02`. -/
theorem writeModified_selector_is_loop_index :
    (((RDA5807.init (fun _ => [])).setMute false).writeModifiedRegistersToReceiver).Wire.log =
        [BusEvent.transmit 0x11 [0x00, 0x40, 0x00] true]
      ∧ ((RDA5807.init (fun _ => [])).updateMute false).Wire.log =
        [BusEvent.transmit 0x11 [0x02, 0x40, 0x00] true] := by
  constructor
  · decide
  · decide

/-- C4. `writeSettingsToReceiver` adds to the bus log a single transmission to address
`0x10` whose payload is the fourteen bytes high byte, low byte of registers 02, 03, 04,
05, 06, 07, 08 in that order, and changes no register of the image. -/
theorem writeSettingsToReceiver_spec (s : RDA5807) :
    (s.writeSettingsToReceiver).Wire.log =
        s.Wire.log ++
          [BusEvent.transmit 0x10
            [s.m_rdaWriteRegisters.reg02 / 256 % 256, s.m_rdaWriteRegisters.reg02 % 256,
             s.m_rdaWriteRegisters.reg03 / 256 % 256, s.m_rdaWriteRegisters.reg03 % 256,
             s.m_rdaWriteRegisters.reg04 / 256 % 256, s.m_rdaWriteRegisters.reg04 % 256,
             s.m_rdaWriteRegisters.reg05 / 256 % 256, s.m_rdaWriteRegisters.reg05 % 256,
             s.m_rdaWriteRegisters.reg06 / 256 % 256, s.m_rdaWriteRegisters.reg06 % 256,
             s.m_rdaWriteRegisters.reg07 / 256 % 256, s.m_rdaWriteRegisters.reg07 % 256,
             s.m_rdaWriteRegisters.reg08 / 256 % 256, s.m_rdaWriteRegisters.reg08 % 256] true]
      ∧ (s.writeSettingsToReceiver).m_rdaWriteRegisters = s.m_rdaWriteRegisters
      ∧ (s.writeSettingsToReceiver).m_rdaReadRegisters = s.m_rdaReadRegisters
      ∧ (s.writeSettingsToReceiver).m_rdaWriteRegistersCheck = s.m_rdaWriteRegistersCheck := by
  simp [writeSettingsToReceiver, i2cWriteShort_eq, TwoWire.beginTransmission,
    TwoWire.endTransmission]

/-- C5. `readSettingsFromReceiver` returns true exactly when the receive buffer holds
twelve bytes after the request; in that case registers 0A..0F are, in order, the six
values `256 * high + low` of the consecutive byte pairs, and otherwise they keep their
values; the write registers and the check struct are unchanged in both cases. -/
theorem readSettingsFromReceiver_spec (s : RDA5807) :
    (s.readSettingsFromReceiver).1 =
        decide ((s.Wire.requestFrom 0x10 12).rxBuffer.length = 12)
      ∧ (s.readSettingsFromReceiver).2.m_rdaReadRegisters =
        (if (s.Wire.requestFrom 0x10 12).rxBuffer.length = 12 then
          { reg0A := 256 * (s.Wire.requestFrom 0x10 12).rxBuffer.getD 0 0 +
              (s.Wire.requestFrom 0x10 12).rxBuffer.getD 1 0
            reg0B := 256 * (s.Wire.requestFrom 0x10 12).rxBuffer.getD 2 0 +
              (s.Wire.requestFrom 0x10 12).rxBuffer.getD 3 0
            reg0C := 256 * (s.Wire.requestFrom 0x10 12).rxBuffer.getD 4 0 +
              (s.Wire.requestFrom 0x10 12).rxBuffer.getD 5 0
            reg0D := 256 * (s.Wire.requestFrom 0x10 12).rxBuffer.getD 6 0 +
              (s.Wire.requestFrom 0x10 12).rxBuffer.getD 7 0
            reg0E := 256 * (s.Wire.requestFrom 0x10 12).rxBuffer.getD 8 0 +
              (s.Wire.requestFrom 0x10 12).rxBuffer.getD 9 0
            reg0F := 256 * (s.Wire.requestFrom 0x10 12).rxBuffer.getD 10 0 +
              (s.Wire.requestFrom 0x10 12).rxBuffer.getD 11 0 }
        else s.m_rdaReadRegisters)
      ∧ (s.readSettingsFromReceiver).2.m_rdaWriteRegisters = s.m_rdaWriteRegisters
      ∧ (s.readSettingsFromReceiver).2.m_rdaWriteRegistersCheck =
          s.m_rdaWriteRegistersCheck := by
  have hbyte : ∀ b ∈ (s.Wire.requestFrom 0x10 12).rxBuffer, b < 256 := by
    intro b hb
    simp only [TwoWire.requestFrom, List.mem_map] at hb
    obtain ⟨a, _, rfl⟩ := hb
    omega
  generalize hw : s.Wire.requestFrom 0x10 12 = w at hbyte ⊢
  unfold readSettingsFromReceiver
  simp only [hw, TwoWire.available]
  by_cases hlen : w.rxBuffer.length = 12
  · obtain ⟨b0, b1, b2, b3, b4, b5, b6, b7, b8, b9, b10, b11, hb⟩ :
        ∃ b0 b1 b2 b3 b4 b5 b6 b7 b8 b9 b10 b11,
          w.rxBuffer = [b0, b1, b2, b3, b4, b5, b6, b7, b8, b9, b10, b11] := by
      exact list_of_length_twelve _ hlen
    have hlt : ∀ b ∈ [b0, b1, b2, b3, b4, b5, b6, b7, b8, b9, b10, b11], b < 256 :=
      hb ▸ hbyte
    simp only [List.mem_cons, List.mem_singleton, forall_eq_or_imp, forall_eq,
      List.not_mem_nil, false_implies, implies_true, and_true] at hlt
    obtain ⟨h0, h1, h2, h3, h4, h5, h6, h7, h8, h9, h10, h11⟩ := hlt
    rw [i2cReadShort_cons w b0 b1 _ hb h0 h1]
    rw [i2cReadShort_cons _ b2 b3 _ rfl h2 h3]
    rw [i2cReadShort_cons _ b4 b5 _ rfl h4 h5]
    rw [i2cReadShort_cons _ b6 b7 _ rfl h6 h7]
    rw [i2cReadShort_cons _ b8 b9 _ rfl h8 h9]
    rw [i2cReadShort_cons _ b10 b11 _ rfl h10 h11]
    simp [hb]
  · simp [hlen]

theorem updateReceivedFrequency_false_iff (fuel : Nat) (s : RDA5807) (freq : Nat) :
    Option.map Prod.fst (s.updateReceivedFrequency fuel freq) = some false ↔
      ((!s.get65mMode && decide (freq < 500)) = true ∨ (freq < 650 ∨ freq > 1080) ∨
        channelOfFrequency s.getBand (!s.get65mMode) freq = none) := by
  unfold updateReceivedFrequency
  by_cases h1 : (!s.get65mMode && decide (freq < 500)) = true
  · simp [h1]
  · by_cases h2 : freq < 650 ∨ freq > 1080
    · simp [h1, h2]
    · cases hc : channelOfFrequency s.getBand (!s.get65mMode) freq with
      | none => simp [h1, h2, hc]
      | some channel =>
        simp only [h1, h2, hc, if_false, false_or, Bool.false_eq_true]
        by_cases hm : s.getAlternativeFrequencySettingMode = true
        · simp [hm]
        · simp only [hm, if_false, Bool.false_eq_true]
          cases tunePoll fuel _ <;> simp

/-- C6. Whenever `updateReceivedFrequency` returns false, the driver state it returns is
the state it was called in: no write register, status register or check entry is
modified and nothing is added to the bus log (no transmission, no read request). -/
theorem updateReceivedFrequency_false_unchanged (fuel : Nat) (s : RDA5807) (freq : Nat)
    (r : Bool × RDA5807) (h : s.updateReceivedFrequency fuel freq = some r)
    (hr : r.1 = false) : r.2 = s := by
  unfold updateReceivedFrequency at h
  by_cases h1 : (!s.get65mMode && decide (freq < 500)) = true
  · simp only [h1, if_true, Option.some.injEq] at h
    rw [← h]
  · by_cases h2 : freq < 650 ∨ freq > 1080
    · simp only [h1, h2, if_true, if_false, Option.some.injEq, Bool.false_eq_true] at h
      rw [← h]
    · cases hc : channelOfFrequency s.getBand (!s.get65mMode) freq with
      | none =>
        simp only [h1, h2, hc, if_false, Option.some.injEq, Bool.false_eq_true] at h
        rw [← h]
      | some channel =>
        simp only [h1, h2, hc, if_false, Bool.false_eq_true] at h
        by_cases hm : s.getAlternativeFrequencySettingMode = true
        · simp only [hm, if_true, Option.some.injEq] at h
          rw [← h] at hr
          simp at hr
        · simp only [hm, if_false, Bool.false_eq_true] at h
          revert h
          generalize tunePoll fuel _ = t
          intro h
          cases t with
          | none => simp at h
          | some s4 =>
            simp only [Option.some.injEq] at h
            rw [← h] at hr
            simp at hr

theorem updateReceivedFrequency_false_unchanged_witness :
    (RDA5807.init (fun _ => [])).updateReceivedFrequency 0 1081 =
        some (false, RDA5807.init (fun _ => []))
      ∧ (false, RDA5807.init (fun _ => [])).2 = RDA5807.init (fun _ => []) :=
  ⟨rfl, updateReceivedFrequency_false_unchanged 0 (RDA5807.init (fun _ => [])) 1081
    (false, RDA5807.init (fun _ => [])) rfl rfl⟩

/-- Inside the working range 650..1080 the band switch accepts exactly the band's
range and the channel is the plain product, without wrap-around. -/
theorem channelOfFrequency_eq (b : band) (o : Bool) (f : Nat) (h1 : 650 ≤ f)
    (h2 : f ≤ 1080) :
    channelOfFrequency b o f =
      match b with
      | band.usEurope => if 870 ≤ f then some ((f - 870) * 100) else none
      | band.japan => if 760 ≤ f ∧ f ≤ 910 then some ((f - 760) * 100) else none
      | band.worldWide => if 760 ≤ f then some ((f - 760) * 100) else none
      | band.eastEurope =>
        if o then (if f ≤ 760 then some ((f - 500) * 100) else none)
        else (if f ≤ 760 then some ((f - 650) * 100) else none) := by
  have h870 := toU16_offset f 870 h1 h2 (by norm_num) (by norm_num)
  have h760 := toU16_offset f 760 h1 h2 (by norm_num) (by norm_num)
  have h650 := toU16_offset f 650 h1 h2 (by norm_num) (by norm_num)
  have h500 := toU16_offset f 500 h1 h2 (by norm_num) (by norm_num)
  simp only [Nat.cast_ofNat] at h870 h760 h650 h500
  cases b <;> cases o <;>
    simp only [channelOfFrequency, h870, h760, h650, h500] <;>
    repeat (first | split | omega | (simp; omega) | simp)

/-- C7. `updateReceivedFrequency` returns false exactly for the frequencies outside the
range of the selected band: 870..1080 for US/Europe, 760..910 for Japan, 760..1080 for
world-wide and 650..760 for East Europe with the 65 MHz sub-band selected.  Both end
points are accepted, and the frequencies below the minimum are rejected although the
channel is computed in 16-bit unsigned arithmetic. -/
theorem updateReceivedFrequency_rejects_iff_out_of_band (fuel : Nat) (s : RDA5807)
    (f lo hi : Nat)
    (hband : (s.getBand = band.usEurope ∧ lo = 870 ∧ hi = 1080) ∨
      (s.getBand = band.japan ∧ lo = 760 ∧ hi = 910) ∨
      (s.getBand = band.worldWide ∧ lo = 760 ∧ hi = 1080) ∨
      (s.getBand = band.eastEurope ∧ s.get65mMode = true ∧ lo = 650 ∧ hi = 760)) :
    Option.map Prod.fst (s.updateReceivedFrequency fuel f) = some false ↔
      (f < lo ∨ hi < f) := by
  rw [updateReceivedFrequency_false_iff]
  by_cases hr : f < 650 ∨ f > 1080
  · have hout : f < lo ∨ hi < f := by
      rcases hband with ⟨_, rfl, rfl⟩ | ⟨_, rfl, rfl⟩ | ⟨_, rfl, rfl⟩ | ⟨_, _, rfl, rfl⟩ <;>
        omega
    simp [hr, hout]
  · have h1 : 650 ≤ f := by omega
    have h2 : f ≤ 1080 := by omega
    have h500 : ¬ f < 500 := by omega
    rw [channelOfFrequency_eq _ _ f h1 h2]
    simp only [hr, h500, decide_False, Bool.and_false, Bool.false_eq_true, false_or]
    rcases hband with ⟨hb, rfl, rfl⟩ | ⟨hb, rfl, rfl⟩ | ⟨hb, rfl, rfl⟩ | ⟨hb, hm, rfl, rfl⟩
    · rw [hb]; simp only []; split <;> simp <;> omega
    · rw [hb]; simp only []; split <;> simp <;> omega
    · rw [hb]; simp only []; split <;> simp <;> omega
    · rw [hb, hm]; simp only [Bool.not_true, Bool.false_eq_true, if_false]
      split <;> simp <;> omega

theorem updateReceivedFrequency_rejects_iff_out_of_band_witness :
    (Option.map Prod.fst ((RDA5807.init (fun _ => [])).updateReceivedFrequency 1 869) =
        some false ↔ (869 < 870 ∨ 1080 < 869)) :=
  updateReceivedFrequency_rejects_iff_out_of_band 1 (RDA5807.init (fun _ => [])) 869 870 1080
    (Or.inl ⟨by decide, rfl, rfl⟩)

/-- C8 (evaluation at the failing input). With the East-Europe band selected and the
65 MHz flag cleared, `updateReceivedFrequency(500)` returns false and leaves the driver
state untouched; the lowest frequency it accepts is 650 (channel 150 at 100 kHz
spacing). -/
theorem updateReceivedFrequency_eastEurope_50M_rejects_500 :
    (((RDA5807.init (fun _ => [])).setBand band.eastEurope).set65mMode
          false).updateReceivedFrequency 1 500 =
        some (false, ((RDA5807.init (fun _ => [])).setBand band.eastEurope).set65mMode false)
      ∧ Option.map Prod.fst
          ((((RDA5807.init (fun _ => [])).setBand band.eastEurope).set65mMode
            false).updateReceivedFrequency 1 649) = some false
      ∧ Option.map (fun r => (r.1, r.2.getChannel))
          ((((RDA5807.init (fun _ => [])).setBand band.eastEurope).set65mMode
            false).updateReceivedFrequency 1 650) = some (true, 150) := by
  refine ⟨rfl, ?_, ?_⟩
  · decide
  · decide

theorem i2cReadShort_fst_congr (w w2 : TwoWire) (h : w.rxBuffer = w2.rxBuffer) :
    (i2cReadShort w).1 = (i2cReadShort w2).1 := by
  simp only [i2cReadShort, TwoWire.read]
  rw [← h]
  rcases hx : w.rxBuffer with _ | ⟨a, _ | ⟨b, rest⟩⟩
  · simp [← h, hx]
  · simp
  · simp

theorem i2cReadRegister_fst (s : RDA5807) (reg : Nat) :
    (s.i2cReadRegister reg).1 = polledStatus s.Wire s.Wire.requests := by
  unfold i2cReadRegister polledStatus
  apply i2cReadShort_fst_congr
  rfl

theorem i2cReadShort_snd (w : TwoWire) :
    (i2cReadShort w).2.slave = w.slave ∧ (i2cReadShort w).2.requests = w.requests ∧
      (i2cReadShort w).2.log = w.log := by
  simp only [i2cReadShort, TwoWire.read]
  rcases hx : w.rxBuffer with _ | ⟨a, _ | ⟨b, rest⟩⟩ <;> simp [hx]

theorem tunePollBody_regs (s : RDA5807) :
    s.tunePollBody.m_rdaWriteRegisters = (s.setTune true).m_rdaWriteRegisters := by
  simp [tunePollBody, updateTune, i2cWriteRegister_eq, i2cReadRegister, setTune]

theorem tunePollBody_check (s : RDA5807) :
    s.tunePollBody.m_rdaWriteRegistersCheck = s.m_rdaWriteRegistersCheck := by
  simp [tunePollBody, updateTune, i2cWriteRegister_eq, i2cReadRegister, setTune]

theorem tunePollBody_reg0A (s : RDA5807) :
    s.tunePollBody.m_rdaReadRegisters.reg0A = polledStatus s.Wire s.Wire.requests := by
  rw [← i2cReadRegister_fst s 0x0A]
  simp [tunePollBody, updateTune, i2cWriteRegister_eq, setTune]

theorem tunePollBody_wire (s : RDA5807) :
    s.tunePollBody.Wire.slave = s.Wire.slave ∧
      s.tunePollBody.Wire.requests = s.Wire.requests + 1 := by
  simp [tunePollBody, updateTune, i2cWriteRegister_eq, i2cReadRegister, setTune,
    i2cReadShort_snd, TwoWire.requestFrom, TwoWire.endTransmission, TwoWire.write,
    TwoWire.beginTransmission]

theorem polledStatus_congr (w w2 : TwoWire) (h : w.slave = w2.slave) (k : Nat) :
    polledStatus w k = polledStatus w2 k := by
  unfold polledStatus
  apply i2cReadShort_fst_congr
  simp [TwoWire.requestFrom, h]

theorem setField_tune_idem (v : Nat) : setField (setField v 4 1 1) 4 1 1 = setField v 4 1 1 := by
  unfold setField
  norm_num
  omega

theorem getField_channel_setField_tune (v x : Nat) :
    getField (setField v 4 1 x) 6 10 = getField v 6 10 := by
  unfold setField getField
  norm_num
  omega

theorem getField_channel_setField_channel (v x : Nat) :
    getField (setField v 6 10 x) 6 10 = x % 1024 := by
  unfold setField getField
  norm_num
  omega

theorem tunePoll_some (fuel : Nat) (s s2 : RDA5807) (h : tunePoll fuel s = some s2) :
    s2.m_rdaWriteRegisters = (s.setTune true).m_rdaWriteRegisters ∧
      s2.m_rdaWriteRegistersCheck = s.m_rdaWriteRegistersCheck := by
  induction fuel generalizing s with
  | zero => simp [tunePoll] at h
  | succ fuel ih =>
    simp only [tunePoll] at h
    split at h
    · cases h
      exact ⟨tunePollBody_regs s, tunePollBody_check s⟩
    · obtain ⟨h1, h2⟩ := ih _ h
      refine ⟨?_, ?_⟩
      · rw [h1]
        have h3 := tunePollBody_regs s
        simp only [setTune] at h3 ⊢
        rw [h3]
        simp [setField_tune_idem]
      · rw [h2, tunePollBody_check]

theorem tunePoll_terminates (n : Nat) : ∀ (fuel : Nat) (s : RDA5807), n < fuel →
    getField (polledStatus s.Wire (s.Wire.requests + n)) 14 1 ≠ 0 →
    ∃ s2, tunePoll fuel s = some s2 := by
  induction n with
  | zero =>
    intro fuel s hf hstc
    obtain _ | fuel := fuel
    · omega
    · have h : s.tunePollBody.getSeekTuneComplete = true := by
        simp only [getSeekTuneComplete, tunePollBody_reg0A]
        simpa using hstc
      exact ⟨s.tunePollBody, by simp [tunePoll, h]⟩
  | succ n ih =>
    intro fuel s hf hstc
    obtain _ | fuel := fuel
    · omega
    · by_cases h : s.tunePollBody.getSeekTuneComplete = true
      · exact ⟨s.tunePollBody, by simp [tunePoll, h]⟩
      · have hw := tunePollBody_wire s
        have hstc2 : getField (polledStatus s.tunePollBody.Wire
            (s.tunePollBody.Wire.requests + n)) 14 1 ≠ 0 := by
          rw [polledStatus_congr _ _ hw.1, hw.2]
          have he : s.Wire.requests + 1 + n = s.Wire.requests + (n + 1) := by omega
          rw [he]
          exact hstc
        obtain ⟨s2, hs2⟩ := ih fuel s.tunePollBody (by omega) hstc2
        exact ⟨s2, by simp [tunePoll, h, hs2]⟩

theorem updateReceivedFrequency_check (fuel : Nat) (s : RDA5807) (freq : Nat)
    (r : Bool × RDA5807) (h : s.updateReceivedFrequency fuel freq = some r) :
    r.2.m_rdaWriteRegistersCheck = s.m_rdaWriteRegistersCheck := by
  unfold updateReceivedFrequency at h
  by_cases h1 : (!s.get65mMode && decide (freq < 500)) = true
  · simp only [h1, if_true, Option.some.injEq] at h
    rw [← h]
  · by_cases h2 : freq < 650 ∨ freq > 1080
    · simp only [h1, h2, if_true, if_false, Option.some.injEq, Bool.false_eq_true] at h
      rw [← h]
    · cases hc : channelOfFrequency s.getBand (!s.get65mMode) freq with
      | none =>
        simp only [h1, h2, hc, if_false, Option.some.injEq, Bool.false_eq_true] at h
        rw [← h]
      | some channel =>
        simp only [h1, h2, hc, if_false, Bool.false_eq_true] at h
        by_cases hm : s.getAlternativeFrequencySettingMode = true
        · simp only [hm, if_true, Option.some.injEq] at h
          rw [← h]
          simp [i2cWriteRegister_eq, setFrequencyDirectly]
        · simp only [hm, if_false, Bool.false_eq_true] at h
          revert h
          generalize ht : tunePoll fuel _ = t
          intro h
          cases t with
          | none => simp at h
          | some s4 =>
            simp only [Option.some.injEq] at h
            rw [← h]
            rw [(tunePoll_some _ _ _ ht).2]
            simp [i2cWriteRegister_eq, setChannel]

/-- Standard mode: once the frequency has passed the range checks and the device
reports seek/tune complete on some poll, `updateReceivedFrequency` returns true with the
channel field holding the channel divided by the spacing. -/
theorem updateReceivedFrequency_standard (fuel n : Nat) (s : RDA5807) (f channel : Nat)
    (h1 : 650 ≤ f) (h2 : f ≤ 1080)
    (hc : channelOfFrequency s.getBand (!s.get65mMode) f = some channel)
    (hm : s.getAlternativeFrequencySettingMode = false)
    (hstc : getField (polledStatus s.Wire (s.Wire.requests + n)) 14 1 ≠ 0)
    (hfuel : n < fuel) :
    ∃ s2, s.updateReceivedFrequency fuel f = some (true, s2) ∧
      s2.getChannel = (channel / channelSpacingValue s.getChannelSpacing) % 1024 := by
  have hg1 : ¬ ((!s.get65mMode && decide (f < 500)) = true) := by
    have : ¬ f < 500 := by omega
    simp [this]
  have hg2 : ¬ (f < 650 ∨ f > 1080) := by omega
  have hdiv : (if channel ≠ 0 then channel / channelSpacingValue s.getChannelSpacing
      else channel) = channel / channelSpacingValue s.getChannelSpacing := by
    split
    · rfl
    · rename_i h0
      rw [not_not.mp h0, Nat.zero_div]
  unfold updateReceivedFrequency
  simp only [hg1, hg2, hc, hm, if_false, Bool.false_eq_true, hdiv]
  generalize hs3 : ((s.setChannel (channel / channelSpacingValue s.getChannelSpacing)).i2cWriteRegister
    0x02 (s.setChannel (channel / channelSpacingValue
      s.getChannelSpacing)).m_rdaWriteRegisters.reg02).i2cWriteRegister 0x03
    ((s.setChannel (channel / channelSpacingValue s.getChannelSpacing)).i2cWriteRegister
    0x02 (s.setChannel (channel / channelSpacingValue
      s.getChannelSpacing)).m_rdaWriteRegisters.reg02).m_rdaWriteRegisters.reg03 = s3
  have hregs : s3.m_rdaWriteRegisters =
      (s.setChannel (channel / channelSpacingValue s.getChannelSpacing)).m_rdaWriteRegisters := by
    rw [← hs3]; simp [i2cWriteRegister_eq]
  have hslave : s3.Wire.slave = s.Wire.slave := by
    rw [← hs3]; simp [i2cWriteRegister_eq, setChannel]
  have hreq : s3.Wire.requests = s.Wire.requests := by
    rw [← hs3]; simp [i2cWriteRegister_eq, setChannel]
  have hstc3 : getField (polledStatus s3.Wire (s3.Wire.requests + n)) 14 1 ≠ 0 := by
    rw [polledStatus_congr _ _ hslave, hreq]; exact hstc
  obtain ⟨s4, hs4⟩ := tunePoll_terminates n fuel s3 hfuel hstc3
  refine ⟨s4, by simp [hs4], ?_⟩
  have h4 := (tunePoll_some _ _ _ hs4).1
  simp only [getChannel, h4, setTune, hregs, setChannel, getField_channel_setField_tune,
    getField_channel_setField_channel]

/-- C9. Standard mode, US/Europe band: for each channel spacing (25, 50, 100, 200 kHz)
and each frequency `f` with `870 ≤ f ≤ 1080`, if the device reports seek/tune complete on
some poll then `updateReceivedFrequency f` returns true (given more fuel than polls) and
afterwards `getChannel` is `(f - 870) * 100 / spacing`. -/
theorem updateReceivedFrequency_usEurope_channel (fuel n : Nat) (s : RDA5807) (f : Nat)
    (sp : channelSpacing) (kHz : Nat)
    (hb : s.getBand = band.usEurope)
    (hm : s.getAlternativeFrequencySettingMode = false)
    (hsp : s.getChannelSpacing = sp)
    (hk : (sp, kHz) ∈ [(channelSpacing.spc25kHz, 25), (channelSpacing.spc50kHz, 50),
      (channelSpacing.spc100kHz, 100), (channelSpacing.spc200kHz, 200)])
    (hf : 870 ≤ f ∧ f ≤ 1080)
    (hstc : getField (polledStatus s.Wire (s.Wire.requests + n)) 14 1 ≠ 0)
    (hfuel : n < fuel) :
    ∃ s2, s.updateReceivedFrequency fuel f = some (true, s2) ∧
      s2.getChannel = (f - 870) * 100 / kHz := by
  have h1 : 650 ≤ f := by omega
  have hc : channelOfFrequency s.getBand (!s.get65mMode) f = some ((f - 870) * 100) := by
    rw [channelOfFrequency_eq _ _ f h1 hf.2, hb]
    simp [hf.1]
  obtain ⟨s2, hs2, hch⟩ :=
    updateReceivedFrequency_standard fuel n s f _ h1 hf.2 hc hm hstc hfuel
  refine ⟨s2, hs2, ?_⟩
  rw [hch, hsp]
  simp only [List.mem_cons, Prod.mk.injEq, List.mem_singleton, List.not_mem_nil,
    or_false] at hk
  rcases hk with ⟨rfl, rfl⟩ | ⟨rfl, rfl⟩ | ⟨rfl, rfl⟩ | ⟨rfl, rfl⟩ <;>
    simp only [channelSpacingValue] <;> omega

theorem updateReceivedFrequency_usEurope_channel_witness :
    ∃ s2, (RDA5807.init (fun _ => [0x40, 0x00])).updateReceivedFrequency 1 1080 =
        some (true, s2) ∧ s2.getChannel = (1080 - 870) * 100 / 100 :=
  updateReceivedFrequency_usEurope_channel 1 0 (RDA5807.init (fun _ => [0x40, 0x00])) 1080
    channelSpacing.spc100kHz 100 (by decide) (by decide) (by decide) (by decide)
    (by decide) (by decide) (by decide)

/-- C10 (as stated, refuted). On the power-on image (US/Europe band, 100 kHz spacing,
standard mode) with a device that reports tune complete, `updateReceivedFrequency(919)`
returns true and leaves channel 49 in the channel field, not 490. -/
theorem updateReceivedFrequency_919_channel_ne_490 :
    Option.map (fun r => (r.1, r.2.getChannel))
        ((RDA5807.init (fun _ => [0x40, 0x00])).updateReceivedFrequency 1 919) =
          some (true, 49)
      ∧ Option.map (fun r => (r.1, r.2.getChannel))
        ((RDA5807.init (fun _ => [0x40, 0x00])).updateReceivedFrequency 1 919) ≠
          some (true, 490) := by
  constructor
  · decide
  · decide

/-- C10 (amended). On the US/Europe band with channel spacing 100 kHz, in standard mode,
`updateReceivedFrequency(919)` returns true once the device reports tune complete and
sets the channel to 49, which is `(919 - 870) * 100 / 100`. -/
theorem updateReceivedFrequency_919_channel_49 (fuel n : Nat) (s : RDA5807)
    (hb : s.getBand = band.usEurope)
    (hm : s.getAlternativeFrequencySettingMode = false)
    (hsp : s.getChannelSpacing = channelSpacing.spc100kHz)
    (hstc : getField (polledStatus s.Wire (s.Wire.requests + n)) 14 1 ≠ 0)
    (hfuel : n < fuel) :
    ∃ s2, s.updateReceivedFrequency fuel 919 = some (true, s2) ∧ s2.getChannel = 49 := by
  have hc : channelOfFrequency s.getBand (!s.get65mMode) 919 = some 4900 := by
    rw [channelOfFrequency_eq _ _ 919 (by norm_num) (by norm_num), hb]
    simp
  obtain ⟨s2, hs2, hch⟩ :=
    updateReceivedFrequency_standard fuel n s 919 _ (by norm_num) (by norm_num) hc hm hstc
      hfuel
  refine ⟨s2, hs2, ?_⟩
  rw [hch, hsp]
  simp [channelSpacingValue]

theorem updateReceivedFrequency_919_channel_49_witness :
    ∃ s2, (RDA5807.init (fun k => if k = 0 then [0x00, 0x00] else [0x40, 0x00])).updateReceivedFrequency
        2 919 = some (true, s2) ∧ s2.getChannel = 49 :=
  updateReceivedFrequency_919_channel_49 2 1
    (RDA5807.init (fun k => if k = 0 then [0x00, 0x00] else [0x40, 0x00]))
    (by decide) (by decide) (by decide) (by decide) (by decide)

theorem writeModified_check_eq (s : RDA5807) (i : Nat) :
    writeRegsCheck (s.writeModifiedRegistersToReceiver).m_rdaWriteRegistersCheck i =
      writeRegs (s.writeModifiedRegistersToReceiver).m_rdaWriteRegisters i := by
  unfold writeModifiedRegistersToReceiver
  rw [foldl_writeModifiedStep_check, foldl_writeModifiedStep_regs]
  obtain _ | _ | _ | _ | _ | _ | i := i <;> rfl

theorem writeModified_twice_log (s : RDA5807) :
    ((s.writeModifiedRegistersToReceiver).writeModifiedRegistersToReceiver).Wire.log =
      (s.writeModifiedRegistersToReceiver).Wire.log := by
  generalize hs1 : s.writeModifiedRegistersToReceiver = s1
  have hc : ∀ i, writeRegsCheck s1.m_rdaWriteRegistersCheck i =
      writeRegs s1.m_rdaWriteRegisters i := by
    intro i; rw [← hs1]; exact writeModified_check_eq s i
  unfold writeModifiedRegistersToReceiver
  rw [foldl_writeModifiedStep_log _ (List.nodup_range 7) (fun i hi => List.mem_range.mp hi)]
  simp [hc]

/-- C3 (as stated, refuted). After `updateMute(false)` on the power-on image the check
entry of register 02 still holds the old value 0 while the register holds `0x4000`, and
an immediately following `writeModifiedRegistersToReceiver` sends register 02 again. -/
theorem updateMute_leaves_check_stale :
    ((RDA5807.init (fun _ => [])).updateMute false).m_rdaWriteRegistersCheck.reg02 ≠
        ((RDA5807.init (fun _ => [])).updateMute false).m_rdaWriteRegisters.reg02
      ∧ (((RDA5807.init (fun _ => [])).updateMute false).writeModifiedRegistersToReceiver).Wire.log =
        [BusEvent.transmit 0x11 [0x02, 0x40, 0x00] true,
          BusEvent.transmit 0x11 [0x00, 0x40, 0x00] true] := by
  constructor
  · decide
  · decide

/-- C3 (amended). The operations that transmit a write register directly
(`writeSettingsToReceiver`, `updateMute`, `updateVolumeLevel`, `updateSeek`, `updateTune`
and `updateReceivedFrequency`, whatever it returns) leave every entry of the check struct
as it was before the call.  Only `writeModifiedRegistersToReceiver` brings the check
struct up to date: after it every check entry equals its register, and an immediately
following `writeModifiedRegistersToReceiver` puts nothing on the bus. -/
theorem check_updated_only_by_writeModified (s : RDA5807) (setting : Bool)
    (value fuel freq : Nat) (r : Bool × RDA5807)
    (h : s.updateReceivedFrequency fuel freq = some r) :
    (s.writeSettingsToReceiver).m_rdaWriteRegistersCheck = s.m_rdaWriteRegistersCheck
      ∧ (s.updateMute setting).m_rdaWriteRegistersCheck = s.m_rdaWriteRegistersCheck
      ∧ (s.updateVolumeLevel value).m_rdaWriteRegistersCheck = s.m_rdaWriteRegistersCheck
      ∧ (s.updateSeek).m_rdaWriteRegistersCheck = s.m_rdaWriteRegistersCheck
      ∧ (s.updateTune).m_rdaWriteRegistersCheck = s.m_rdaWriteRegistersCheck
      ∧ r.2.m_rdaWriteRegistersCheck = s.m_rdaWriteRegistersCheck
      ∧ (∀ i, writeRegsCheck (s.writeModifiedRegistersToReceiver).m_rdaWriteRegistersCheck i =
          writeRegs (s.writeModifiedRegistersToReceiver).m_rdaWriteRegisters i)
      ∧ ((s.writeModifiedRegistersToReceiver).writeModifiedRegistersToReceiver).Wire.log =
          (s.writeModifiedRegistersToReceiver).Wire.log := by
  refine ⟨?_, ?_, ?_, ?_, ?_, updateReceivedFrequency_check fuel s freq r h,
    writeModified_check_eq s, writeModified_twice_log s⟩
  · simp [writeSettingsToReceiver]
  · simp [updateMute, i2cWriteRegister_eq, setMute]
  · simp [updateVolumeLevel, i2cWriteRegister_eq, setVolume]
  · simp [updateSeek, i2cWriteRegister_eq, setSeek]
  · simp [updateTune, i2cWriteRegister_eq, setTune]

theorem check_updated_only_by_writeModified_witness :
    ∃ r, (RDA5807.init (fun _ => [0x40, 0x00])).updateReceivedFrequency 1 919 = some r ∧
      r.1 = true ∧
      r.2.m_rdaWriteRegistersCheck =
        (RDA5807.init (fun _ => [0x40, 0x00])).m_rdaWriteRegistersCheck := by
  have h : ((RDA5807.init (fun _ => [0x40, 0x00])).updateReceivedFrequency 1 919).isSome =
      true := by decide
  exact ⟨Option.get _ h, (Option.some_get h).symm, rfl,
    (check_updated_only_by_writeModified (RDA5807.init (fun _ => [0x40, 0x00])) false 0x80 1
      919 _ (Option.some_get h).symm).2.2.2.2.2.1⟩

/-! ### Standard mode: conversion back to the frequency -/

theorem channelOfFrequency_table (s : RDA5807) (f lo : Nat)
    (hband : (s.getBand = band.usEurope ∧ lo = 870 ∧ 870 ≤ f ∧ f ≤ 1080) ∨
      (s.getBand = band.japan ∧ lo = 760 ∧ 760 ≤ f ∧ f ≤ 910) ∨
      (s.getBand = band.worldWide ∧ lo = 760 ∧ 760 ≤ f ∧ f ≤ 1080) ∨
      (s.getBand = band.eastEurope ∧ s.get65mMode = true ∧ lo = 650 ∧ 650 ≤ f ∧ f ≤ 760) ∨
      (s.getBand = band.eastEurope ∧ s.get65mMode = false ∧ lo = 500 ∧ 650 ≤ f ∧ f ≤ 760)) :
    650 ≤ f ∧ f ≤ 1080 ∧ lo ≤ f ∧
      channelOfFrequency s.getBand (!s.get65mMode) f = some ((f - lo) * 100) := by
  rcases hband with ⟨hb, rfl, h1, h2⟩ | ⟨hb, rfl, h1, h2⟩ | ⟨hb, rfl, h1, h2⟩ |
    ⟨hb, hm, rfl, h1, h2⟩ | ⟨hb, hm, rfl, h1, h2⟩
  · refine ⟨by omega, by omega, h1, ?_⟩
    rw [channelOfFrequency_eq _ _ f (by omega) (by omega), hb]
    simp [h1]
  · refine ⟨by omega, by omega, h1, ?_⟩
    rw [channelOfFrequency_eq _ _ f (by omega) (by omega), hb]
    simp [h1, h2]
  · refine ⟨by omega, by omega, h1, ?_⟩
    rw [channelOfFrequency_eq _ _ f (by omega) (by omega), hb]
    simp [h1]
  · refine ⟨by omega, by omega, h1, ?_⟩
    rw [channelOfFrequency_eq _ _ f (by omega) (by omega), hb, hm]
    simp [h2]
  · refine ⟨by omega, by omega, by omega, ?_⟩
    rw [channelOfFrequency_eq _ _ f (by omega) (by omega), hb, hm]
    simp [h2]

theorem getFrequencyValue_table (s : RDA5807) (f lo kHz ch : Nat)
    (hband : (s.getBand = band.usEurope ∧ lo = 870 ∧ 870 ≤ f ∧ f ≤ 1080) ∨
      (s.getBand = band.japan ∧ lo = 760 ∧ 760 ≤ f ∧ f ≤ 910) ∨
      (s.getBand = band.worldWide ∧ lo = 760 ∧ 760 ≤ f ∧ f ≤ 1080) ∨
      (s.getBand = band.eastEurope ∧ s.get65mMode = true ∧ lo = 650 ∧ 650 ≤ f ∧ f ≤ 760) ∨
      (s.getBand = band.eastEurope ∧ s.get65mMode = false ∧ lo = 500 ∧ 650 ≤ f ∧ f ≤ 760))
    (hk : (s.getChannelSpacing, kHz) ∈
      [(channelSpacing.spc25kHz, 25), (channelSpacing.spc50kHz, 50),
        (channelSpacing.spc100kHz, 100), (channelSpacing.spc200kHz, 200)])
    (hch : kHz * ch + lo * 100 = f * 100) :
    getFrequencyValue ch s.getChannelSpacing s.getBand (!s.get65mMode) = (f : ℚ) / 10 := by
  have hq : ((kHz * ch + lo * 100 : Nat) : ℚ) = ((f * 100 : Nat) : ℚ) := by rw [hch]
  push_cast at hq
  have hspc : getFrequencyValue ch s.getChannelSpacing s.getBand (!s.get65mMode) =
      ((ch : ℚ) * (kHz : ℚ)) / 1000 +
        (match s.getBand with
          | band.usEurope => (87 : ℚ)
          | band.japan => 76
          | band.worldWide => 76
          | band.eastEurope => if (!s.get65mMode) = true then 50 else 65) := by
    simp only [List.mem_cons, Prod.mk.injEq, List.mem_singleton, List.not_mem_nil,
      or_false] at hk
    unfold getFrequencyValue
    rcases hk with ⟨h, rfl⟩ | ⟨h, rfl⟩ | ⟨h, rfl⟩ | ⟨h, rfl⟩ <;> rw [h] <;>
      cases s.getBand <;> norm_num
  rw [hspc]
  rcases hband with ⟨hb, rfl, _, _⟩ | ⟨hb, rfl, _, _⟩ | ⟨hb, rfl, _, _⟩ |
    ⟨hb, hm, rfl, _, _⟩ | ⟨hb, hm, rfl, _, _⟩
  · simp only [hb]; push_cast at hq; linarith
  · simp only [hb]; push_cast at hq; linarith
  · simp only [hb]; push_cast at hq; linarith
  · simp only [hb, hm, Bool.not_true, if_false, Bool.false_eq_true]
    push_cast at hq; linarith
  · simp only [hb, hm, Bool.not_false, if_true]
    push_cast at hq; linarith

/-- C11 (as stated, refuted). On the US/Europe band with 200 kHz spacing, in standard
mode, the accepted frequency 919 is stored as channel 24, which converts back to
91800 kHz (91.8 MHz), not to 91900 kHz. -/
theorem updateReceivedFrequency_roundtrip_fails_200kHz :
    Option.map (fun r => (r.1, r.2.getChannel))
        (((RDA5807.init (fun _ => [0x40, 0x00])).setChannelSpacing
          channelSpacing.spc200kHz).updateReceivedFrequency 1 919) = some (true, 24)
      ∧ 200 * 24 + 87000 ≠ 919 * 100
      ∧ getFrequencyValue 24 channelSpacing.spc200kHz band.usEurope false ≠ (919 : ℚ) / 10 := by
  refine ⟨by decide, by decide, ?_⟩
  norm_num [getFrequencyValue]

/-- C11 (amended). In standard mode, for every band and sub-band, every channel spacing
and every accepted frequency `f` whose offset `(f - minimum) * 100` kHz is a multiple of
the spacing and whose channel index `(f - minimum) * 100 / spacing` is below 1024, the
channel stored by `updateReceivedFrequency` converts back to the requested frequency:
`spacing * getChannel + minimum * 100 = f * 100`, and `getFrequencyValue` of the stored
channel is `f / 10` MHz in exact arithmetic. -/
theorem updateReceivedFrequency_channel_roundtrip (fuel n : Nat) (s : RDA5807)
    (f lo kHz : Nat)
    (hm : s.getAlternativeFrequencySettingMode = false)
    (hband : (s.getBand = band.usEurope ∧ lo = 870 ∧ 870 ≤ f ∧ f ≤ 1080) ∨
      (s.getBand = band.japan ∧ lo = 760 ∧ 760 ≤ f ∧ f ≤ 910) ∨
      (s.getBand = band.worldWide ∧ lo = 760 ∧ 760 ≤ f ∧ f ≤ 1080) ∨
      (s.getBand = band.eastEurope ∧ s.get65mMode = true ∧ lo = 650 ∧ 650 ≤ f ∧ f ≤ 760) ∨
      (s.getBand = band.eastEurope ∧ s.get65mMode = false ∧ lo = 500 ∧ 650 ≤ f ∧ f ≤ 760))
    (hk : (s.getChannelSpacing, kHz) ∈
      [(channelSpacing.spc25kHz, 25), (channelSpacing.spc50kHz, 50),
        (channelSpacing.spc100kHz, 100), (channelSpacing.spc200kHz, 200)])
    (hdiv : kHz ∣ (f - lo) * 100) (hfit : (f - lo) * 100 / kHz < 1024)
    (hstc : getField (polledStatus s.Wire (s.Wire.requests + n)) 14 1 ≠ 0)
    (hfuel : n < fuel) :
    ∃ s2, s.updateReceivedFrequency fuel f = some (true, s2) ∧
      kHz * s2.getChannel + lo * 100 = f * 100 ∧
      getFrequencyValue s2.getChannel s.getChannelSpacing s.getBand (!s.get65mMode) =
        (f : ℚ) / 10 := by
  obtain ⟨h1, h2, hlo, hc⟩ := channelOfFrequency_table s f lo hband
  obtain ⟨s2, hs2, hch⟩ := updateReceivedFrequency_standard fuel n s f _ h1 h2 hc hm hstc hfuel
  have hval : channelSpacingValue s.getChannelSpacing = kHz := by
    simp only [List.mem_cons, Prod.mk.injEq, List.mem_singleton, List.not_mem_nil,
      or_false] at hk
    rcases hk with ⟨h, rfl⟩ | ⟨h, rfl⟩ | ⟨h, rfl⟩ | ⟨h, rfl⟩ <;> rw [h] <;> rfl
  have hkHz : kHz * s2.getChannel + lo * 100 = f * 100 := by
    rw [hch, hval, Nat.mod_eq_of_lt hfit, Nat.mul_div_cancel' hdiv]
    have : (f - lo) * 100 = f * 100 - lo * 100 := Nat.sub_mul f lo 100
    omega
  exact ⟨s2, hs2, hkHz, getFrequencyValue_table s f lo kHz _ hband hk hkHz⟩

theorem updateReceivedFrequency_channel_roundtrip_witness :
    ∃ s2, (RDA5807.init (fun _ => [0x40, 0x00])).updateReceivedFrequency 1 919 =
        some (true, s2) ∧
      100 * s2.getChannel + 870 * 100 = 919 * 100 ∧
      getFrequencyValue s2.getChannel
        (RDA5807.init (fun _ => [0x40, 0x00])).getChannelSpacing
        (RDA5807.init (fun _ => [0x40, 0x00])).getBand
        (!(RDA5807.init (fun _ => [0x40, 0x00])).get65mMode) = ((919 : Nat) : ℚ) / 10 :=
  updateReceivedFrequency_channel_roundtrip 1 0 (RDA5807.init (fun _ => [0x40, 0x00])) 919 870
    100 (by decide) (Or.inl ⟨by decide, rfl, by decide, by decide⟩) (by decide)
    (by decide) (by decide) (by decide) (by decide)

/-! ### Direct mode -/

/-- Direct mode: once the frequency has passed the range checks, `updateReceivedFrequency`
returns true for any fuel, register 08 holds the channel value, the other write
registers, the status registers and the check struct are unchanged, and the bus log
grows by the writes of registers 07 and 08. -/
theorem updateReceivedFrequency_direct (fuel : Nat) (s : RDA5807) (f channel : Nat)
    (h1 : 650 ≤ f) (h2 : f ≤ 1080)
    (hc : channelOfFrequency s.getBand (!s.get65mMode) f = some channel)
    (hm : s.getAlternativeFrequencySettingMode = true) :
    ∃ s2, s.updateReceivedFrequency fuel f = some (true, s2) ∧
      s2.m_rdaWriteRegisters = { s.m_rdaWriteRegisters with reg08 := channel % 65536 } ∧
      s2.m_rdaReadRegisters = s.m_rdaReadRegisters ∧
      s2.m_rdaWriteRegistersCheck = s.m_rdaWriteRegistersCheck ∧
      s2.Wire.log = s.Wire.log ++
        [BusEvent.transmit 0x11
          [0x07, s.m_rdaWriteRegisters.reg07 / 256 % 256, s.m_rdaWriteRegisters.reg07 % 256]
          true,
         BusEvent.transmit 0x11
          [0x08, channel % 65536 / 256 % 256, channel % 65536 % 256] true] := by
  have hg1 : ¬ ((!s.get65mMode && decide (f < 500)) = true) := by
    have : ¬ f < 500 := by omega
    simp [this]
  have hg2 : ¬ (f < 650 ∨ f > 1080) := by omega
  unfold updateReceivedFrequency
  simp only [hg1, hg2, hc, hm, if_false, if_true]
  refine ⟨_, rfl, ?_, ?_, ?_, ?_⟩ <;>
    simp [i2cWriteRegister_eq, setFrequencyDirectly]

/-- C12 (as stated, refuted). On the power-on image switched to direct mode (US/Europe
band), `updateReceivedFrequency(919)` returns true and leaves 4900 in register 08, not
`919 - 870 = 49`. -/
theorem updateReceivedFrequency_direct_919_not_49 :
    Option.map (fun r => (r.1, r.2.getFrequencyDirectly))
        (((RDA5807.init (fun _ => [])).setAlternativeFrequencySettingMode
          true).updateReceivedFrequency 0 919) = some (true, 4900)
      ∧ (4900 : Nat) ≠ 919 - 870 := by
  constructor
  · decide
  · decide

/-- C12 (amended). In direct frequency-setting mode, for every accepted frequency `f`,
`updateReceivedFrequency f` returns true and register 08 then holds
`(f - minimum) * 100`, the offset from the band minimum in kHz (US/Europe band,
`f = 919`: 4900). -/
theorem updateReceivedFrequency_direct_reg08 (fuel : Nat) (s : RDA5807) (f lo : Nat)
    (hm : s.getAlternativeFrequencySettingMode = true)
    (hband : (s.getBand = band.usEurope ∧ lo = 870 ∧ 870 ≤ f ∧ f ≤ 1080) ∨
      (s.getBand = band.japan ∧ lo = 760 ∧ 760 ≤ f ∧ f ≤ 910) ∨
      (s.getBand = band.worldWide ∧ lo = 760 ∧ 760 ≤ f ∧ f ≤ 1080) ∨
      (s.getBand = band.eastEurope ∧ s.get65mMode = true ∧ lo = 650 ∧ 650 ≤ f ∧ f ≤ 760) ∨
      (s.getBand = band.eastEurope ∧ s.get65mMode = false ∧ lo = 500 ∧ 650 ≤ f ∧ f ≤ 760)) :
    ∃ s2, s.updateReceivedFrequency fuel f = some (true, s2) ∧
      s2.m_rdaWriteRegisters.reg08 = (f - lo) * 100 := by
  obtain ⟨h1, h2, hlo, hc⟩ := channelOfFrequency_table s f lo hband
  obtain ⟨s2, hs2, hregs, _, _, _⟩ := updateReceivedFrequency_direct fuel s f _ h1 h2 hc hm
  refine ⟨s2, hs2, ?_⟩
  rw [hregs]
  show (f - lo) * 100 % 65536 = (f - lo) * 100
  apply Nat.mod_eq_of_lt
  omega

theorem updateReceivedFrequency_direct_reg08_witness :
    ∃ s2, ((RDA5807.init (fun _ => [])).setAlternativeFrequencySettingMode
        true).updateReceivedFrequency 0 919 = some (true, s2) ∧
      s2.m_rdaWriteRegisters.reg08 = (919 - 870) * 100 :=
  updateReceivedFrequency_direct_reg08 0
    ((RDA5807.init (fun _ => [])).setAlternativeFrequencySettingMode true) 919 870
    (by decide) (Or.inl ⟨by decide, rfl, by decide, by decide⟩)

theorem getField_band_setField_spacing (v x : Nat) :
    getField (setField v 0 2 x) 2 2 = getField v 2 2 := by
  unfold setField getField
  norm_num
  omega

theorem getAlternativeFrequencyValue_table (s : RDA5807) (f lo v : Nat)
    (hband : (s.getBand = band.usEurope ∧ lo = 870 ∧ 870 ≤ f ∧ f ≤ 1080) ∨
      (s.getBand = band.japan ∧ lo = 760 ∧ 760 ≤ f ∧ f ≤ 910) ∨
      (s.getBand = band.worldWide ∧ lo = 760 ∧ 760 ≤ f ∧ f ≤ 1080) ∨
      (s.getBand = band.eastEurope ∧ s.get65mMode = true ∧ lo = 650 ∧ 650 ≤ f ∧ f ≤ 760) ∨
      (s.getBand = band.eastEurope ∧ s.get65mMode = false ∧ lo = 500 ∧ 650 ≤ f ∧ f ≤ 760))
    (hv : lo * 100 + v = f * 100) :
    getAlternativeFrequencyValue v s.getBand (!s.get65mMode) = (f : ℚ) / 10 := by
  have hq : ((lo * 100 + v : Nat) : ℚ) = ((f * 100 : Nat) : ℚ) := by rw [hv]
  unfold getAlternativeFrequencyValue
  rcases hband with ⟨hb, rfl, _, _⟩ | ⟨hb, rfl, _, _⟩ | ⟨hb, rfl, _, _⟩ |
    ⟨hb, hm, rfl, _, _⟩ | ⟨hb, hm, rfl, _, _⟩
  · simp only [hb]; push_cast at hq; norm_num; linarith
  · simp only [hb]; push_cast at hq; norm_num; linarith
  · simp only [hb]; push_cast at hq; norm_num; linarith
  · simp only [hb, hm, Bool.not_true, if_false, Bool.false_eq_true]
    push_cast at hq; norm_num; linarith
  · simp only [hb, hm, Bool.not_false, if_true]
    push_cast at hq; norm_num; linarith

/-- C13. In direct frequency-setting mode, for every band and every accepted frequency
`f`, `updateReceivedFrequency f` returns true and the value it leaves in register 08 is
the offset from the band minimum in kHz, without 16-bit wrap-around:
`minimum * 100 + getFrequencyDirectly = f * 100` with minimum 870, 760, 760, 650 or 500
(in units of 100 kHz); `getAlternativeFrequencyValue` of that value is `f / 10` MHz in
exact arithmetic; and the value is the same whatever channel spacing is selected. -/
theorem updateReceivedFrequency_direct_offset_kHz (fuel : Nat) (s : RDA5807) (f lo : Nat)
    (hm : s.getAlternativeFrequencySettingMode = true)
    (hband : (s.getBand = band.usEurope ∧ lo = 870 ∧ 870 ≤ f ∧ f ≤ 1080) ∨
      (s.getBand = band.japan ∧ lo = 760 ∧ 760 ≤ f ∧ f ≤ 910) ∨
      (s.getBand = band.worldWide ∧ lo = 760 ∧ 760 ≤ f ∧ f ≤ 1080) ∨
      (s.getBand = band.eastEurope ∧ s.get65mMode = true ∧ lo = 650 ∧ 650 ≤ f ∧ f ≤ 760) ∨
      (s.getBand = band.eastEurope ∧ s.get65mMode = false ∧ lo = 500 ∧ 650 ≤ f ∧ f ≤ 760)) :
    ∃ s2, s.updateReceivedFrequency fuel f = some (true, s2) ∧
      lo * 100 + s2.getFrequencyDirectly = f * 100 ∧
      s2.getFrequencyDirectly < 65536 ∧
      getAlternativeFrequencyValue s2.getFrequencyDirectly s.getBand (!s.get65mMode) =
        (f : ℚ) / 10 ∧
      ∀ sp : channelSpacing, ∃ s3,
        (s.setChannelSpacing sp).updateReceivedFrequency fuel f = some (true, s3) ∧
          s3.getFrequencyDirectly = s2.getFrequencyDirectly := by
  obtain ⟨h1, h2, hlo, hc⟩ := channelOfFrequency_table s f lo hband
  obtain ⟨s2, hs2, hregs, _, _, _⟩ := updateReceivedFrequency_direct fuel s f _ h1 h2 hc hm
  have hlt : (f - lo) * 100 < 65536 := by omega
  have hv : s2.getFrequencyDirectly = (f - lo) * 100 := by
    unfold getFrequencyDirectly
    rw [hregs]
    exact Nat.mod_eq_of_lt hlt
  have hsum : lo * 100 + s2.getFrequencyDirectly = f * 100 := by
    rw [hv]
    have : (f - lo) * 100 = f * 100 - lo * 100 := Nat.sub_mul f lo 100
    omega
  refine ⟨s2, hs2, hsum, by rw [hv]; exact hlt,
    getAlternativeFrequencyValue_table s f lo _ hband hsum, ?_⟩
  intro sp
  have hb3 : (s.setChannelSpacing sp).getBand = s.getBand := by
    simp [getBand, setChannelSpacing, getField_band_setField_spacing]
  have h65 : (s.setChannelSpacing sp).get65mMode = s.get65mMode := rfl
  have hm3 : (s.setChannelSpacing sp).getAlternativeFrequencySettingMode = true := hm
  have hc3 : channelOfFrequency (s.setChannelSpacing sp).getBand
      (!(s.setChannelSpacing sp).get65mMode) f = some ((f - lo) * 100) := by
    rw [hb3, h65]; exact hc
  obtain ⟨s3, hs3, hregs3, _, _, _⟩ :=
    updateReceivedFrequency_direct fuel (s.setChannelSpacing sp) f _ h1 h2 hc3 hm3
  refine ⟨s3, hs3, ?_⟩
  rw [hv]
  unfold getFrequencyDirectly
  rw [hregs3]
  exact Nat.mod_eq_of_lt hlt

theorem updateReceivedFrequency_direct_offset_kHz_witness :
    ∃ s2, (((RDA5807.init (fun _ => [])).setBand band.japan).setAlternativeFrequencySettingMode
        true).updateReceivedFrequency 0 910 = some (true, s2) ∧
      760 * 100 + s2.getFrequencyDirectly = 910 * 100 :=
  (updateReceivedFrequency_direct_offset_kHz 0
    (((RDA5807.init (fun _ => [])).setBand band.japan).setAlternativeFrequencySettingMode true)
    910 760 (by decide) (Or.inr (Or.inl ⟨by decide, rfl, by decide, by decide⟩))).imp
    (fun _ h => ⟨h.1, h.2.1⟩)

/-! ### The completion poll -/

theorem tunePollBody_log (s : RDA5807) :
    s.tunePollBody.Wire.log =
      s.Wire.log ++
        [BusEvent.transmit 0x11 [0x0A] false, BusEvent.request 0x11 2,
          BusEvent.transmit 0x11
            [0x03, setField s.m_rdaWriteRegisters.reg03 4 1 1 / 256 % 256,
              setField s.m_rdaWriteRegisters.reg03 4 1 1 % 256] true] := by
  simp [tunePollBody, updateTune, i2cWriteRegister_eq, i2cReadRegister, setTune,
    i2cReadShort_snd, TwoWire.requestFrom, TwoWire.endTransmission, TwoWire.write,
    TwoWire.beginTransmission]

theorem tunePoll_trace (n : Nat) : ∀ (fuel : Nat) (s : RDA5807), n < fuel →
    (∀ j, j < n → getField (polledStatus s.Wire (s.Wire.requests + j)) 14 1 = 0) →
    getField (polledStatus s.Wire (s.Wire.requests + n)) 14 1 ≠ 0 →
    ∃ s2, tunePoll fuel s = some s2 ∧
      s2.Wire.log = s.Wire.log ++
        (List.replicate (n + 1)
          [BusEvent.transmit 0x11 [0x0A] false, BusEvent.request 0x11 2,
            BusEvent.transmit 0x11
              [0x03, setField s.m_rdaWriteRegisters.reg03 4 1 1 / 256 % 256,
                setField s.m_rdaWriteRegisters.reg03 4 1 1 % 256] true]).flatten ∧
      s2.m_rdaReadRegisters.reg0A = polledStatus s.Wire (s.Wire.requests + n) := by
  induction n with
  | zero =>
    intro fuel s hf _ hstc
    obtain _ | fuel := fuel
    · omega
    · have h : s.tunePollBody.getSeekTuneComplete = true := by
        simp only [getSeekTuneComplete, tunePollBody_reg0A]
        simpa using hstc
      refine ⟨s.tunePollBody, by simp [tunePoll, h], ?_, ?_⟩
      · rw [tunePollBody_log]; simp
      · rw [tunePollBody_reg0A]; simp
  | succ n ih =>
    intro fuel s hf hleast hstc
    obtain _ | fuel := fuel
    · omega
    · have h : ¬ s.tunePollBody.getSeekTuneComplete = true := by
        have h0 := hleast 0 (by omega)
        simp only [getSeekTuneComplete, tunePollBody_reg0A]
        simpa using h0
      have hw := tunePollBody_wire s
      have hshift : ∀ j, polledStatus s.tunePollBody.Wire (s.tunePollBody.Wire.requests + j) =
          polledStatus s.Wire (s.Wire.requests + (j + 1)) := by
        intro j
        rw [polledStatus_congr _ _ hw.1, hw.2]
        have he : s.Wire.requests + 1 + j = s.Wire.requests + (j + 1) := by omega
        rw [he]
      obtain ⟨s2, hs2, hlog, h0A⟩ := ih fuel s.tunePollBody (by omega)
        (fun j hj => by rw [hshift]; exact hleast (j + 1) (by omega))
        (by rw [hshift]; exact hstc)
      refine ⟨s2, by simp [tunePoll, h, hs2], ?_, ?_⟩
      · rw [hlog, tunePollBody_log, tunePollBody_regs]
        simp only [setTune, if_true, setField_tune_idem]
        rw [List.replicate_succ (n := n + 1), List.flatten_cons, List.append_assoc]
      · rw [h0A, hshift]

theorem tunePoll_some_stc (fuel : Nat) : ∀ (s s2 : RDA5807), tunePoll fuel s = some s2 →
    ∃ n, n < fuel ∧ getField (polledStatus s.Wire (s.Wire.requests + n)) 14 1 ≠ 0 := by
  induction fuel with
  | zero => intro s s2 h; simp [tunePoll] at h
  | succ fuel ih =>
    intro s s2 h
    simp only [tunePoll] at h
    by_cases hc : s.tunePollBody.getSeekTuneComplete = true
    · refine ⟨0, by omega, ?_⟩
      simp only [getSeekTuneComplete, tunePollBody_reg0A] at hc
      simpa using hc
    · simp only [hc, if_false, Bool.false_eq_true] at h
      obtain ⟨n, hn, hstc⟩ := ih _ _ h
      have hw := tunePollBody_wire s
      rw [polledStatus_congr _ _ hw.1, hw.2] at hstc
      refine ⟨n + 1, by omega, ?_⟩
      have he : s.Wire.requests + 1 + n = s.Wire.requests + (n + 1) := by omega
      rw [← he]
      exact hstc

/-- C14. Standard mode.  Write `r j` for the device's answer to the `j`-th read of
register 0x0A after the call starts (`j = 0, 1, ...`).  For an accepted frequency, if `n`
is the least index whose answer has bit 14 set and the fuel exceeds `n`, then
`updateReceivedFrequency` returns true, its bus traffic is the write of register 02 to
selector 0x02, the write of register 03 (with the new channel) to selector 0x03, and then
exactly `n + 1` rounds of one read of 0x0A followed by one write of register 03 with the
tune bit set to selector 0x03, and register 0A ends equal to `r n`.  Conversely, true is
returned only if the frequency passed the range checks and some answer within the fuel
had bit 14 set. -/
theorem updateReceivedFrequency_poll_trace (fuel : Nat) (s : RDA5807) (f : Nat)
    (hm : s.getAlternativeFrequencySettingMode = false) :
    (∀ channel n : Nat, 650 ≤ f → f ≤ 1080 →
      channelOfFrequency s.getBand (!s.get65mMode) f = some channel →
      n < fuel →
      (∀ j, j < n → getField (polledStatus s.Wire (s.Wire.requests + j)) 14 1 = 0) →
      getField (polledStatus s.Wire (s.Wire.requests + n)) 14 1 ≠ 0 →
      ∃ s2, s.updateReceivedFrequency fuel f = some (true, s2) ∧
        s2.Wire.log = s.Wire.log ++
          [BusEvent.transmit 0x11
            [0x02, s.m_rdaWriteRegisters.reg02 / 256 % 256, s.m_rdaWriteRegisters.reg02 % 256]
            true,
           BusEvent.transmit 0x11
            [0x03,
              setField s.m_rdaWriteRegisters.reg03 6 10
                (channel / channelSpacingValue s.getChannelSpacing) / 256 % 256,
              setField s.m_rdaWriteRegisters.reg03 6 10
                (channel / channelSpacingValue s.getChannelSpacing) % 256] true] ++
          (List.replicate (n + 1)
            [BusEvent.transmit 0x11 [0x0A] false, BusEvent.request 0x11 2,
              BusEvent.transmit 0x11
                [0x03,
                  setField (setField s.m_rdaWriteRegisters.reg03 6 10
                    (channel / channelSpacingValue s.getChannelSpacing)) 4 1 1 / 256 % 256,
                  setField (setField s.m_rdaWriteRegisters.reg03 6 10
                    (channel / channelSpacingValue s.getChannelSpacing)) 4 1 1 % 256]
                true]).flatten ∧
        s2.m_rdaReadRegisters.reg0A = polledStatus s.Wire (s.Wire.requests + n))
    ∧ (∀ s2, s.updateReceivedFrequency fuel f = some (true, s2) →
        (650 ≤ f ∧ f ≤ 1080 ∧
          ∃ channel, channelOfFrequency s.getBand (!s.get65mMode) f = some channel) ∧
        ∃ n, n < fuel ∧ getField (polledStatus s.Wire (s.Wire.requests + n)) 14 1 ≠ 0) := by
  have hdiv : ∀ channel : Nat,
      (if channel ≠ 0 then channel / channelSpacingValue s.getChannelSpacing
        else channel) = channel / channelSpacingValue s.getChannelSpacing := by
    intro channel
    split
    · rfl
    · rename_i h0
      rw [not_not.mp h0, Nat.zero_div]
  constructor
  · intro channel n h1 h2 hc hfuel hleast hstc
    have hg1 : ¬ ((!s.get65mMode && decide (f < 500)) = true) := by
      have : ¬ f < 500 := by omega
      simp [this]
    have hg2 : ¬ (f < 650 ∨ f > 1080) := by omega
    unfold updateReceivedFrequency
    simp only [hg1, hg2, hc, hm, if_false, Bool.false_eq_true, hdiv]
    generalize hs3 :
      ((s.setChannel (channel / channelSpacingValue s.getChannelSpacing)).i2cWriteRegister
      0x02 (s.setChannel (channel / channelSpacingValue
        s.getChannelSpacing)).m_rdaWriteRegisters.reg02).i2cWriteRegister 0x03
      ((s.setChannel (channel / channelSpacingValue s.getChannelSpacing)).i2cWriteRegister
      0x02 (s.setChannel (channel / channelSpacingValue
        s.getChannelSpacing)).m_rdaWriteRegisters.reg02).m_rdaWriteRegisters.reg03 = s3
    have hreg03 : s3.m_rdaWriteRegisters.reg03 =
        setField s.m_rdaWriteRegisters.reg03 6 10
          (channel / channelSpacingValue s.getChannelSpacing) := by
      rw [← hs3]; simp [i2cWriteRegister_eq, setChannel]
    have hlog3 : s3.Wire.log = s.Wire.log ++
        [BusEvent.transmit 0x11
          [0x02, s.m_rdaWriteRegisters.reg02 / 256 % 256, s.m_rdaWriteRegisters.reg02 % 256]
          true,
         BusEvent.transmit 0x11
          [0x03,
            setField s.m_rdaWriteRegisters.reg03 6 10
              (channel / channelSpacingValue s.getChannelSpacing) / 256 % 256,
            setField s.m_rdaWriteRegisters.reg03 6 10
              (channel / channelSpacingValue s.getChannelSpacing) % 256] true] := by
      rw [← hs3]; simp [i2cWriteRegister_eq, setChannel]
    have hslave : s3.Wire.slave = s.Wire.slave := by
      rw [← hs3]; simp [i2cWriteRegister_eq, setChannel]
    have hreq : s3.Wire.requests = s.Wire.requests := by
      rw [← hs3]; simp [i2cWriteRegister_eq, setChannel]
    have hpoll : ∀ j, polledStatus s3.Wire (s3.Wire.requests + j) =
        polledStatus s.Wire (s.Wire.requests + j) := by
      intro j; rw [polledStatus_congr _ _ hslave, hreq]
    obtain ⟨s4, hs4, hlog4, h0A⟩ := tunePoll_trace n fuel s3 hfuel
      (fun j hj => by rw [hpoll]; exact hleast j hj) (by rw [hpoll]; exact hstc)
    refine ⟨s4, by simp [hs4], ?_, ?_⟩
    · rw [hlog4, hlog3, hreg03]
    · rw [h0A, hpoll]
  · intro s2 hs2
    have hnot : ¬ Option.map Prod.fst (s.updateReceivedFrequency fuel f) = some false := by
      rw [hs2]; simp
    rw [updateReceivedFrequency_false_iff] at hnot
    have hg1 : ¬ ((!s.get65mMode && decide (f < 500)) = true) := fun h => hnot (Or.inl h)
    have hg2 : ¬ (f < 650 ∨ f > 1080) := fun h => hnot (Or.inr (Or.inl h))
    have hcn : channelOfFrequency s.getBand (!s.get65mMode) f ≠ none :=
      fun h => hnot (Or.inr (Or.inr h))
    obtain ⟨channel, hc⟩ := Option.ne_none_iff_exists'.mp hcn
    refine ⟨⟨by omega, by omega, channel, hc⟩, ?_⟩
    unfold updateReceivedFrequency at hs2
    simp only [hg1, hg2, hc, hm, if_false, Bool.false_eq_true, hdiv] at hs2
    generalize hs3 :
      ((s.setChannel (channel / channelSpacingValue s.getChannelSpacing)).i2cWriteRegister
      0x02 (s.setChannel (channel / channelSpacingValue
        s.getChannelSpacing)).m_rdaWriteRegisters.reg02).i2cWriteRegister 0x03
      ((s.setChannel (channel / channelSpacingValue s.getChannelSpacing)).i2cWriteRegister
      0x02 (s.setChannel (channel / channelSpacingValue
        s.getChannelSpacing)).m_rdaWriteRegisters.reg02).m_rdaWriteRegisters.reg03 = s3 at hs2
    have hslave : s3.Wire.slave = s.Wire.slave := by
      rw [← hs3]; simp [i2cWriteRegister_eq, setChannel]
    have hreq : s3.Wire.requests = s.Wire.requests := by
      rw [← hs3]; simp [i2cWriteRegister_eq, setChannel]
    cases ht : tunePoll fuel s3 with
    | none => simp [ht] at hs2
    | some s4 =>
      obtain ⟨n, hn, hstc⟩ := tunePoll_some_stc fuel _ _ ht
      rw [polledStatus_congr _ _ hslave, hreq] at hstc
      exact ⟨n, hn, hstc⟩

theorem updateReceivedFrequency_poll_trace_witness :
    ∃ s2, (RDA5807.init (fun k => if k = 0 then [0x00, 0x00] else [0x40, 0x00])).updateReceivedFrequency
        2 919 = some (true, s2) ∧
      s2.Wire.log =
        [BusEvent.transmit 0x11 [0x02, 0x00, 0x00] true,
         BusEvent.transmit 0x11 [0x03, 0x0C, 0x40] true,
         BusEvent.transmit 0x11 [0x0A] false, BusEvent.request 0x11 2,
         BusEvent.transmit 0x11 [0x03, 0x0C, 0x50] true,
         BusEvent.transmit 0x11 [0x0A] false, BusEvent.request 0x11 2,
         BusEvent.transmit 0x11 [0x03, 0x0C, 0x50] true] ∧
      s2.m_rdaReadRegisters.reg0A = 0x4000 := by
  obtain ⟨s2, h1, h2, h3⟩ :=
    (updateReceivedFrequency_poll_trace 2
      (RDA5807.init (fun k => if k = 0 then [0x00, 0x00] else [0x40, 0x00])) 919
      (by decide)).1 4900 1 (by decide) (by decide) (by decide) (by decide)
      (by intro j hj; interval_cases j; decide) (by decide)
  exact ⟨s2, h1, by rw [h2]; decide, by rw [h3]; decide⟩

/-! ### Direct mode: no completion poll -/

/-- C31. In direct frequency-setting mode with an accepted frequency,
`updateReceivedFrequency` returns true for any fuel (it does not enter the completion
poll); the bus log grows by exactly the two addressed writes `(0x07, reg07)` and
`(0x08, reg08)`, no read request is issued, and register 02, register 03 (channel and
tune bit included) and the status registers are unchanged. -/
theorem updateReceivedFrequency_direct_no_poll (fuel : Nat) (s : RDA5807) (f channel : Nat)
    (h1 : 650 ≤ f) (h2 : f ≤ 1080)
    (hc : channelOfFrequency s.getBand (!s.get65mMode) f = some channel)
    (hm : s.getAlternativeFrequencySettingMode = true) :
    ∃ s2, s.updateReceivedFrequency fuel f = some (true, s2) ∧
      s2.Wire.log = s.Wire.log ++
        [BusEvent.transmit 0x11
          [0x07, s2.m_rdaWriteRegisters.reg07 / 256 % 256, s2.m_rdaWriteRegisters.reg07 % 256]
          true,
         BusEvent.transmit 0x11
          [0x08, s2.m_rdaWriteRegisters.reg08 / 256 % 256, s2.m_rdaWriteRegisters.reg08 % 256]
          true] ∧
      s2.Wire.requests = s.Wire.requests ∧
      s2.m_rdaWriteRegisters.reg02 = s.m_rdaWriteRegisters.reg02 ∧
      s2.m_rdaWriteRegisters.reg03 = s.m_rdaWriteRegisters.reg03 ∧
      s2.getChannel = s.getChannel ∧ s2.getTune = s.getTune ∧
      s2.m_rdaReadRegisters = s.m_rdaReadRegisters := by
  have hg1 : ¬ ((!s.get65mMode && decide (f < 500)) = true) := by
    have : ¬ f < 500 := by omega
    simp [this]
  have hg2 : ¬ (f < 650 ∨ f > 1080) := by omega
  unfold updateReceivedFrequency
  simp only [hg1, hg2, hc, hm, if_false, if_true]
  refine ⟨_, rfl, ?_, ?_, ?_, ?_, ?_, ?_, ?_⟩ <;>
    simp [i2cWriteRegister_eq, setFrequencyDirectly, getChannel, getTune]

theorem updateReceivedFrequency_direct_no_poll_witness :
    ∃ s2, ((RDA5807.init (fun _ => [])).setAlternativeFrequencySettingMode
        true).updateReceivedFrequency 0 919 = some (true, s2) ∧
      s2.Wire.log = ((RDA5807.init (fun _ => [])).setAlternativeFrequencySettingMode
          true).Wire.log ++
        [BusEvent.transmit 0x11
          [0x07, s2.m_rdaWriteRegisters.reg07 / 256 % 256, s2.m_rdaWriteRegisters.reg07 % 256]
          true,
         BusEvent.transmit 0x11
          [0x08, s2.m_rdaWriteRegisters.reg08 / 256 % 256, s2.m_rdaWriteRegisters.reg08 % 256]
          true] ∧
      s2.Wire.requests = ((RDA5807.init (fun _ => [])).setAlternativeFrequencySettingMode
          true).Wire.requests ∧
      s2.m_rdaWriteRegisters.reg02 =
        ((RDA5807.init (fun _ => [])).setAlternativeFrequencySettingMode
          true).m_rdaWriteRegisters.reg02 ∧
      s2.m_rdaWriteRegisters.reg03 =
        ((RDA5807.init (fun _ => [])).setAlternativeFrequencySettingMode
          true).m_rdaWriteRegisters.reg03 ∧
      s2.getChannel = ((RDA5807.init (fun _ => [])).setAlternativeFrequencySettingMode
          true).getChannel ∧
      s2.getTune = ((RDA5807.init (fun _ => [])).setAlternativeFrequencySettingMode
          true).getTune ∧
      s2.m_rdaReadRegisters =
        ((RDA5807.init (fun _ => [])).setAlternativeFrequencySettingMode
          true).m_rdaReadRegisters :=
  updateReceivedFrequency_direct_no_poll 0
    ((RDA5807.init (fun _ => [])).setAlternativeFrequencySettingMode true) 919 4900
    (by decide) (by decide) (by decide) (by decide)

/-! ### Volume -/

theorem getField_volume_setField_volume (v x : Nat) :
    getField (setField v 0 4 x) 0 4 = x % 16 := by
  unfold setField getField
  norm_num
  omega

theorem setField_volume_high (v x : Nat) : setField v 0 4 x / 16 = v / 16 := by
  unfold setField
  norm_num
  omega

/-- C32. For every 8-bit value `v`, `updateVolumeLevel v` leaves `v / 16` in the 4-bit
volume field (0 for 0, 15 for 255, monotone in `v`), keeps every other bit of register
05, every other write register, the status registers and the check struct, and puts
exactly one addressed write `(0x05, reg05)` on the bus, without any read request. -/
theorem updateVolumeLevel_spec (s : RDA5807) (v : Nat) (hv : v < 256) :
    (s.updateVolumeLevel v).getVolume = v / 16
      ∧ (s.updateVolumeLevel v).m_rdaWriteRegisters.reg05 / 16 =
        s.m_rdaWriteRegisters.reg05 / 16
      ∧ (s.updateVolumeLevel v).m_rdaWriteRegisters =
        { s.m_rdaWriteRegisters with
          reg05 := (s.updateVolumeLevel v).m_rdaWriteRegisters.reg05 }
      ∧ (s.updateVolumeLevel v).m_rdaReadRegisters = s.m_rdaReadRegisters
      ∧ (s.updateVolumeLevel v).m_rdaWriteRegistersCheck = s.m_rdaWriteRegistersCheck
      ∧ (s.updateVolumeLevel v).Wire.log = s.Wire.log ++
        [BusEvent.transmit 0x11
          [0x05, (s.updateVolumeLevel v).m_rdaWriteRegisters.reg05 / 256 % 256,
            (s.updateVolumeLevel v).m_rdaWriteRegisters.reg05 % 256] true]
      ∧ (s.updateVolumeLevel v).Wire.requests = s.Wire.requests
      ∧ (s.updateVolumeLevel 0).getVolume = 0
      ∧ (s.updateVolumeLevel 255).getVolume = 15
      ∧ ∀ w, v ≤ w → w < 256 →
        (s.updateVolumeLevel v).getVolume ≤ (s.updateVolumeLevel w).getVolume := by
  have hlevel : ∀ x : Nat, x < 256 →
      (if x ≠ 0 then (x / 0x10) % 256 else 0) = x / 16 := by
    intro x hx
    split <;> omega
  have hvol : ∀ x : Nat, x < 256 → (s.updateVolumeLevel x).getVolume = x / 16 := by
    intro x hx
    unfold updateVolumeLevel
    simp only [hlevel x hx, i2cWriteRegister_eq, setVolume, getVolume,
      getField_volume_setField_volume]
    omega
  refine ⟨hvol v hv, ?_, ?_, ?_, ?_, ?_, ?_, hvol 0 (by omega), hvol 255 (by omega), ?_⟩
  · unfold updateVolumeLevel
    simp only [i2cWriteRegister_eq, setVolume, setField_volume_high]
  · unfold updateVolumeLevel
    simp only [i2cWriteRegister_eq, setVolume]
  · unfold updateVolumeLevel
    simp only [i2cWriteRegister_eq, setVolume]
  · unfold updateVolumeLevel
    simp only [i2cWriteRegister_eq, setVolume]
  · unfold updateVolumeLevel
    simp [i2cWriteRegister_eq, setVolume]
  · unfold updateVolumeLevel
    simp only [i2cWriteRegister_eq, setVolume]
  · intro w hvw hw
    rw [hvol v hv, hvol w hw]
    exact Nat.div_le_div_right hvw

theorem updateVolumeLevel_spec_witness :
    ((RDA5807.init (fun _ => [])).updateVolumeLevel 0xA5).getVolume = 0xA5 / 16
      ∧ ((RDA5807.init (fun _ => [])).updateVolumeLevel 0xA5).Wire.log =
        [BusEvent.transmit 0x11 [0x05, 0x88, 0x8A] true] := by
  have h := updateVolumeLevel_spec (RDA5807.init (fun _ => [])) 0xA5 (by decide)
  exact ⟨h.1, by decide⟩

/-! ### Bit-field setters -/

theorem setField_band (v x : Nat) :
    getField (setField v 2 2 x) 2 2 = x % 4 ∧ setField v 2 2 x % 4 = v % 4 ∧
      setField v 2 2 x / 16 = v / 16 := by
  unfold setField getField
  norm_num
  omega

theorem setField_spacing (v x : Nat) :
    getField (setField v 0 2 x) 0 2 = x % 4 ∧ setField v 0 2 x / 4 = v / 4 := by
  unfold setField getField
  norm_num
  omega

theorem setField_channel (v x : Nat) :
    getField (setField v 6 10 x) 6 10 = x % 1024 ∧ setField v 6 10 x % 64 = v % 64 ∧
      setField v 6 10 x / 65536 = v / 65536 := by
  unfold setField getField
  norm_num
  omega

theorem band_cast_getEnumValue (b : band) : band.cast (b.getEnumValue % 4) = b := by
  cases b <;> rfl

theorem channelSpacing_cast_getEnumValue (c : channelSpacing) :
    channelSpacing.cast (c.getEnumValue % 4) = c := by
  cases c <;> rfl

/-- C37. The setters `setBand`, `setChannelSpacing`, `setChannel` and `setVolume` keep the
bit-field views and the raw register value consistent: the matching getter returns the
argument reduced to the width of the field (2, 2, 10 and 4 bits; a band or a channel
spacing is returned as it was given), the raw register changes only inside the field
(register 03 bits 3..2, 1..0, 15..6; register 05 bits 3..0), no other write register, no
status register, no check entry and nothing of the bus state changes. -/
theorem setters_keep_views_consistent (s : RDA5807) (b : band) (c : channelSpacing)
    (channel value : Nat) :
    (getField (s.setBand b).m_rdaWriteRegisters.reg03 2 2 = b.getEnumValue % 4
      ∧ (s.setBand b).getBand = b
      ∧ (s.setBand b).m_rdaWriteRegisters.reg03 % 4 = s.m_rdaWriteRegisters.reg03 % 4
      ∧ (s.setBand b).m_rdaWriteRegisters.reg03 / 16 = s.m_rdaWriteRegisters.reg03 / 16
      ∧ (s.setBand b).m_rdaWriteRegisters =
        { s.m_rdaWriteRegisters with reg03 := (s.setBand b).m_rdaWriteRegisters.reg03 }
      ∧ (s.setBand b).m_rdaReadRegisters = s.m_rdaReadRegisters
      ∧ (s.setBand b).m_rdaWriteRegistersCheck = s.m_rdaWriteRegistersCheck
      ∧ (s.setBand b).Wire = s.Wire)
    ∧ (getField (s.setChannelSpacing c).m_rdaWriteRegisters.reg03 0 2 = c.getEnumValue % 4
      ∧ (s.setChannelSpacing c).getChannelSpacing = c
      ∧ (s.setChannelSpacing c).m_rdaWriteRegisters.reg03 / 4 =
        s.m_rdaWriteRegisters.reg03 / 4
      ∧ (s.setChannelSpacing c).m_rdaWriteRegisters =
        { s.m_rdaWriteRegisters with
          reg03 := (s.setChannelSpacing c).m_rdaWriteRegisters.reg03 }
      ∧ (s.setChannelSpacing c).m_rdaReadRegisters = s.m_rdaReadRegisters
      ∧ (s.setChannelSpacing c).m_rdaWriteRegistersCheck = s.m_rdaWriteRegistersCheck
      ∧ (s.setChannelSpacing c).Wire = s.Wire)
    ∧ ((s.setChannel channel).getChannel = channel % 1024
      ∧ (s.setChannel channel).m_rdaWriteRegisters.reg03 % 64 =
        s.m_rdaWriteRegisters.reg03 % 64
      ∧ (s.setChannel channel).m_rdaWriteRegisters.reg03 / 65536 =
        s.m_rdaWriteRegisters.reg03 / 65536
      ∧ (s.setChannel channel).m_rdaWriteRegisters =
        { s.m_rdaWriteRegisters with
          reg03 := (s.setChannel channel).m_rdaWriteRegisters.reg03 }
      ∧ (s.setChannel channel).m_rdaReadRegisters = s.m_rdaReadRegisters
      ∧ (s.setChannel channel).m_rdaWriteRegistersCheck = s.m_rdaWriteRegistersCheck
      ∧ (s.setChannel channel).Wire = s.Wire)
    ∧ ((s.setVolume value).getVolume = value % 16
      ∧ (s.setVolume value).m_rdaWriteRegisters.reg05 / 16 = s.m_rdaWriteRegisters.reg05 / 16
      ∧ (s.setVolume value).m_rdaWriteRegisters =
        { s.m_rdaWriteRegisters with reg05 := (s.setVolume value).m_rdaWriteRegisters.reg05 }
      ∧ (s.setVolume value).m_rdaReadRegisters = s.m_rdaReadRegisters
      ∧ (s.setVolume value).m_rdaWriteRegistersCheck = s.m_rdaWriteRegistersCheck
      ∧ (s.setVolume value).Wire = s.Wire) := by
  refine ⟨⟨?_, ?_, ?_, ?_, rfl, rfl, rfl, rfl⟩, ⟨?_, ?_, ?_, rfl, rfl, rfl, rfl⟩,
    ⟨?_, ?_, ?_, rfl, rfl, rfl, rfl⟩, ⟨?_, ?_, rfl, rfl, rfl, rfl⟩⟩
  · exact (setField_band _ _).1
  · show band.cast (getField (setField s.m_rdaWriteRegisters.reg03 2 2 b.getEnumValue) 2 2) = b
    rw [(setField_band _ _).1]
    exact band_cast_getEnumValue b
  · exact (setField_band _ _).2.1
  · exact (setField_band _ _).2.2
  · exact (setField_spacing _ _).1
  · show channelSpacing.cast
      (getField (setField s.m_rdaWriteRegisters.reg03 0 2 c.getEnumValue) 0 2) = c
    rw [(setField_spacing _ _).1]
    exact channelSpacing_cast_getEnumValue c
  · exact (setField_spacing _ _).2
  · exact (setField_channel _ _).1
  · exact (setField_channel _ _).2.1
  · exact (setField_channel _ _).2.2
  · exact getField_volume_setField_volume _ _
  · exact setField_volume_high _ _

/-! ### Channel indices above ten bits -/

/-- C38 (evaluation at the failing input). On the world-wide band with 25 kHz spacing, in
standard mode, `updateReceivedFrequency(1080)` returns true although the channel index
`(1080 - 760) * 100 / 25 = 1280` exceeds 1023; the channel field then holds 256.  The same
happens for every frequency from 1016 to 1080 on that band and spacing: the call returns
true and the field holds the index less 1024. -/
theorem channel_index_exceeds_ten_bits :
    Option.map (fun r => (r.1, r.2.getChannel))
        ((((RDA5807.init (fun _ => [0x40, 0x00])).setBand
          band.worldWide).setChannelSpacing channelSpacing.spc25kHz).updateReceivedFrequency
            1 1080) = some (true, 256)
      ∧ (1080 - 760) * 100 / 25 = 1280
      ∧ ∀ (fuel n : Nat) (s : RDA5807) (f : Nat),
          s.getBand = band.worldWide → s.getChannelSpacing = channelSpacing.spc25kHz →
          s.getAlternativeFrequencySettingMode = false →
          getField (polledStatus s.Wire (s.Wire.requests + n)) 14 1 ≠ 0 → n < fuel →
          1016 ≤ f → f ≤ 1080 →
          1023 < (f - 760) * 100 / 25 ∧
          ∃ s2, s.updateReceivedFrequency fuel f = some (true, s2) ∧
            s2.getChannel = (f - 760) * 100 / 25 - 1024 := by
  refine ⟨by decide, by decide, ?_⟩
  intro fuel n s f hb hsp hm hstc hfuel hf1 hf2
  have hc : channelOfFrequency s.getBand (!s.get65mMode) f = some ((f - 760) * 100) := by
    rw [channelOfFrequency_eq _ _ f (by omega) (by omega), hb]
    have h0 : 760 ≤ f := by omega
    simp [h0]
  obtain ⟨s2, hs2, hch⟩ :=
    updateReceivedFrequency_standard fuel n s f _ (by omega) (by omega) hc hm hstc hfuel
  refine ⟨by omega, s2, hs2, ?_⟩
  rw [hch, hsp]
  show (f - 760) * 100 / 25 % 1024 = (f - 760) * 100 / 25 - 1024
  omega

end RDA5807

/-! ## RDS decoder -/

theorem and_mask_shift (x k w : Nat) :
    (x &&& ((2 ^ w - 1) <<< k)) >>> k = x / 2 ^ k % 2 ^ w := by
  apply Nat.eq_of_testBit_eq
  intro j
  rw [← Nat.shiftRight_eq_div_pow]
  simp only [Nat.testBit_shiftRight, Nat.testBit_and, Nat.testBit_shiftLeft,
    Nat.testBit_two_pow_sub_one, Nat.testBit_mod_two_pow]
  have h1 : k + j - k = j := by omega
  have h2 : k + j ≥ k := by omega
  simp [h1, h2, Bool.and_comm]

theorem and_mask (x k w : Nat) :
    x &&& ((2 ^ w - 1) <<< k) = (x / 2 ^ k % 2 ^ w) * 2 ^ k := by
  rw [← and_mask_shift, ← Nat.shiftLeft_eq]
  apply Nat.eq_of_testBit_eq
  intro j
  simp only [Nat.testBit_shiftRight, Nat.testBit_and, Nat.testBit_shiftLeft,
    Nat.testBit_two_pow_sub_one]
  by_cases h : j ≥ k
  · have h1 : k + (j - k) = j := by omega
    simp [h, h1]
  · simp [h]

namespace RdsDecoder

/-- C15 (evaluation at the failing inputs). `getGroupTypeCode` or-s the version flag
into the unshifted nibble: a block B with nibble 2 and version 0 is given code 2 (`g1A`),
nibble 4 version 0 code 4 (`g2A`), nibble 10 version 0 code 10 (`g5A`), and nibble 3
version 1 code 3 (`g1B`); the codes `2 * nibble + version` would be `g2A`, `g4A`, `g10A`
and `g3B`. -/
theorem getGroupTypeCode_not_concatenation :
    getGroupTypeCode { blockA := 0, blockB := 0x2000, blockC := 0, blockD := 0 } =
        groupType.g1A
      ∧ getGroupTypeCode { blockA := 0, blockB := 0x4000, blockC := 0, blockD := 0 } =
        groupType.g2A
      ∧ getGroupTypeCode { blockA := 0, blockB := 0xA000, blockC := 0, blockD := 0 } =
        groupType.g5A
      ∧ getGroupTypeCode { blockA := 0, blockB := 0x3800, blockC := 0, blockD := 0 } =
        groupType.g1B
      ∧ groupType.cast (2 * 2 + 0) = groupType.g2A
      ∧ groupType.cast (2 * 4 + 0) = groupType.g4A
      ∧ groupType.cast (2 * 10 + 0) = groupType.g10A
      ∧ groupType.cast (2 * 3 + 1) = groupType.g3B := by
  decide

/-- Where the computed code is none of the eight cases of the switch, no `return` is
executed. -/
theorem decodeReceivedData_fst_unsupported (shl : Int → Int → Int) (d : RdsDecoder)
    (b : RdsDataBlocks)
    (h : getGroupTypeCode b ∉ [groupType.g0A, groupType.g0B, groupType.g1A, groupType.g1B,
      groupType.g2A, groupType.g2B, groupType.g4A, groupType.g10A]) :
    (decodeReceivedData shl d b).1 = Option.none := by
  unfold decodeReceivedData decodeReceivedDataWith
  cases hg : getGroupTypeCode b <;> simp only [] <;> simp [hg] at h

theorem getGroupTypeCode_0x6000 (a c e : Nat) :
    getGroupTypeCode { blockA := a, blockB := 0x6000, blockC := c, blockD := e } =
      groupType.g3A := by
  show groupType.cast ((((0x6000 : Nat) &&& 0xF000) >>> 12) |||
      (if decide (((0x6000 : Nat) &&& 0x0800) ≠ 0) = true then 1 else 0)) = groupType.g3A
  decide

/-- C16 (evaluation at the failing input). For a block B of `0x6000` (computed code 6,
`g3A`) no case of the switch matches and `decodeReceivedData` reaches its end without
executing a `return`: no value, in particular not `groupType::none`, is returned,
whatever the decoder state and the other blocks are. -/
theorem decodeReceivedData_unsupported_no_return (shl : Int → Int → Int) (d : RdsDecoder)
    (a c e : Nat) :
    getGroupTypeCode { blockA := a, blockB := 0x6000, blockC := c, blockD := e } =
        groupType.g3A
      ∧ (decodeReceivedData shl d
          { blockA := a, blockB := 0x6000, blockC := c, blockD := e }).1 = Option.none
      ∧ (decodeReceivedData shl d
          { blockA := a, blockB := 0x6000, blockC := c, blockD := e }).1 ≠
        some groupType.none := by
  have h := getGroupTypeCode_0x6000 a c e
  have h2 := decodeReceivedData_fst_unsupported shl d
    { blockA := a, blockB := 0x6000, blockC := c, blockD := e } (by rw [h]; decide)
  refine ⟨h, h2, ?_⟩
  rw [h2]
  exact fun hh => Option.noConfusion hh

/-! ### Which members each handler assigns -/

theorem common_fields_eq (d : RdsDecoder) (b : RdsDataBlocks) :
    setProgrammeTypeCode (setTrafficProgramme (setProgrammeReferenceNumber
        (setProgrammeAreaCoverage (setCountryCode d b) b) b) b) b =
      { d with
        m_programmeIdentification :=
          { countryCode := (((b.blockA &&& 0xF000) >>> 12) % 256) % 16
            programmeAreaCoverage := (((b.blockA &&& 0x0F00) >>> 8) % 256) % 16
            programmeReferenceNumber := (b.blockA &&& 0x00FF) % 256 }
        m_blockBData :=
          { trafficProgramme := decide ((b.blockB &&& 0x0400) ≠ 0)
            progType := ((b.blockB &&& 0x03E0) >>> 5) % 256 } } := rfl

theorem setProgrammeServiceName_eq (shl : Int → Int → Int) (d : RdsDecoder)
    (b : RdsDataBlocks) :
    ∃ bits : Nat, setProgrammeServiceName shl d b =
      { d with m_group0 :=
          { d.m_group0 with
            decoderControlBits := bits
            programmeServiceName :=
              ((if b.blockB % 4 = 0 then List.replicate 9 0
                else d.m_group0.programmeServiceName).set (2 * (b.blockB % 4))
                  (b.blockD / 256 % 256)).set (2 * (b.blockB % 4) + 1) (b.blockD % 256) } } := by
  have h3 : b.blockB &&& 0x0003 = b.blockB % 4 := Nat.and_pow_two_sub_one_eq_mod _ 2
  have hlt : b.blockB % 4 % 256 = b.blockB % 4 := Nat.mod_eq_of_lt (by omega)
  have hi : ((b.blockB % 4 + 1) * 2) - 2 = 2 * (b.blockB % 4) := by omega
  have hj : ((b.blockB % 4 + 1) * 2) - 1 = 2 * (b.blockB % 4) + 1 := by omega
  unfold setProgrammeServiceName
  simp only [h3, hlt, hi, hj, and_ff00_shift, and_ff_eq_mod, Nat.mod_mod]
  by_cases h0 : b.blockB % 4 = 0
  · simp only [h0, if_true]
    exact ⟨_, rfl⟩
  · simp only [h0, if_false]
    exact ⟨_, rfl⟩

theorem group1A_eq (d : RdsDecoder) (b : RdsDataBlocks) :
    ∃ g : Group1,
      setLanguageCode (setProgrammeItemNumberCode (setExtendedCountryCode d b) b) b =
        { d with m_group1 := g } := by
  unfold setLanguageCode
  split <;> exact ⟨_, rfl⟩

theorem prepareRadioText_eq (d : RdsDecoder) (b : RdsDataBlocks) :
    ∃ g : Group2, prepareRadioText d b = { d with m_group2 := g } := by
  unfold prepareRadioText
  by_cases h : (b.blockB &&& 0x0010) ≠ (if d.m_group2.textAbFlag then 1 else 0)
  · rw [if_pos h]
    exact ⟨_, rfl⟩
  · rw [if_neg h]
    exact ⟨d.m_group2, rfl⟩

theorem setRadioText2A_eq (d : RdsDecoder) (b : RdsDataBlocks) :
    ∃ g : Group2, setRadioText2A d b = { d with m_group2 := g } := by
  obtain ⟨g, hg⟩ := prepareRadioText_eq d b
  unfold setRadioText2A
  rw [hg]
  exact ⟨_, rfl⟩

theorem setRadioText2B_eq (d : RdsDecoder) (b : RdsDataBlocks) :
    ∃ g : Group2, setRadioText2B d b = { d with m_group2 := g } := by
  obtain ⟨g, hg⟩ := prepareRadioText_eq d b
  unfold setRadioText2B
  rw [hg]
  exact ⟨_, rfl⟩

theorem setProgrammeTypeName_eq (d : RdsDecoder) (b : RdsDataBlocks) :
    ∃ g : Group10A, setProgrammeTypeName d b = { d with m_group10A := g } := by
  unfold setProgrammeTypeName
  split
  · exact ⟨d.m_group10A, rfl⟩
  · exact ⟨_, rfl⟩

theorem timeAndDate_eq (d : RdsDecoder) (b : RdsDataBlocks) :
    ∃ (g : Group4A) (t : DateData),
      setDate (prepareTimeAndDate d b) = { d with m_group4A := g, m_date := t } :=
  ⟨_, _, rfl⟩

theorem decodeReceivedData_snd_common (shl : Int → Int → Int) (d : RdsDecoder)
    (b : RdsDataBlocks) :
    (decodeReceivedData shl d b).2.m_programmeIdentification =
        { countryCode := (((b.blockA &&& 0xF000) >>> 12) % 256) % 16
          programmeAreaCoverage := (((b.blockA &&& 0x0F00) >>> 8) % 256) % 16
          programmeReferenceNumber := (b.blockA &&& 0x00FF) % 256 }
      ∧ (decodeReceivedData shl d b).2.m_blockBData =
        { trafficProgramme := decide ((b.blockB &&& 0x0400) ≠ 0)
          progType := ((b.blockB &&& 0x03E0) >>> 5) % 256 } := by
  unfold decodeReceivedData decodeReceivedDataWith
  simp only [common_fields_eq]
  cases hg : getGroupTypeCode b <;> simp only []
  case g0A =>
    obtain ⟨bits, h⟩ := setProgrammeServiceName_eq shl _ b
    rw [h]; exact ⟨rfl, rfl⟩
  case g0B =>
    obtain ⟨bits, h⟩ := setProgrammeServiceName_eq shl _ b
    rw [h]; exact ⟨rfl, rfl⟩
  case g1A =>
    obtain ⟨g, h⟩ := group1A_eq _ b
    rw [h]; exact ⟨rfl, rfl⟩
  case g2A =>
    obtain ⟨g, h⟩ := prepareRadioText_eq _ b
    rw [h]
    obtain ⟨g2, h2⟩ := setRadioText2A_eq _ b
    rw [h2]; exact ⟨rfl, rfl⟩
  case g2B =>
    obtain ⟨g, h⟩ := prepareRadioText_eq _ b
    rw [h]
    obtain ⟨g2, h2⟩ := setRadioText2B_eq _ b
    rw [h2]; exact ⟨rfl, rfl⟩
  case g4A =>
    obtain ⟨g, t, h⟩ := timeAndDate_eq _ b
    rw [h]; exact ⟨rfl, rfl⟩
  case g10A =>
    obtain ⟨g, h⟩ := setProgrammeTypeName_eq _ b
    rw [h]; exact ⟨rfl, rfl⟩
  all_goals first | exact ⟨rfl, rfl⟩ | trivial

/-- C18. For every group, supported or not, after `decodeReceivedData` the common fields
are the bit slices of blocks A and B: country code = A bits 15..12, area coverage = A bits
11..8, reference number = A bits 7..0 (so the three recombine to the 16-bit block A),
traffic-programme flag = B bit 10 and programme type = B bits 9..5, a value below 32. -/
theorem decodeReceivedData_common_fields (shl : Int → Int → Int) (d : RdsDecoder)
    (b : RdsDataBlocks) :
    (decodeReceivedData shl d b).2.m_programmeIdentification.countryCode =
        b.blockA / 4096 % 16
      ∧ (decodeReceivedData shl d b).2.m_programmeIdentification.programmeAreaCoverage =
        b.blockA / 256 % 16
      ∧ (decodeReceivedData shl d b).2.m_programmeIdentification.programmeReferenceNumber =
        b.blockA % 256
      ∧ (decodeReceivedData shl d b).2.m_programmeIdentification.countryCode * 4096 +
          (decodeReceivedData shl d b).2.m_programmeIdentification.programmeAreaCoverage * 256 +
          (decodeReceivedData shl d b).2.m_programmeIdentification.programmeReferenceNumber =
        b.blockA % 65536
      ∧ (decodeReceivedData shl d b).2.m_blockBData.trafficProgramme =
        decide (b.blockB / 1024 % 2 = 1)
      ∧ (decodeReceivedData shl d b).2.m_blockBData.progType = b.blockB / 32 % 32
      ∧ (decodeReceivedData shl d b).2.m_blockBData.progType < 32 := by
  obtain ⟨hp, hb⟩ := decodeReceivedData_snd_common shl d b
  have h1 : (b.blockA &&& 0xF000) >>> 12 = b.blockA / 4096 % 16 := and_mask_shift _ 12 4
  have h2 : (b.blockA &&& 0x0F00) >>> 8 = b.blockA / 256 % 16 := and_mask_shift _ 8 4
  have h3 : (b.blockB &&& 0x03E0) >>> 5 = b.blockB / 32 % 32 := and_mask_shift _ 5 5
  have h4 : b.blockB &&& 0x0400 = (b.blockB / 1024 % 2) * 1024 := and_mask _ 10 1
  rw [hp, hb]
  simp only [h1, h2, h3, h4, and_ff_eq_mod]
  refine ⟨by omega, by omega, by omega, by omega, ?_, by omega, by omega⟩
  rcases Nat.mod_two_eq_zero_or_one (b.blockB / 1024) with h | h <;> simp [h]

/-! ### Station name -/

theorem decodeReceivedData_programmeServiceName (shl : Int → Int → Int) (d : RdsDecoder)
    (b : RdsDataBlocks)
    (hg : getGroupTypeCode b = groupType.g0A ∨ getGroupTypeCode b = groupType.g0B) :
    (decodeReceivedData shl d b).2.m_group0.programmeServiceName =
      ((if b.blockB % 4 = 0 then List.replicate 9 0
        else d.m_group0.programmeServiceName).set (2 * (b.blockB % 4))
          (b.blockD / 256 % 256)).set (2 * (b.blockB % 4) + 1) (b.blockD % 256) := by
  unfold decodeReceivedData decodeReceivedDataWith
  simp only [common_fields_eq]
  obtain ⟨bits, h⟩ := setProgrammeServiceName_eq shl
    { d with
      m_programmeIdentification :=
        { countryCode := (((b.blockA &&& 0xF000) >>> 12) % 256) % 16
          programmeAreaCoverage := (((b.blockA &&& 0x0F00) >>> 8) % 256) % 16
          programmeReferenceNumber := (b.blockA &&& 0x00FF) % 256 }
      m_blockBData :=
        { trafficProgramme := decide ((b.blockB &&& 0x0400) ≠ 0)
          progType := ((b.blockB &&& 0x03E0) >>> 5) % 256 } } b
  rcases hg with hg | hg <;> simp only [hg] <;> rw [h]

/-- C20. For every prior decoder state, a group classified as 0A or 0B with segment
address 0 leaves the station-name buffer equal to `[D high byte, D low byte, 0, 0, 0, 0,
0, 0, 0]`; a group with segment address `a` in 1..3 assigns the high and the low byte of
block D to positions `2a` and `2a + 1` and leaves every other position, and the length,
of the buffer as they were. -/
theorem programmeServiceName_segment (shl : Int → Int → Int) (d : RdsDecoder)
    (b : RdsDataBlocks)
    (hg : getGroupTypeCode b = groupType.g0A ∨ getGroupTypeCode b = groupType.g0B) :
    (b.blockB % 4 = 0 →
      (decodeReceivedData shl d b).2.m_group0.programmeServiceName =
        [b.blockD / 256 % 256, b.blockD % 256, 0, 0, 0, 0, 0, 0, 0])
    ∧ (b.blockB % 4 ≠ 0 →
      (decodeReceivedData shl d b).2.m_group0.programmeServiceName =
          (d.m_group0.programmeServiceName.set (2 * (b.blockB % 4))
            (b.blockD / 256 % 256)).set (2 * (b.blockB % 4) + 1) (b.blockD % 256)
        ∧ (decodeReceivedData shl d b).2.m_group0.programmeServiceName.length =
          d.m_group0.programmeServiceName.length
        ∧ ∀ i, i ≠ 2 * (b.blockB % 4) → i ≠ 2 * (b.blockB % 4) + 1 →
          (decodeReceivedData shl d b).2.m_group0.programmeServiceName[i]? =
            d.m_group0.programmeServiceName[i]?) := by
  rw [decodeReceivedData_programmeServiceName shl d b hg]
  constructor
  · intro h0
    simp [h0, List.replicate]
  · intro h0
    simp only [h0, if_false]
    refine ⟨trivial, by simp, ?_⟩
    intro i h1 h2
    rw [List.getElem?_set, List.getElem?_set]
    simp [Ne.symm h1, Ne.symm h2]

theorem programmeServiceName_segment_witness :
    (decodeReceivedData (fun _ _ => 0)
        { RdsDecoder.init with
          m_group0 :=
            { RdsDecoder.init.m_group0 with
              programmeServiceName := [82, 65, 68, 73, 79, 32, 49, 32, 0] } }
        { blockA := 0x1234, blockB := 0x0002, blockC := 0,
          blockD := 0x4142 }).2.m_group0.programmeServiceName =
      [82, 65, 68, 73, 0x41, 0x42, 49, 32, 0] :=
  ((programmeServiceName_segment (fun _ _ => 0)
    { RdsDecoder.init with
      m_group0 :=
        { RdsDecoder.init.m_group0 with
          programmeServiceName := [82, 65, 68, 73, 79, 32, 49, 32, 0] } }
    { blockA := 0x1234, blockB := 0x0002, blockC := 0, blockD := 0x4142 }
    (Or.inl (by decide))).2 (by decide)).1.trans (by decide)

/-- C19. For every eight bytes `c0 .. c7` and every prior decoder state, decoding four
groups classified as 0A or 0B with segment addresses 0, 1, 2, 3 in that order, the group
with address `a` carrying block D `= 256 * c[2a] + c[2a+1]` (that is
`(c[2a] << 8) | c[2a+1]`), leaves the station-name buffer equal to `c0 .. c7` followed by
a terminating zero. -/
theorem programmeServiceName_assembled (shl : Int → Int → Int) (d : RdsDecoder)
    (b0 b1 b2 b3 : RdsDataBlocks) (c0 c1 c2 c3 c4 c5 c6 c7 : Nat)
    (hc : c0 < 256 ∧ c1 < 256 ∧ c2 < 256 ∧ c3 < 256 ∧ c4 < 256 ∧ c5 < 256 ∧ c6 < 256 ∧
      c7 < 256)
    (hg0 : getGroupTypeCode b0 = groupType.g0A ∨ getGroupTypeCode b0 = groupType.g0B)
    (hg1 : getGroupTypeCode b1 = groupType.g0A ∨ getGroupTypeCode b1 = groupType.g0B)
    (hg2 : getGroupTypeCode b2 = groupType.g0A ∨ getGroupTypeCode b2 = groupType.g0B)
    (hg3 : getGroupTypeCode b3 = groupType.g0A ∨ getGroupTypeCode b3 = groupType.g0B)
    (ha0 : b0.blockB % 4 = 0) (ha1 : b1.blockB % 4 = 1) (ha2 : b2.blockB % 4 = 2)
    (ha3 : b3.blockB % 4 = 3)
    (hd0 : b0.blockD = 256 * c0 + c1) (hd1 : b1.blockD = 256 * c2 + c3)
    (hd2 : b2.blockD = 256 * c4 + c5) (hd3 : b3.blockD = 256 * c6 + c7) :
    (decodeReceivedData shl
      (decodeReceivedData shl
        (decodeReceivedData shl (decodeReceivedData shl d b0).2 b1).2 b2).2
      b3).2.m_group0.programmeServiceName = [c0, c1, c2, c3, c4, c5, c6, c7, 0] := by
  obtain ⟨h0, h1, h2, h3, h4, h5, h6, h7⟩ := hc
  rw [decodeReceivedData_programmeServiceName shl _ b3 hg3,
    decodeReceivedData_programmeServiceName shl _ b2 hg2,
    decodeReceivedData_programmeServiceName shl _ b1 hg1,
    decodeReceivedData_programmeServiceName shl _ b0 hg0]
  have e0 : (256 * c0 + c1) / 256 % 256 = c0 := by omega
  have e1 : (256 * c0 + c1) % 256 = c1 := by omega
  have e2 : (256 * c2 + c3) / 256 % 256 = c2 := by omega
  have e3 : (256 * c2 + c3) % 256 = c3 := by omega
  have e4 : (256 * c4 + c5) / 256 % 256 = c4 := by omega
  have e5 : (256 * c4 + c5) % 256 = c5 := by omega
  have e6 : (256 * c6 + c7) / 256 % 256 = c6 := by omega
  have e7 : (256 * c6 + c7) % 256 = c7 := by omega
  simp only [ha0, ha1, ha2, ha3, hd0, hd1, hd2, hd3, e0, e1, e2, e3, e4, e5, e6, e7]
  simp [List.replicate]

theorem programmeServiceName_assembled_witness :
    (decodeReceivedData (fun _ _ => 0)
      (decodeReceivedData (fun _ _ => 0)
        (decodeReceivedData (fun _ _ => 0)
          (decodeReceivedData (fun _ _ => 0) RdsDecoder.init
            { blockA := 0x1234, blockB := 0x0000, blockC := 0, blockD := 256 * 82 + 65 }).2
          { blockA := 0x1234, blockB := 0x0801, blockC := 0, blockD := 256 * 68 + 73 }).2
        { blockA := 0x1234, blockB := 0x0002, blockC := 0, blockD := 256 * 79 + 32 }).2
      { blockA := 0x1234, blockB := 0x0803, blockC := 0,
        blockD := 256 * 49 + 32 }).2.m_group0.programmeServiceName =
      [82, 65, 68, 73, 79, 32, 49, 32, 0] :=
  programmeServiceName_assembled (fun _ _ => 0) RdsDecoder.init
    { blockA := 0x1234, blockB := 0x0000, blockC := 0, blockD := 256 * 82 + 65 }
    { blockA := 0x1234, blockB := 0x0801, blockC := 0, blockD := 256 * 68 + 73 }
    { blockA := 0x1234, blockB := 0x0002, blockC := 0, blockD := 256 * 79 + 32 }
    { blockA := 0x1234, blockB := 0x0803, blockC := 0, blockD := 256 * 49 + 32 }
    82 65 68 73 79 32 49 32 (by decide) (Or.inl (by decide)) (Or.inr (by decide))
    (Or.inl (by decide)) (Or.inr (by decide)) (by decide) (by decide) (by decide)
    (by decide) rfl rfl rfl rfl

/-! ### Radio text -/

/-- What `prepareRadioText` leaves in `m_group2`: the flag becomes the toggle bit, and the
text is reset unless the toggle bit is 0 and the stored flag is false (a set toggle bit,
masked to 16, never equals the flag value 1). -/
theorem prepareRadioText_eq_explicit (d : RdsDecoder) (b : RdsDataBlocks) :
    prepareRadioText d b =
      { d with m_group2 :=
          { textAbFlag := decide (b.blockB / 16 % 2 = 1)
            radioText :=
              if b.blockB / 16 % 2 = 1 ∨ d.m_group2.textAbFlag = true then List.replicate 65 0
              else d.m_group2.radioText } } := by
  have h16 : b.blockB &&& 0x0010 = (b.blockB / 16 % 2) * 16 := and_mask _ 4 1
  unfold prepareRadioText
  rw [h16]
  rcases Nat.mod_two_eq_zero_or_one (b.blockB / 16) with h | h <;>
    cases hf : d.m_group2.textAbFlag <;> simp [h, hf]
  · cases d with
    | mk a1 a2 a3 a4 a5 a6 a7 a8 =>
      cases a5 with
      | mk f t =>
        simp only at hf
        subst hf
        rfl

theorem decodeReceivedData_m_group2_2A (shl : Int → Int → Int) (d : RdsDecoder)
    (b : RdsDataBlocks) (hg : getGroupTypeCode b = groupType.g2A) :
    (decodeReceivedData shl d b).2.m_group2 =
      { textAbFlag := decide (b.blockB / 16 % 2 = 1)
        radioText :=
          ((((if b.blockB / 16 % 2 = 1 ∨ d.m_group2.textAbFlag = true then List.replicate 65 0
              else d.m_group2.radioText).set (4 * (b.blockB % 16))
                (b.blockC / 256 % 256)).set (4 * (b.blockB % 16) + 1)
                (b.blockC % 256)).set (4 * (b.blockB % 16) + 2)
                (b.blockD / 256 % 256)).set (4 * (b.blockB % 16) + 3) (b.blockD % 256) } := by
  have h15 : b.blockB &&& 0x000F = b.blockB % 16 := Nat.and_pow_two_sub_one_eq_mod _ 4
  have hpos : (if b.blockB % 16 ≠ 0 then (b.blockB % 16 * 4) % 256 else 0) =
      4 * (b.blockB % 16) := by
    split <;> omega
  unfold decodeReceivedData decodeReceivedDataWith
  simp only [common_fields_eq, hg]
  unfold setRadioText2A
  simp only [prepareRadioText_eq_explicit, h15, hpos, and_ff00_shift, and_ff_eq_mod,
    Nat.mod_mod]
  rcases Nat.mod_two_eq_zero_or_one (b.blockB / 16) with h | h <;>
    cases hf : d.m_group2.textAbFlag <;> simp [h, hf]

theorem decodeReceivedData_m_group2_2B (shl : Int → Int → Int) (d : RdsDecoder)
    (b : RdsDataBlocks) (hg : getGroupTypeCode b = groupType.g2B) :
    (decodeReceivedData shl d b).2.m_group2 =
      { textAbFlag := decide (b.blockB / 16 % 2 = 1)
        radioText :=
          ((if b.blockB / 16 % 2 = 1 ∨ d.m_group2.textAbFlag = true then List.replicate 65 0
              else d.m_group2.radioText).set (2 * (b.blockB % 16))
                (b.blockD / 256 % 256)).set (2 * (b.blockB % 16) + 1) (b.blockD % 256) } := by
  have h15 : b.blockB &&& 0x000F = b.blockB % 16 := Nat.and_pow_two_sub_one_eq_mod _ 4
  have hpos : (if b.blockB % 16 ≠ 0 then (b.blockB % 16 * 2) % 256 else 0) =
      2 * (b.blockB % 16) := by
    split <;> omega
  unfold decodeReceivedData decodeReceivedDataWith
  simp only [common_fields_eq, hg]
  unfold setRadioText2B
  simp only [prepareRadioText_eq_explicit, h15, hpos, and_ff00_shift, and_ff_eq_mod,
    Nat.mod_mod]
  rcases Nat.mod_two_eq_zero_or_one (b.blockB / 16) with h | h <;>
    cases hf : d.m_group2.textAbFlag <;> simp [h, hf]

theorem replicate_zero_set4 (n a i : Nat) (v0 v1 v2 v3 : Nat) (hi : i < n)
    (hout : i < a ∨ a + 3 < i) :
    (((((List.replicate n 0).set a v0).set (a + 1) v1).set (a + 2) v2).set (a + 3) v3)[i]? =
      some 0 := by
  simp only [List.getElem?_set, List.length_set, List.length_replicate]
  have h0 : ¬ a + 3 = i := by omega
  have h1 : ¬ a + 2 = i := by omega
  have h2 : ¬ a + 1 = i := by omega
  have h3 : ¬ a = i := by omega
  simp [h0, h1, h2, h3, List.getElem?_replicate, hi]

theorem replicate_zero_set2 (n a i : Nat) (v0 v1 : Nat) (hi : i < n)
    (hout : i < a ∨ a + 1 < i) :
    (((List.replicate n 0).set a v0).set (a + 1) v1)[i]? = some 0 := by
  simp only [List.getElem?_set, List.length_set, List.length_replicate]
  have h2 : ¬ a + 1 = i := by omega
  have h3 : ¬ a = i := by omega
  simp [h2, h3, List.getElem?_replicate, hi]

/-- C21. For every prior decoder state and every segment address `a = B mod 16`, decoding
a group classified as 2A or 2B whose toggle bit (block B bit 4) differs from the stored
text A/B flag leaves the radio-text buffer equal to 65 zeros with only the slice just
written assigned (2A: positions `4a .. 4a+3` = C high, C low, D high, D low; 2B: positions
`2a`, `2a+1` = D high, D low), every position outside the slice being zero, and the
stored flag equal to the toggle bit. -/
theorem radioText_cleared_on_toggle (shl : Int → Int → Int) (d : RdsDecoder)
    (b : RdsDataBlocks)
    (hflag : decide (b.blockB / 16 % 2 = 1) ≠ d.m_group2.textAbFlag) :
    (getGroupTypeCode b = groupType.g2A →
      (decodeReceivedData shl d b).2.m_group2.textAbFlag = decide (b.blockB / 16 % 2 = 1) ∧
      getRadioText (decodeReceivedData shl d b).2 =
        ((((List.replicate 65 0).set (4 * (b.blockB % 16))
          (b.blockC / 256 % 256)).set (4 * (b.blockB % 16) + 1)
          (b.blockC % 256)).set (4 * (b.blockB % 16) + 2)
          (b.blockD / 256 % 256)).set (4 * (b.blockB % 16) + 3) (b.blockD % 256) ∧
      ∀ i, i < 65 → (i < 4 * (b.blockB % 16) ∨ 4 * (b.blockB % 16) + 3 < i) →
        (getRadioText (decodeReceivedData shl d b).2)[i]? = some 0)
    ∧ (getGroupTypeCode b = groupType.g2B →
      (decodeReceivedData shl d b).2.m_group2.textAbFlag = decide (b.blockB / 16 % 2 = 1) ∧
      getRadioText (decodeReceivedData shl d b).2 =
        ((List.replicate 65 0).set (2 * (b.blockB % 16))
          (b.blockD / 256 % 256)).set (2 * (b.blockB % 16) + 1) (b.blockD % 256) ∧
      ∀ i, i < 65 → (i < 2 * (b.blockB % 16) ∨ 2 * (b.blockB % 16) + 1 < i) →
        (getRadioText (decodeReceivedData shl d b).2)[i]? = some 0) := by
  have hclear : b.blockB / 16 % 2 = 1 ∨ d.m_group2.textAbFlag = true := by
    rcases Nat.mod_two_eq_zero_or_one (b.blockB / 16) with h | h
    · right
      cases hf : d.m_group2.textAbFlag
      · simp [h, hf] at hflag
      · rfl
    · exact Or.inl h
  constructor
  · intro hg
    have h := decodeReceivedData_m_group2_2A shl d b hg
    simp only [hclear, if_true] at h
    unfold getRadioText
    rw [h]
    refine ⟨rfl, rfl, ?_⟩
    intro i hi hout
    exact replicate_zero_set4 65 _ i _ _ _ _ hi hout
  · intro hg
    have h := decodeReceivedData_m_group2_2B shl d b hg
    simp only [hclear, if_true] at h
    unfold getRadioText
    rw [h]
    refine ⟨rfl, rfl, ?_⟩
    intro i hi hout
    exact replicate_zero_set2 65 _ i _ _ hi hout

theorem radioText_cleared_on_toggle_witness :
    (getRadioText (decodeReceivedData (fun _ _ => 0)
        { RdsDecoder.init with
          m_group2 := { textAbFlag := true, radioText := List.replicate 65 120 } }
        { blockA := 0, blockB := 0x4002, blockC := 0x4142, blockD := 0x4344 }).2).take 12 =
      [0, 0, 0, 0, 0, 0, 0, 0, 0x41, 0x42, 0x43, 0x44] := by
  have h := ((radioText_cleared_on_toggle (fun _ _ => 0)
    { RdsDecoder.init with
      m_group2 := { textAbFlag := true, radioText := List.replicate 65 120 } }
    { blockA := 0, blockB := 0x4002, blockC := 0x4142, blockD := 0x4344 }
    (by decide)).1 (by decide)).2.1
  rw [h]
  decide

/-- C22 (evaluation at the failing input). With the stored text A/B flag already true
(left by a first 2A group with toggle bit 1), two further 2A groups with toggle bit 1 and
segment addresses 1 and 2 do not accumulate: the second one resets the buffer, so that
positions 4..7 are zero instead of the first group's characters.  With toggle bit 0 and
the flag false the same two segments do accumulate. -/
theorem radioText_toggle_set_does_not_accumulate :
    (decodeReceivedData (fun _ _ => 0) RdsDecoder.init
        { blockA := 0, blockB := 0x4010, blockC := 0x2020,
          blockD := 0x2020 }).2.m_group2.textAbFlag = true
      ∧ (getRadioText (decodeReceivedData (fun _ _ => 0)
          (decodeReceivedData (fun _ _ => 0)
            (decodeReceivedData (fun _ _ => 0) RdsDecoder.init
              { blockA := 0, blockB := 0x4010, blockC := 0x2020, blockD := 0x2020 }).2
            { blockA := 0, blockB := 0x4011, blockC := 0x4142, blockD := 0x4344 }).2
          { blockA := 0, blockB := 0x4012, blockC := 0x4546, blockD := 0x4748 }).2).take 12 =
        [0, 0, 0, 0, 0, 0, 0, 0, 0x45, 0x46, 0x47, 0x48]
      ∧ (getRadioText (decodeReceivedData (fun _ _ => 0)
          (decodeReceivedData (fun _ _ => 0)
            (decodeReceivedData (fun _ _ => 0) RdsDecoder.init
              { blockA := 0, blockB := 0x4000, blockC := 0x2020, blockD := 0x2020 }).2
            { blockA := 0, blockB := 0x4001, blockC := 0x4142, blockD := 0x4344 }).2
          { blockA := 0, blockB := 0x4002, blockC := 0x4546, blockD := 0x4748 }).2).take 12 =
        [0x20, 0x20, 0x20, 0x20, 0x41, 0x42, 0x43, 0x44, 0x45, 0x46, 0x47, 0x48] := by
  refine ⟨by decide, by decide, by decide⟩

/-! ### Group 4A: time and date -/

theorem decodeReceivedData_4A (shl : Int → Int → Int) (d : RdsDecoder) (b : RdsDataBlocks)
    (hg : getGroupTypeCode b = groupType.g4A) :
    (decodeReceivedData shl d b).2.m_group4A = (prepareTimeAndDate d b).m_group4A ∧
      (decodeReceivedData shl d b).2.m_date = (setDate (prepareTimeAndDate d b)).m_date := by
  unfold decodeReceivedData decodeReceivedDataWith
  simp only [common_fields_eq, hg]
  exact ⟨rfl, rfl⟩

theorem prepareTimeAndDate_modifiedJulianDay (d : RdsDecoder) (b : RdsDataBlocks) :
    (prepareTimeAndDate d b).m_group4A.modifiedJulianDay =
      (((b.blockB &&& 0x0003) <<< 14) ||| (b.blockC &&& 0xFFFE)) % 131072 := rfl

theorem prepareTimeAndDate_modifiedJulianDay_even (d : RdsDecoder) (b : RdsDataBlocks) :
    (prepareTimeAndDate d b).m_group4A.modifiedJulianDay % 2 = 0 := by
  rw [prepareTimeAndDate_modifiedJulianDay]
  have h : ((((b.blockB &&& 0x0003) <<< 14) ||| (b.blockC &&& 0xFFFE))).testBit 0 = false := by
    have h1 : b.blockC &&& 0xFFFE = (b.blockC / 2 ^ 1 % 2 ^ 15) * 2 ^ 1 := and_mask _ 1 15
    rw [Nat.testBit_or, Nat.testBit_shiftLeft, h1]
    simp [Nat.testBit_zero]
  rw [Nat.testBit_zero] at h
  have h2 : (((b.blockB &&& 0x0003) <<< 14) ||| (b.blockC &&& 0xFFFE)) % 2 = 0 := by
    rcases Nat.mod_two_eq_zero_or_one
      (((b.blockB &&& 0x0003) <<< 14) ||| (b.blockC &&& 0xFFFE)) with h3 | h3
    · exact h3
    · simp [h3] at h
  omega

theorem prepareTimeAndDate_hour_minute (d : RdsDecoder) (b : RdsDataBlocks) :
    (prepareTimeAndDate d b).m_group4A.hour = b.blockD / 4096 % 16 ∧
      (prepareTimeAndDate d b).m_group4A.minute = min 59 (b.blockD / 64 % 64) := by
  have h1 : (b.blockC &&& 0x0001) <<< 5 = 2 ^ 5 * (b.blockC % 2) := by
    rw [Nat.shiftLeft_eq, Nat.mul_comm]
    congr 1
    exact Nat.and_pow_two_sub_one_eq_mod _ 1
  have h2 : (b.blockD &&& 0xF000) >>> 12 = b.blockD / 4096 % 16 := and_mask_shift _ 12 4
  have h3 : (b.blockD &&& 0x0FC0) >>> 6 = b.blockD / 64 % 64 := and_mask_shift _ 6 6
  have h4 : 2 ^ 5 * (b.blockC % 2) ||| b.blockD / 4096 % 16 =
      2 ^ 5 * (b.blockC % 2) + b.blockD / 4096 % 16 :=
    (Nat.mul_add_lt_is_or (by omega) _).symm
  constructor
  · show (if ((((b.blockC &&& 0x0001) <<< 5) ||| ((b.blockD &&& 0xF000) >>> 12)) % 65536) % 32
        > 23 then 23
      else ((((b.blockC &&& 0x0001) <<< 5) ||| ((b.blockD &&& 0xF000) >>> 12)) % 65536) % 32) =
      b.blockD / 4096 % 16
    rw [h1, h2, h4]
    split <;> omega
  · show (if (((b.blockD &&& 0x0FC0) >>> 6) % 65536) % 64 > 59 then 59
      else (((b.blockD &&& 0x0FC0) >>> 6) % 65536) % 64) = min 59 (b.blockD / 64 % 64)
    rw [h3]
    split <;> omega

/-- C23 (evaluation at the failing input). The group with block B `0x8001` and block C
`22942` is classified 4A and carries, in the layout of the claim, the Modified Julian
Day `(B mod 4) * 32768 + C div 2 = 44239`; the decoder stores 22942.  Whatever the
group, the stored value is even, so no odd day number is ever recovered. -/
theorem modifiedJulianDay_not_recovered (shl : Int → Int → Int) (d : RdsDecoder) :
    getGroupTypeCode { blockA := 0, blockB := 0x8001, blockC := 22942, blockD := 0 } =
        groupType.g4A
      ∧ (0x8001 % 4) * 32768 + 22942 / 2 = 44239
      ∧ (decodeReceivedData shl d
          { blockA := 0, blockB := 0x8001, blockC := 22942,
            blockD := 0 }).2.m_group4A.modifiedJulianDay = 22942
      ∧ ∀ b : RdsDataBlocks, getGroupTypeCode b = groupType.g4A →
          (decodeReceivedData shl d b).2.m_group4A.modifiedJulianDay % 2 = 0 := by
  have hg : getGroupTypeCode { blockA := 0, blockB := 0x8001, blockC := 22942, blockD := 0 } =
      groupType.g4A := by decide
  refine ⟨hg, by decide, ?_, ?_⟩
  · rw [(decodeReceivedData_4A shl d _ hg).1, prepareTimeAndDate_modifiedJulianDay]
    decide
  · intro b hb
    rw [(decodeReceivedData_4A shl d _ hb).1]
    exact prepareTimeAndDate_modifiedJulianDay_even d b

/-- C24 (evaluation at the failing input). The group with block B `0x8000`, block C bit 0
set and block D `0x1000` is classified 4A and encodes hour `16 * 1 + 1 = 17`; `getHour`
returns 1.  For every 4A group `getHour` is `(D div 4096) mod 16`: bit 0 of block C is
shifted to bit 5 and lost in the 5-bit field, so no hour above 15 is ever returned;
`getMinute` is `min 59 ((D div 64) mod 64)`. -/
theorem hour_loses_its_top_bit (shl : Int → Int → Int) (d : RdsDecoder) :
    getGroupTypeCode { blockA := 0, blockB := 0x8000, blockC := 0x0001, blockD := 0x1000 } =
        groupType.g4A
      ∧ min 23 (16 * (0x0001 % 2) + 0x1000 / 4096) = 17
      ∧ getHour (decodeReceivedData shl d
          { blockA := 0, blockB := 0x8000, blockC := 0x0001, blockD := 0x1000 }).2 = 1
      ∧ ∀ b : RdsDataBlocks, getGroupTypeCode b = groupType.g4A →
          getHour (decodeReceivedData shl d b).2 = b.blockD / 4096 % 16 ∧
          getMinute (decodeReceivedData shl d b).2 = min 59 (b.blockD / 64 % 64) := by
  have hg : getGroupTypeCode
      { blockA := 0, blockB := 0x8000, blockC := 0x0001, blockD := 0x1000 } =
      groupType.g4A := by decide
  refine ⟨hg, by decide, ?_, ?_⟩
  · unfold getHour
    rw [(decodeReceivedData_4A shl d _ hg).1, (prepareTimeAndDate_hour_minute d _).1]
    decide
  · intro b hb
    unfold getHour getMinute
    rw [(decodeReceivedData_4A shl d _ hb).1]
    exact prepareTimeAndDate_hour_minute d b


/-! ### `setDate` -/

/-- `setDate` stores `dateOfCasts` of the results of its casts. -/
theorem setDate_of_casts (d : RdsDecoder) (year0 c16 month0 c8 week weekYear w16 : Nat)
    (h1 : castU8 (((d.m_group4A.modifiedJulianDay : ℚ) - 15078.2) / 365.25) = year0)
    (h2 : castU16 ((year0 : ℚ) * 365.25) = c16)
    (h3 : castU8 ((d.m_group4A.modifiedJulianDay : ℚ) - 14956.1 - (c16 : ℚ) / 30.6001) = month0)
    (h4 : castU8 ((month0 : ℚ) * 30.6001) = c8)
    (h5 : castU16 (((d.m_group4A.modifiedJulianDay / 7 : Nat) : ℚ) - 2144.64) = week)
    (h6 : castU8 ((((week * 28) / 1461 : Nat) : ℚ) - 0.0079) = weekYear)
    (h7 : castU16 ((((weekYear * 1461) / 28 : Nat) : ℚ) + 0.41) = w16) :
    (setDate d).m_date =
      dateOfCasts d.m_group4A.modifiedJulianDay year0 c16 month0 c8 week w16 := by
  subst h1
  subst h2
  subst h3
  subst h4
  subst h5
  subst h6
  subst h7
  rfl

/-- Whatever its casts give, `setDate` stores some `dateOfCasts`. -/
theorem setDate_exists_casts (d : RdsDecoder) :
    ∃ year0 c16 month0 c8 week w16 : Nat, (setDate d).m_date =
      dateOfCasts d.m_group4A.modifiedJulianDay year0 c16 month0 c8 week w16 :=
  ⟨_, _, _, _, _, _, setDate_of_casts d _ _ _ _ _ _ _ rfl rfl rfl rfl rfl rfl rfl⟩

theorem clamp_bounds (x hi : Nat) (h : 1 ≤ hi) :
    1 ≤ (if x > hi then hi else if x = 0 then 1 else x) ∧
      (if x > hi then hi else if x = 0 then 1 else x) ≤ hi := by
  split
  · omega
  · split <;> omega

/-- The last four assignments of `setDate` clamp day, month, weekday and week number. -/
theorem dateOfCasts_bounds (mjd year0 c16 month0 c8 week w16 : Nat) :
    (1 ≤ (dateOfCasts mjd year0 c16 month0 c8 week w16).day ∧
        (dateOfCasts mjd year0 c16 month0 c8 week w16).day ≤ 31)
      ∧ (1 ≤ (dateOfCasts mjd year0 c16 month0 c8 week w16).month ∧
        (dateOfCasts mjd year0 c16 month0 c8 week w16).month ≤ 12)
      ∧ (1 ≤ (dateOfCasts mjd year0 c16 month0 c8 week w16).weekDay ∧
        (dateOfCasts mjd year0 c16 month0 c8 week w16).weekDay ≤ 7)
      ∧ (1 ≤ (dateOfCasts mjd year0 c16 month0 c8 week w16).weekNumber ∧
        (dateOfCasts mjd year0 c16 month0 c8 week w16).weekNumber ≤ 53) :=
  ⟨clamp_bounds _ 31 (by omega), clamp_bounds _ 12 (by omega), clamp_bounds _ 7 (by omega),
    clamp_bounds _ 53 (by omega)⟩

theorem getYear_eq (d : RdsDecoder) : getYear d = d.m_date.year := rfl

theorem getMonth_eq (d : RdsDecoder) : getMonth d = d.m_date.month := rfl

theorem getDay_eq (d : RdsDecoder) : getDay d = d.m_date.day := rfl

theorem getWeekDay_eq (d : RdsDecoder) : getWeekDay d = d.m_date.weekDay := rfl

theorem getWeekNumber_eq (d : RdsDecoder) : getWeekNumber d = d.m_date.weekNumber := rfl

/-- C25. For every stored Modified Julian Day (every 17-bit value in particular), after
`setDate` the decoded fields are within their documented bounds: `1 ≤ day ≤ 31`,
`1 ≤ month ≤ 12`, `1 ≤ weekDay ≤ 7` and `1 ≤ weekNumber ≤ 53`. -/
theorem setDate_fields_within_bounds (d : RdsDecoder) :
    (1 ≤ getDay (setDate d) ∧ getDay (setDate d) ≤ 31)
      ∧ (1 ≤ getMonth (setDate d) ∧ getMonth (setDate d) ≤ 12)
      ∧ (1 ≤ getWeekDay (setDate d) ∧ getWeekDay (setDate d) ≤ 7)
      ∧ (1 ≤ getWeekNumber (setDate d) ∧ getWeekNumber (setDate d) ≤ 53) := by
  obtain ⟨year0, c16, month0, c8, week, w16, h⟩ := setDate_exists_casts d
  rw [getDay_eq, getMonth_eq, getWeekDay_eq, getWeekNumber_eq, h]
  exact dateOfCasts_bounds _ _ _ _ _ _ _

/-! ### Evaluating the casts of `setDate` -/

theorem floor_eval (q : ℚ) (n : Int) (h1 : (n : ℚ) ≤ q) (h2 : q < (n : ℚ) + 1) :
    Rat.floor q = n := by
  show ⌊q⌋ = n
  rw [Int.floor_eq_iff]
  exact ⟨h1, h2⟩

theorem truncate_eval (q : ℚ) (n : Nat) (h1 : (n : ℚ) ≤ q) (h2 : q < (n : ℚ) + 1) :
    truncate q = (n : Int) := by
  have hq : 0 ≤ q := le_trans (Nat.cast_nonneg n) h1
  unfold truncate
  rw [if_pos hq]
  exact floor_eval q n (by exact_mod_cast h1) (by exact_mod_cast h2)

theorem castU8_eval (q : ℚ) (n : Nat) (h1 : (n : ℚ) ≤ q) (h2 : q < (n : ℚ) + 1) :
    castU8 q = n % 256 := by
  unfold castU8 toU8
  rw [truncate_eval q n h1 h2]
  omega

theorem castU16_eval (q : ℚ) (n : Nat) (h1 : (n : ℚ) ≤ q) (h2 : q < (n : ℚ) + 1) :
    castU16 q = n % 65536 := by
  unfold castU16 toU16
  rw [truncate_eval q n h1 h2]
  omega

/-- The date `setDate` stores for the Modified Julian Day 51604. -/
theorem setDate_51604 (d : RdsDecoder) (h : d.m_group4A.modifiedJulianDay = 51604) :
    (setDate d).m_date = dateOfCasts 51604 100 36525 126 15 5227 5165 := by
  have h0 := setDate_of_casts d 100 36525 126 15 5227 99 5165
  rw [h] at h0
  exact h0 (castU8_eval _ 100 (by norm_num) (by norm_num))
    (castU16_eval _ 36525 (by norm_num) (by norm_num))
    (castU8_eval _ 35454 (by norm_num) (by norm_num))
    (castU8_eval _ 3855 (by norm_num) (by norm_num))
    (castU16_eval _ 5227 (by norm_num) (by norm_num))
    (castU8_eval _ 99 (by norm_num) (by norm_num))
    (castU16_eval _ 5165 (by norm_num) (by norm_num))

/-- C26 (evaluation at the failing input). The group with block B `0x8003` and block C
`2452` is classified 4A and leaves the Modified Julian Day 51604 in the decoder; after
it `getYear` returns 100.  The first cast of `setDate` gives 100 for that day, and with
it the stored year is above 99 whatever the other casts give: the year is the one field
`setDate` does not clamp. -/
theorem year_is_not_clamped (shl : Int → Int → Int) (d : RdsDecoder) :
    getGroupTypeCode { blockA := 0, blockB := 0x8003, blockC := 2452, blockD := 0 } =
        groupType.g4A
      ∧ (decodeReceivedData shl d
          { blockA := 0, blockB := 0x8003, blockC := 2452,
            blockD := 0 }).2.m_group4A.modifiedJulianDay = 51604
      ∧ getYear (decodeReceivedData shl d
          { blockA := 0, blockB := 0x8003, blockC := 2452, blockD := 0 }).2 = 100
      ∧ castU8 ((((51604 : Nat) : ℚ) - 15078.2) / 365.25) = 100
      ∧ ∀ c16 month0 c8 week w16 : Nat,
          99 < (dateOfCasts 51604 100 c16 month0 c8 week w16).year := by
  have hg : getGroupTypeCode { blockA := 0, blockB := 0x8003, blockC := 2452, blockD := 0 } =
      groupType.g4A := by decide
  have hm : (prepareTimeAndDate d
      { blockA := 0, blockB := 0x8003, blockC := 2452,
        blockD := 0 }).m_group4A.modifiedJulianDay = 51604 := by
    rw [prepareTimeAndDate_modifiedJulianDay]
    decide
  refine ⟨hg, ?_, ?_, castU8_eval _ 100 (by norm_num) (by norm_num), ?_⟩
  · rw [(decodeReceivedData_4A shl d _ hg).1]
    exact hm
  · rw [getYear_eq, (decodeReceivedData_4A shl d _ hg).2, setDate_51604 _ hm]
    decide
  · intro c16 month0 c8 week w16
    show 99 < (if month0 = 14 ∨ month0 = 15 then (100 + 1) % 128 else 100 % 128)
    split <;> decide

/-- The date `setDate` stores for the Modified Julian Day 44239. -/
theorem setDate_44239 (d : RdsDecoder) (h : d.m_group4A.modifiedJulianDay = 44239) :
    (setDate d).m_date = dateOfCasts 44239 79 28854 179 101 4174 4069 := by
  have h0 := setDate_of_casts d 79 28854 179 101 4174 78 4069
  rw [h] at h0
  exact h0 (castU8_eval _ 79 (by norm_num) (by norm_num))
    (castU16_eval _ 28854 (by norm_num) (by norm_num))
    (castU8_eval _ 28339 (by norm_num) (by norm_num))
    (castU8_eval _ 5477 (by norm_num) (by norm_num))
    (castU16_eval _ 4174 (by norm_num) (by norm_num))
    (castU8_eval _ 78 (by norm_num) (by norm_num))
    (castU16_eval _ 4069 (by norm_num) (by norm_num))

/-- The date `setDate` stores for the Modified Julian Day 44300. -/
theorem setDate_44300 (d : RdsDecoder) (h : d.m_group4A.modifiedJulianDay = 44300) :
    (setDate d).m_date = dateOfCasts 44300 80 29220 229 95 4183 4122 := by
  have h0 := setDate_of_casts d 80 29220 229 95 4183 79 4122
  rw [h] at h0
  exact h0 (castU8_eval _ 80 (by norm_num) (by norm_num))
    (castU16_eval _ 29220 (by norm_num) (by norm_num))
    (castU8_eval _ 28389 (by norm_num) (by norm_num))
    (castU8_eval _ 7007 (by norm_num) (by norm_num))
    (castU16_eval _ 4183 (by norm_num) (by norm_num))
    (castU8_eval _ 79 (by norm_num) (by norm_num))
    (castU16_eval _ 4122 (by norm_num) (by norm_num))

/-- The standard conversion, given the values of its four integer parts. -/
theorem standardMjdDate_of_floors (m : Nat) (y c mo f : Int)
    (h1 : Rat.floor (((m : ℚ) - 15078.2) / 365.25) = y)
    (h2 : Rat.floor ((y : ℚ) * 365.25) = c)
    (h3 : Rat.floor (((m : ℚ) - 14956.1 - (c : ℚ)) / 30.6001) = mo)
    (h4 : Rat.floor ((mo : ℚ) * 30.6001) = f) :
    standardMjdDate m =
      (y + (if mo = 14 ∨ mo = 15 then 1 else 0),
        mo - 1 - 12 * (if mo = 14 ∨ mo = 15 then 1 else 0), (m : Int) - 14956 - c - f) := by
  subst h1
  subst h2
  subst h3
  subst h4
  rfl

/-- The standard conversion gives 2 March 1980 for the Modified Julian Day 44300. -/
theorem standardMjdDate_44300 : standardMjdDate 44300 = (80, 3, 2) := by
  rw [standardMjdDate_of_floors 44300 80 29220 4 122
    (floor_eval _ 80 (by norm_num) (by norm_num))
    (floor_eval _ 29220 (by norm_num) (by norm_num))
    (floor_eval _ 4 (by norm_num) (by norm_num))
    (floor_eval _ 122 (by norm_num) (by norm_num))]
  decide

/-- The standard conversion gives 1 January 1980 for the Modified Julian Day 44239. -/
theorem standardMjdDate_44239 : standardMjdDate 44239 = (80, 1, 1) := by
  rw [standardMjdDate_of_floors 44239 79 28854 14 428
    (floor_eval _ 79 (by norm_num) (by norm_num))
    (floor_eval _ 28854 (by norm_num) (by norm_num))
    (floor_eval _ 14 (by norm_num) (by norm_num))
    (floor_eval _ 428 (by norm_num) (by norm_num))]
  decide

/-- The month `setDate` stores is a multiple of 12 reduced to four bits and clamped. -/
theorem dateOfCasts_month_values (mjd year0 c16 month0 c8 week w16 : Nat) :
    (dateOfCasts mjd year0 c16 month0 c8 week w16).month = 1
      ∨ (dateOfCasts mjd year0 c16 month0 c8 week w16).month = 4
      ∨ (dateOfCasts mjd year0 c16 month0 c8 week w16).month = 8
      ∨ (dateOfCasts mjd year0 c16 month0 c8 week w16).month = 12 := by
  unfold dateOfCasts
  simp only []
  by_cases h : month0 = 14 ∨ month0 = 15
  · simp only [if_pos h]
    split
    · omega
    · split <;> omega
  · simp only [if_neg h]
    split
    · omega
    · split <;> omega

/-- C28 (evaluation at the failing input). The group with block B `0x8002` and block C
`11532` is classified 4A and leaves the Modified Julian Day 44300 in the decoder; after
it the decoder holds year 80, month 1 and day 29, where the standard conversion of the
claim gives year 80, month 3 and day 2 (2 March 1980).  Whatever the day number, the
month `setDate` stores is 1, 4, 8 or 12. -/
theorem setDate_is_not_the_standard_conversion (shl : Int → Int → Int) (d : RdsDecoder) :
    getGroupTypeCode { blockA := 0, blockB := 0x8002, blockC := 11532, blockD := 0 } =
        groupType.g4A
      ∧ (decodeReceivedData shl d
          { blockA := 0, blockB := 0x8002, blockC := 11532,
            blockD := 0 }).2.m_group4A.modifiedJulianDay = 44300
      ∧ getYear (decodeReceivedData shl d
          { blockA := 0, blockB := 0x8002, blockC := 11532, blockD := 0 }).2 = 80
      ∧ getMonth (decodeReceivedData shl d
          { blockA := 0, blockB := 0x8002, blockC := 11532, blockD := 0 }).2 = 1
      ∧ getDay (decodeReceivedData shl d
          { blockA := 0, blockB := 0x8002, blockC := 11532, blockD := 0 }).2 = 29
      ∧ standardMjdDate 44300 = (80, 3, 2)
      ∧ ∀ s : RdsDecoder, getMonth (setDate s) = 1 ∨ getMonth (setDate s) = 4
          ∨ getMonth (setDate s) = 8 ∨ getMonth (setDate s) = 12 := by
  have hg : getGroupTypeCode { blockA := 0, blockB := 0x8002, blockC := 11532, blockD := 0 } =
      groupType.g4A := by decide
  have hm : (prepareTimeAndDate d
      { blockA := 0, blockB := 0x8002, blockC := 11532,
        blockD := 0 }).m_group4A.modifiedJulianDay = 44300 := by
    rw [prepareTimeAndDate_modifiedJulianDay]
    decide
  refine ⟨hg, ?_, ?_, ?_, ?_, standardMjdDate_44300, ?_⟩
  · rw [(decodeReceivedData_4A shl d _ hg).1]
    exact hm
  · rw [getYear_eq, (decodeReceivedData_4A shl d _ hg).2, setDate_44300 _ hm]
    decide
  · rw [getMonth_eq, (decodeReceivedData_4A shl d _ hg).2, setDate_44300 _ hm]
    decide
  · rw [getDay_eq, (decodeReceivedData_4A shl d _ hg).2, setDate_44300 _ hm]
    decide
  · intro s
    obtain ⟨year0, c16, month0, c8, week, w16, h⟩ := setDate_exists_casts s
    rw [getMonth_eq, h]
    exact dateOfCasts_month_values _ _ _ _ _ _ _

/-! ### Members no handler assigns or clamps -/

/-- No handler assigns the traffic-announcement and music/speech flags. -/
theorem decodeReceivedData_traffic_flags (shl : Int → Int → Int) (d : RdsDecoder)
    (b : RdsDataBlocks) :
    (decodeReceivedData shl d b).2.m_group0.trafficAnnouncement =
        d.m_group0.trafficAnnouncement
      ∧ (decodeReceivedData shl d b).2.m_group0.musicSpeech = d.m_group0.musicSpeech := by
  unfold decodeReceivedData decodeReceivedDataWith
  simp only [common_fields_eq]
  cases hg : getGroupTypeCode b <;> simp only []
  case g0A =>
    obtain ⟨bits, h⟩ := setProgrammeServiceName_eq shl _ b
    rw [h]; exact ⟨rfl, rfl⟩
  case g0B =>
    obtain ⟨bits, h⟩ := setProgrammeServiceName_eq shl _ b
    rw [h]; exact ⟨rfl, rfl⟩
  case g1A =>
    obtain ⟨g, h⟩ := group1A_eq _ b
    rw [h]; exact ⟨rfl, rfl⟩
  case g2A =>
    obtain ⟨g, h⟩ := prepareRadioText_eq _ b
    rw [h]
    obtain ⟨g2, h2⟩ := setRadioText2A_eq _ b
    rw [h2]; exact ⟨rfl, rfl⟩
  case g2B =>
    obtain ⟨g, h⟩ := prepareRadioText_eq _ b
    rw [h]
    obtain ⟨g2, h2⟩ := setRadioText2B_eq _ b
    rw [h2]; exact ⟨rfl, rfl⟩
  case g4A =>
    obtain ⟨g, t, h⟩ := timeAndDate_eq _ b
    rw [h]; exact ⟨rfl, rfl⟩
  case g10A =>
    obtain ⟨g, h⟩ := setProgrammeTypeName_eq _ b
    rw [h]; exact ⟨rfl, rfl⟩
  all_goals first | exact ⟨rfl, rfl⟩ | trivial

/-- Decoding any sequence of groups leaves the two flags as they were. -/
theorem decode_sequence_traffic_flags (shl : Int → Int → Int) (bs : List RdsDataBlocks) :
    ∀ d : RdsDecoder,
      getTrafficAnnouncement (bs.foldl (fun s b => (decodeReceivedData shl s b).2) d) =
          getTrafficAnnouncement d
        ∧ getMusicOrSpeech (bs.foldl (fun s b => (decodeReceivedData shl s b).2) d) =
          getMusicOrSpeech d := by
  induction bs with
  | nil => intro d; exact ⟨rfl, rfl⟩
  | cons b bs ih =>
    intro d
    rw [List.foldl_cons]
    obtain ⟨h1, h2⟩ := ih (decodeReceivedData shl d b).2
    obtain ⟨h3, h4⟩ := decodeReceivedData_traffic_flags shl d b
    unfold getTrafficAnnouncement at h1 ⊢
    unfold getMusicOrSpeech at h2 ⊢
    exact ⟨h1.trans h3, h2.trans h4⟩

/-- C29 (evaluation at the failing input). The group with block B `0x0018` is classified
0A and has bit 4 (traffic announcement) and bit 3 (music/speech) set; decoded by a fresh
decoder it leaves both `getTrafficAnnouncement` and `getMusicOrSpeech` false.  No group
changes either flag, so after any sequence of groups a fresh decoder still returns false
for both. -/
theorem traffic_flags_never_assigned (shl : Int → Int → Int) :
    getGroupTypeCode { blockA := 0, blockB := 0x0018, blockC := 0, blockD := 0 } =
        groupType.g0A
      ∧ (0x0018 / 16 % 2 = 1 ∧ 0x0018 / 8 % 2 = 1)
      ∧ getTrafficAnnouncement (decodeReceivedData shl RdsDecoder.init
          { blockA := 0, blockB := 0x0018, blockC := 0, blockD := 0 }).2 = false
      ∧ getMusicOrSpeech (decodeReceivedData shl RdsDecoder.init
          { blockA := 0, blockB := 0x0018, blockC := 0, blockD := 0 }).2 = false
      ∧ (∀ (d : RdsDecoder) (b : RdsDataBlocks),
          getTrafficAnnouncement (decodeReceivedData shl d b).2 = getTrafficAnnouncement d
            ∧ getMusicOrSpeech (decodeReceivedData shl d b).2 = getMusicOrSpeech d)
      ∧ ∀ bs : List RdsDataBlocks,
          getTrafficAnnouncement
              (bs.foldl (fun s b => (decodeReceivedData shl s b).2) RdsDecoder.init) = false
            ∧ getMusicOrSpeech
              (bs.foldl (fun s b => (decodeReceivedData shl s b).2) RdsDecoder.init) =
                false := by
  refine ⟨by decide, by decide, ?_, ?_, ?_, ?_⟩
  · unfold getTrafficAnnouncement
    rw [(decodeReceivedData_traffic_flags shl _ _).1]
    rfl
  · unfold getMusicOrSpeech
    rw [(decodeReceivedData_traffic_flags shl _ _).2]
    rfl
  · intro d b
    unfold getTrafficAnnouncement getMusicOrSpeech
    exact decodeReceivedData_traffic_flags shl d b
  · intro bs
    obtain ⟨h1, h2⟩ := decode_sequence_traffic_flags shl bs RdsDecoder.init
    rw [h1, h2]
    exact ⟨rfl, rfl⟩

/-- A group classified 1A or 1B leaves block D, as a 16-bit value, in the raw
broadcast-time member. -/
theorem decodeReceivedData_rawBroadcastTimeData (shl : Int → Int → Int) (d : RdsDecoder)
    (b : RdsDataBlocks)
    (hg : getGroupTypeCode b = groupType.g1A ∨ getGroupTypeCode b = groupType.g1B) :
    (decodeReceivedData shl d b).2.m_group1.rawBroadcastTimeData = b.blockD % 65536 := by
  unfold decodeReceivedData decodeReceivedDataWith
  simp only [common_fields_eq]
  rcases hg with hg | hg
  · simp only [hg]
    unfold setLanguageCode
    split <;> rfl
  · simp only [hg]
    rfl

/-- C30 (evaluation at the failing inputs). The group with block B `0x2000` is classified
1A; with block D `0xFFFF` it leaves broadcast-start day 31, hour 31 and minute 63, and
with block D `0` it leaves day 0.  For every group classified 1A or 1B the three
accessors return bits 15..11, 10..6 and 5..0 of block D unchanged. -/
theorem broadcast_start_is_not_clamped (shl : Int → Int → Int) (d : RdsDecoder) :
    getGroupTypeCode { blockA := 0, blockB := 0x2000, blockC := 0, blockD := 0xFFFF } =
        groupType.g1A
      ∧ getBroadcastStartDay (decodeReceivedData shl d
          { blockA := 0, blockB := 0x2000, blockC := 0, blockD := 0xFFFF }).2 = 31
      ∧ getBroadcastStartHour (decodeReceivedData shl d
          { blockA := 0, blockB := 0x2000, blockC := 0, blockD := 0xFFFF }).2 = 31
      ∧ getBroadcastStartMinute (decodeReceivedData shl d
          { blockA := 0, blockB := 0x2000, blockC := 0, blockD := 0xFFFF }).2 = 63
      ∧ getBroadcastStartDay (decodeReceivedData shl d
          { blockA := 0, blockB := 0x2000, blockC := 0, blockD := 0 }).2 = 0
      ∧ ∀ b : RdsDataBlocks,
          getGroupTypeCode b = groupType.g1A ∨ getGroupTypeCode b = groupType.g1B →
          getBroadcastStartDay (decodeReceivedData shl d b).2 = b.blockD / 2048 % 32
            ∧ getBroadcastStartHour (decodeReceivedData shl d b).2 = b.blockD / 64 % 32
            ∧ getBroadcastStartMinute (decodeReceivedData shl d b).2 = b.blockD % 64 := by
  have hg : getGroupTypeCode { blockA := 0, blockB := 0x2000, blockC := 0, blockD := 0xFFFF } =
      groupType.g1A := by decide
  have hg0 : getGroupTypeCode { blockA := 0, blockB := 0x2000, blockC := 0, blockD := 0 } =
      groupType.g1A := by decide
  refine ⟨hg, ?_, ?_, ?_, ?_, ?_⟩
  · unfold getBroadcastStartDay
    rw [decodeReceivedData_rawBroadcastTimeData shl d _ (Or.inl hg)]
    decide
  · unfold getBroadcastStartHour
    rw [decodeReceivedData_rawBroadcastTimeData shl d _ (Or.inl hg)]
    decide
  · unfold getBroadcastStartMinute
    rw [decodeReceivedData_rawBroadcastTimeData shl d _ (Or.inl hg)]
    decide
  · unfold getBroadcastStartDay
    rw [decodeReceivedData_rawBroadcastTimeData shl d _ (Or.inl hg0)]
    decide
  · intro b hb
    unfold getBroadcastStartDay getBroadcastStartHour getBroadcastStartMinute getField
    rw [decodeReceivedData_rawBroadcastTimeData shl d b hb]
    refine ⟨?_, ?_, ?_⟩ <;> omega

/-! ### Decoder-identification bits -/

theorem setProgrammeServiceName_shl_congr (shl shl2 : Int → Int → Int)
    (h : ∀ x n : Int, n < 0 → shl x n = shl2 x n) (d : RdsDecoder) (b : RdsDataBlocks) :
    setProgrammeServiceName shl d b = setProgrammeServiceName shl2 d b := by
  unfold setProgrammeServiceName
  simp only []
  rw [h _ _ (by omega)]

/-- C33 (evaluation at the failing input). The group with block B `0x0004` is classified
0A, has segment address 0 and decoder-identification bit 1; the claim puts the bit at
position 3 (field 8, `getDecoderStaticProgrammeTypeCode` false).  The decoder shifts by
`~segmentAddress = -1`: the field it leaves is the low four bits of `1 << -1`, which is 0
where the shift count is taken modulo 32 and 1 where a negative count shifts nothing, and
`getDecoderStaticProgrammeTypeCode` stays true in both cases.  For every group the shift
count is negative: the result of `decodeReceivedData` does not depend on what `<<` does
for the counts 0 and above. -/
theorem decoder_control_shift_count_negative (d : RdsDecoder) :
    getGroupTypeCode { blockA := 0, blockB := 0x0004, blockC := 0, blockD := 0 } =
        groupType.g0A
      ∧ (∀ shl : Int → Int → Int,
          (decodeReceivedData shl d
            { blockA := 0, blockB := 0x0004, blockC := 0,
              blockD := 0 }).2.m_group0.decoderControlBits = toU8 (shl 1 (-1)) % 16)
      ∧ (decodeReceivedData (fun x n => x * 2 ^ (n % 32).toNat) d
          { blockA := 0, blockB := 0x0004, blockC := 0,
            blockD := 0 }).2.m_group0.decoderControlBits = 0
      ∧ getDecoderStaticProgrammeTypeCode
          (decodeReceivedData (fun x n => x * 2 ^ (n % 32).toNat) d
            { blockA := 0, blockB := 0x0004, blockC := 0, blockD := 0 }).2 = true
      ∧ (decodeReceivedData (fun x n => x * 2 ^ n.toNat) d
          { blockA := 0, blockB := 0x0004, blockC := 0,
            blockD := 0 }).2.m_group0.decoderControlBits = 1
      ∧ getDecoderStaticProgrammeTypeCode
          (decodeReceivedData (fun x n => x * 2 ^ n.toNat) d
            { blockA := 0, blockB := 0x0004, blockC := 0, blockD := 0 }).2 = true
      ∧ ∀ (shl shl2 : Int → Int → Int) (s : RdsDecoder) (b : RdsDataBlocks),
          (∀ x n : Int, n < 0 → shl x n = shl2 x n) →
          decodeReceivedData shl s b = decodeReceivedData shl2 s b := by
  have hbits : ∀ shl : Int → Int → Int,
      (decodeReceivedData shl d
        { blockA := 0, blockB := 0x0004, blockC := 0,
          blockD := 0 }).2.m_group0.decoderControlBits = toU8 (shl 1 (-1)) % 16 := by
    intro shl
    have hg : getGroupTypeCode { blockA := 0, blockB := 0x0004, blockC := 0, blockD := 0 } =
        groupType.g0A := by decide
    unfold decodeReceivedData decodeReceivedDataWith
    simp only [common_fields_eq, hg]
    unfold setProgrammeServiceName
    simp only []
    have h3 : ((0x0004 : Nat) &&& 0x0003) % 256 = 0 := by decide
    have h4 : (((0x0004 : Nat) &&& 0x0004) >>> 2 : Nat) = 1 := by decide
    simp only [h3, h4, if_true]
    simp
  refine ⟨by decide, hbits, ?_, ?_, ?_, ?_, ?_⟩
  · rw [hbits]
    decide
  · unfold getDecoderStaticProgrammeTypeCode
    rw [hbits]
    decide
  · rw [hbits]
    decide
  · unfold getDecoderStaticProgrammeTypeCode
    rw [hbits]
    decide
  · intro shl shl2 s b h
    unfold decodeReceivedData decodeReceivedDataWith
    simp only [setProgrammeServiceName_shl_congr shl shl2 h]

/-! ### Group 1A: language code -/

/-- C34. For every group classified as 1A, `decodeReceivedData` returns 1A, and the
language code is the previous one when `C AND 0xB000` is zero and `C AND 0x0FFF` (the low
twelve bits of block C) otherwise. -/
theorem languageCode_accepted_on_validity_bits (shl : Int → Int → Int) (d : RdsDecoder)
    (b : RdsDataBlocks) (hg : getGroupTypeCode b = groupType.g1A) :
    (decodeReceivedData shl d b).1 = some groupType.g1A
      ∧ ((b.blockC &&& 0xB000) = 0 →
        getLanguageCode (decodeReceivedData shl d b).2 = getLanguageCode d)
      ∧ ((b.blockC &&& 0xB000) ≠ 0 →
        getLanguageCode (decodeReceivedData shl d b).2 = b.blockC &&& 0x0FFF ∧
        getLanguageCode (decodeReceivedData shl d b).2 = b.blockC % 4096) := by
  have h12 : b.blockC &&& 0x0FFF = b.blockC % 4096 := Nat.and_pow_two_sub_one_eq_mod _ 12
  unfold getLanguageCode decodeReceivedData decodeReceivedDataWith
  simp only [common_fields_eq, hg]
  unfold setLanguageCode
  refine ⟨?_, ?_, ?_⟩
  · first | rfl | trivial
  · intro h0
    rw [if_neg (not_not.mpr h0)]
    rfl
  · intro h0
    rw [if_pos h0]
    rw [h12]
    exact ⟨Nat.mod_mod _ _, Nat.mod_mod _ _⟩

theorem languageCode_accepted_on_validity_bits_witness :
    (decodeReceivedData (fun _ _ => 0) RdsDecoder.init
        { blockA := 0, blockB := 0x2000, blockC := 0x8123, blockD := 0 }).1 =
        some groupType.g1A
      ∧ getLanguageCode (decodeReceivedData (fun _ _ => 0) RdsDecoder.init
        { blockA := 0, blockB := 0x2000, blockC := 0x8123, blockD := 0 }).2 = 0x0123 := by
  have h := languageCode_accepted_on_validity_bits (fun _ _ => 0) RdsDecoder.init
    { blockA := 0, blockB := 0x2000, blockC := 0x8123, blockD := 0 } (by decide)
  exact ⟨h.1, (h.2.2 (by decide)).2.trans (by decide)⟩

/-! ### Group 10A: programme type name -/

/-- C35 (evaluation at the failing input). A block B with any of bits 3..1 set makes
`setProgrammeTypeName` a no-op, and with toggle bit 0 and the stored flag false the two
halves accumulate.  With toggle bit 1 they do not: after a first group with block B
`0x0010` has set the stored flag, the group `0x0010` (first half) followed by the group
`0x0011` (second half) leaves positions 0..3 zero, because the second group resets the
buffer again. -/
theorem programmeTypeName_toggle_set_does_not_accumulate :
    (∀ (d : RdsDecoder) (b : RdsDataBlocks),
        (b.blockB &&& 0x000E) ≠ 0 → setProgrammeTypeName d b = d)
      ∧ getProgrammeTypeName (setProgrammeTypeName (setProgrammeTypeName RdsDecoder.init
          { blockA := 0, blockB := 0x0000, blockC := 0x4142, blockD := 0x4344 })
          { blockA := 0, blockB := 0x0001, blockC := 0x4546, blockD := 0x4748 }) =
        [0x41, 0x42, 0x43, 0x44, 0x45, 0x46, 0x47, 0x48, 0]
      ∧ (setProgrammeTypeName RdsDecoder.init
          { blockA := 0, blockB := 0x0010, blockC := 0x2020,
            blockD := 0x2020 }).m_group10A.nameAbFlag = true
      ∧ getProgrammeTypeName (setProgrammeTypeName (setProgrammeTypeName
          (setProgrammeTypeName RdsDecoder.init
            { blockA := 0, blockB := 0x0010, blockC := 0x2020, blockD := 0x2020 })
          { blockA := 0, blockB := 0x0010, blockC := 0x4142, blockD := 0x4344 })
          { blockA := 0, blockB := 0x0011, blockC := 0x4546, blockD := 0x4748 }) =
        [0, 0, 0, 0, 0x45, 0x46, 0x47, 0x48, 0] := by
  refine ⟨?_, by decide, by decide, by decide⟩
  intro d b h
  unfold setProgrammeTypeName
  rw [if_pos h]

/-! ### Day of the week -/

theorem weekDayFromEpoch_eq (m : Nat) : weekDayFromEpoch m = (m + 2) % 7 + 1 := by
  induction m with
  | zero => rfl
  | succ m ih =>
    show (if weekDayFromEpoch m = 7 then 1 else weekDayFromEpoch m + 1) = (m + 1 + 2) % 7 + 1
    rw [ih]
    split <;> omega

theorem dateOfCasts_weekDay (mjd year0 c16 month0 c8 week w16 : Nat) :
    (dateOfCasts mjd year0 c16 month0 c8 week w16).weekDay = (mjd + 2) % 7 + 1 := by
  unfold dateOfCasts
  simp only []
  split
  · omega
  · split <;> omega

theorem getWeekDay_setDate (d : RdsDecoder) :
    getWeekDay (setDate d) = (d.m_group4A.modifiedJulianDay + 2) % 7 + 1 := by
  obtain ⟨year0, c16, month0, c8, week, w16, h⟩ := setDate_exists_casts d
  rw [getWeekDay_eq, h]
  exact dateOfCasts_weekDay _ _ _ _ _ _ _

/-- C36. For every stored Modified Julian Day `m` (every 17-bit value in particular) the
week day left by `setDate` is `((m + 2) mod 7) + 1`; it is the day of the week counted
from the epoch (day 0 a Wednesday, 1 = Monday, 7 = Sunday), so 3 for day 0 and 1 for day
45218 (Monday 6 September 1982), and it is the same for `m` and `m + 7`. -/
theorem weekDay_is_day_of_week (d : RdsDecoder) :
    getWeekDay (setDate d) = (d.m_group4A.modifiedJulianDay + 2) % 7 + 1
      ∧ getWeekDay (setDate d) = weekDayFromEpoch d.m_group4A.modifiedJulianDay
      ∧ (d.m_group4A.modifiedJulianDay = 0 → getWeekDay (setDate d) = 3)
      ∧ (d.m_group4A.modifiedJulianDay = 45218 → getWeekDay (setDate d) = 1)
      ∧ ∀ d2 : RdsDecoder,
          d2.m_group4A.modifiedJulianDay = d.m_group4A.modifiedJulianDay + 7 →
          getWeekDay (setDate d2) = getWeekDay (setDate d) := by
  refine ⟨getWeekDay_setDate d, ?_, ?_, ?_, ?_⟩
  · rw [getWeekDay_setDate, weekDayFromEpoch_eq]
  · intro h
    rw [getWeekDay_setDate, h]
  · intro h
    rw [getWeekDay_setDate, h]
  · intro d2 h
    rw [getWeekDay_setDate, getWeekDay_setDate, h]
    omega

/-! ### Group type codes never reach 10A -/

theorem getGroupTypeCode_code_lt (b : RdsDataBlocks) :
    ((b.blockB &&& 0xF000) >>> 12) ||| (if getVersion b then 1 else 0) < 16 := by
  have h1 : (b.blockB &&& 0xF000) >>> 12 = b.blockB / 4096 % 16 := and_mask_shift _ 12 4
  rw [h1]
  have h2 : b.blockB / 4096 % 16 < 2 ^ 4 := by omega
  have h3 : (if getVersion b then 1 else 0) < 2 ^ 4 := by split <;> omega
  exact Nat.or_lt_two_pow h2 h3

theorem groupType_cast_ne_g10A (k : Nat) (h : k < 16) :
    groupType.cast k ≠ groupType.g10A := by
  interval_cases k <;> decide

theorem getGroupTypeCode_ne_g10A (b : RdsDataBlocks) :
    getGroupTypeCode b ≠ groupType.g10A :=
  groupType_cast_ne_g10A _ (getGroupTypeCode_code_lt b)

theorem decodeReceivedData_fst_eq (shl : Int → Int → Int) (d : RdsDecoder)
    (b : RdsDataBlocks) (g : groupType) (h : (decodeReceivedData shl d b).1 = some g) :
    getGroupTypeCode b = g := by
  unfold decodeReceivedData decodeReceivedDataWith at h
  cases hg : getGroupTypeCode b <;> rw [hg] at h <;>
    first | exact Option.some.inj h | cases h

theorem decodeReceivedData_m_group10A (shl : Int → Int → Int) (d : RdsDecoder)
    (b : RdsDataBlocks) :
    (decodeReceivedData shl d b).2.m_group10A = d.m_group10A := by
  have hne := getGroupTypeCode_ne_g10A b
  unfold decodeReceivedData decodeReceivedDataWith
  simp only [common_fields_eq]
  cases hg : getGroupTypeCode b <;> simp only []
  case g0A =>
    obtain ⟨bits, h⟩ := setProgrammeServiceName_eq shl _ b
    rw [h]
  case g0B =>
    obtain ⟨bits, h⟩ := setProgrammeServiceName_eq shl _ b
    rw [h]
  case g1A =>
    obtain ⟨g, h⟩ := group1A_eq _ b
    rw [h]
  case g2A =>
    obtain ⟨g, h⟩ := prepareRadioText_eq _ b
    rw [h]
    obtain ⟨g2, h2⟩ := setRadioText2A_eq _ b
    rw [h2]
  case g2B =>
    obtain ⟨g, h⟩ := prepareRadioText_eq _ b
    rw [h]
    obtain ⟨g2, h2⟩ := setRadioText2B_eq _ b
    rw [h2]
  case g4A =>
    obtain ⟨g, t, h⟩ := timeAndDate_eq _ b
    rw [h]
  case g10A => exact absurd hg hne
  all_goals rfl

theorem decodeReceivedData_m_group0_other (shl : Int → Int → Int) (d : RdsDecoder)
    (b : RdsDataBlocks) (h0 : getGroupTypeCode b ≠ groupType.g0A)
    (h1 : getGroupTypeCode b ≠ groupType.g0B) :
    (decodeReceivedData shl d b).2.m_group0 = d.m_group0 := by
  unfold decodeReceivedData decodeReceivedDataWith
  simp only [common_fields_eq]
  cases hg : getGroupTypeCode b <;> simp only []
  case g0A => exact absurd hg h0
  case g0B => exact absurd hg h1
  case g1A =>
    obtain ⟨g, h⟩ := group1A_eq _ b
    rw [h]
  case g2A =>
    obtain ⟨g, h⟩ := prepareRadioText_eq _ b
    rw [h]
    obtain ⟨g2, h2⟩ := setRadioText2A_eq _ b
    rw [h2]
  case g2B =>
    obtain ⟨g, h⟩ := prepareRadioText_eq _ b
    rw [h]
    obtain ⟨g2, h2⟩ := setRadioText2B_eq _ b
    rw [h2]
  case g4A =>
    obtain ⟨g, t, h⟩ := timeAndDate_eq _ b
    rw [h]
  case g10A =>
    obtain ⟨g, h⟩ := setProgrammeTypeName_eq _ b
    rw [h]
  all_goals rfl

theorem decodeReceivedData_m_group2_other (shl : Int → Int → Int) (d : RdsDecoder)
    (b : RdsDataBlocks) (h0 : getGroupTypeCode b ≠ groupType.g2A)
    (h1 : getGroupTypeCode b ≠ groupType.g2B) :
    (decodeReceivedData shl d b).2.m_group2 = d.m_group2 := by
  unfold decodeReceivedData decodeReceivedDataWith
  simp only [common_fields_eq]
  cases hg : getGroupTypeCode b <;> simp only []
  case g0A =>
    obtain ⟨bits, h⟩ := setProgrammeServiceName_eq shl _ b
    rw [h]
  case g0B =>
    obtain ⟨bits, h⟩ := setProgrammeServiceName_eq shl _ b
    rw [h]
  case g1A =>
    obtain ⟨g, h⟩ := group1A_eq _ b
    rw [h]
  case g2A => exact absurd hg h0
  case g2B => exact absurd hg h1
  case g4A =>
    obtain ⟨g, t, h⟩ := timeAndDate_eq _ b
    rw [h]
  case g10A =>
    obtain ⟨g, h⟩ := setProgrammeTypeName_eq _ b
    rw [h]
  all_goals rfl

/-! ### The terminating bytes of the character buffers -/

theorem decodeReceivedData_programmeServiceName_frame (shl : Int → Int → Int)
    (d : RdsDecoder) (b : RdsDataBlocks) :
    ∃ base : List Nat,
      (base = d.m_group0.programmeServiceName ∨ base = List.replicate 9 0) ∧
      (decodeReceivedData shl d b).2.m_group0.programmeServiceName.length = base.length ∧
      ∀ k, 8 ≤ k →
        (decodeReceivedData shl d b).2.m_group0.programmeServiceName[k]? = base[k]? := by
  by_cases hg : getGroupTypeCode b = groupType.g0A ∨ getGroupTypeCode b = groupType.g0B
  · rw [decodeReceivedData_programmeServiceName shl d b hg]
    refine ⟨if b.blockB % 4 = 0 then List.replicate 9 0
      else d.m_group0.programmeServiceName, ?_, ?_, ?_⟩
    · by_cases h0 : b.blockB % 4 = 0
      · rw [if_pos h0]
        exact Or.inr rfl
      · rw [if_neg h0]
        exact Or.inl rfl
    · simp only [List.length_set]
    · intro k hk
      rw [List.getElem?_set_ne (by omega), List.getElem?_set_ne (by omega)]
  · rw [decodeReceivedData_m_group0_other shl d b (fun h => hg (Or.inl h))
      (fun h => hg (Or.inr h))]
    exact ⟨_, Or.inl rfl, rfl, fun _ _ => rfl⟩

theorem decodeReceivedData_radioText_frame (shl : Int → Int → Int)
    (d : RdsDecoder) (b : RdsDataBlocks) :
    ∃ base : List Nat,
      (base = d.m_group2.radioText ∨ base = List.replicate 65 0) ∧
      (decodeReceivedData shl d b).2.m_group2.radioText.length = base.length ∧
      ∀ k, 64 ≤ k → (decodeReceivedData shl d b).2.m_group2.radioText[k]? = base[k]? := by
  have hbase : (if b.blockB / 16 % 2 = 1 ∨ d.m_group2.textAbFlag = true then
        List.replicate 65 0 else d.m_group2.radioText) = d.m_group2.radioText ∨
      (if b.blockB / 16 % 2 = 1 ∨ d.m_group2.textAbFlag = true then
        List.replicate 65 0 else d.m_group2.radioText) = List.replicate 65 0 := by
    by_cases h0 : b.blockB / 16 % 2 = 1 ∨ d.m_group2.textAbFlag = true
    · rw [if_pos h0]
      exact Or.inr rfl
    · rw [if_neg h0]
      exact Or.inl rfl
  by_cases hA : getGroupTypeCode b = groupType.g2A
  · rw [decodeReceivedData_m_group2_2A shl d b hA]
    refine ⟨_, hbase, ?_, ?_⟩
    · simp only [List.length_set]
    · intro k hk
      dsimp only
      rw [List.getElem?_set_ne (by omega), List.getElem?_set_ne (by omega),
        List.getElem?_set_ne (by omega), List.getElem?_set_ne (by omega)]
  · by_cases hB : getGroupTypeCode b = groupType.g2B
    · rw [decodeReceivedData_m_group2_2B shl d b hB]
      refine ⟨_, hbase, ?_, ?_⟩
      · simp only [List.length_set]
      · intro k hk
        dsimp only
        rw [List.getElem?_set_ne (by omega), List.getElem?_set_ne (by omega)]
    · rw [decodeReceivedData_m_group2_other shl d b hA hB]
      exact ⟨_, Or.inl rfl, rfl, fun _ _ => rfl⟩

theorem setProgrammeTypeName_frame (d : RdsDecoder) (b : RdsDataBlocks) :
    ∃ base : List Nat,
      (base = d.m_group10A.programmeTypeName ∨ base = List.replicate 9 0) ∧
      (setProgrammeTypeName d b).m_group10A.programmeTypeName.length = base.length ∧
      ∀ k, 8 ≤ k → (setProgrammeTypeName d b).m_group10A.programmeTypeName[k]? = base[k]? := by
  unfold setProgrammeTypeName
  by_cases hE : (b.blockB &&& 0x000E) ≠ 0
  · rw [if_pos hE]
    exact ⟨_, Or.inl rfl, rfl, fun _ _ => rfl⟩
  · rw [if_neg hE]
    simp only []
    by_cases hT : (b.blockB &&& 0x0010) ≠ (if d.m_group10A.nameAbFlag then 1 else 0) <;>
      by_cases h1 : (b.blockB &&& 0x0001) ≠ 0
    · simp only [if_pos hT, if_pos h1]
      refine ⟨_, Or.inr rfl, by simp only [List.length_set], ?_⟩
      intro k hk
      rw [List.getElem?_set_ne (by omega), List.getElem?_set_ne (by omega),
        List.getElem?_set_ne (by omega), List.getElem?_set_ne (by omega)]
    · simp only [if_pos hT, if_neg h1]
      refine ⟨_, Or.inr rfl, by simp only [List.length_set], ?_⟩
      intro k hk
      rw [List.getElem?_set_ne (by omega), List.getElem?_set_ne (by omega),
        List.getElem?_set_ne (by omega), List.getElem?_set_ne (by omega)]
    · simp only [if_neg hT, if_pos h1]
      refine ⟨_, Or.inl rfl, by simp only [List.length_set], ?_⟩
      intro k hk
      rw [List.getElem?_set_ne (by omega), List.getElem?_set_ne (by omega),
        List.getElem?_set_ne (by omega), List.getElem?_set_ne (by omega)]
    · simp only [if_neg hT, if_neg h1]
      refine ⟨_, Or.inl rfl, by simp only [List.length_set], ?_⟩
      intro k hk
      rw [List.getElem?_set_ne (by omega), List.getElem?_set_ne (by omega),
        List.getElem?_set_ne (by omega), List.getElem?_set_ne (by omega)]

theorem decodeReceivedData_terminated (shl : Int → Int → Int) (d : RdsDecoder)
    (b : RdsDataBlocks)
    (h : (d.m_group0.programmeServiceName.length = 9 ∧
          d.m_group0.programmeServiceName[8]? = some 0) ∧
        (d.m_group2.radioText.length = 65 ∧ d.m_group2.radioText[64]? = some 0) ∧
        (d.m_group10A.programmeTypeName.length = 9 ∧
          d.m_group10A.programmeTypeName[8]? = some 0)) :
    ((decodeReceivedData shl d b).2.m_group0.programmeServiceName.length = 9 ∧
        (decodeReceivedData shl d b).2.m_group0.programmeServiceName[8]? = some 0) ∧
      ((decodeReceivedData shl d b).2.m_group2.radioText.length = 65 ∧
        (decodeReceivedData shl d b).2.m_group2.radioText[64]? = some 0) ∧
      ((decodeReceivedData shl d b).2.m_group10A.programmeTypeName.length = 9 ∧
        (decodeReceivedData shl d b).2.m_group10A.programmeTypeName[8]? = some 0) := by
  obtain ⟨⟨hp1, hp2⟩, ⟨hr1, hr2⟩, hn⟩ := h
  refine ⟨?_, ?_, ?_⟩
  · obtain ⟨base, hb, hlen, hk⟩ := decodeReceivedData_programmeServiceName_frame shl d b
    rw [hlen, hk 8 (Nat.le_refl 8)]
    rcases hb with hb | hb
    · rw [hb]
      exact ⟨hp1, hp2⟩
    · rw [hb]
      exact ⟨rfl, rfl⟩
  · obtain ⟨base, hb, hlen, hk⟩ := decodeReceivedData_radioText_frame shl d b
    rw [hlen, hk 64 (Nat.le_refl 64)]
    rcases hb with hb | hb
    · rw [hb]
      exact ⟨hr1, hr2⟩
    · rw [hb]
      exact ⟨rfl, rfl⟩
  · rw [decodeReceivedData_m_group10A]
    exact hn

theorem decode_sequence_terminated (shl : Int → Int → Int) (bs : List RdsDataBlocks) :
    ∀ d : RdsDecoder,
      ((d.m_group0.programmeServiceName.length = 9 ∧
          d.m_group0.programmeServiceName[8]? = some 0) ∧
        (d.m_group2.radioText.length = 65 ∧ d.m_group2.radioText[64]? = some 0) ∧
        (d.m_group10A.programmeTypeName.length = 9 ∧
          d.m_group10A.programmeTypeName[8]? = some 0)) →
      (((bs.foldl (fun s b => (decodeReceivedData shl s b).2)
            d).m_group0.programmeServiceName.length = 9 ∧
          (bs.foldl (fun s b => (decodeReceivedData shl s b).2)
            d).m_group0.programmeServiceName[8]? = some 0) ∧
        ((bs.foldl (fun s b => (decodeReceivedData shl s b).2)
            d).m_group2.radioText.length = 65 ∧
          (bs.foldl (fun s b => (decodeReceivedData shl s b).2)
            d).m_group2.radioText[64]? = some 0) ∧
        ((bs.foldl (fun s b => (decodeReceivedData shl s b).2)
            d).m_group10A.programmeTypeName.length = 9 ∧
          (bs.foldl (fun s b => (decodeReceivedData shl s b).2)
            d).m_group10A.programmeTypeName[8]? = some 0)) := by
  induction bs with
  | nil => intro d h; exact h
  | cons b bs ih =>
    intro d h
    rw [List.foldl_cons]
    exact ih _ (decodeReceivedData_terminated shl d b h)

/-- C39. The character assignments of the handlers stay inside the character areas: for
every prior state, whatever the length of the list that stands for a buffer, a
`decodeReceivedData` call leaves every element from index 8 on of the station name, and
every element from index 64 on of the radio text, either as it was or as the clearing of
the buffer (9 resp. 65 zero bytes) leaves it, and `setProgrammeTypeName` does the same
for the programme-type name from index 8 on.  Hence after any sequence of groups a fresh
decoder still has buffers of 9, 65 and 9 bytes whose last bytes
`programmeServiceName[8]`, `radioText[64]` and `programmeTypeName[8]` are zero. -/
theorem buffers_stay_terminated (shl : Int → Int → Int) :
    (∀ (d : RdsDecoder) (b : RdsDataBlocks) (k : Nat), 8 ≤ k →
        (getProgrammeServiceName (decodeReceivedData shl d b).2)[k]? =
            (getProgrammeServiceName d)[k]?
          ∨ (getProgrammeServiceName (decodeReceivedData shl d b).2)[k]? =
            (List.replicate 9 0)[k]?)
      ∧ (∀ (d : RdsDecoder) (b : RdsDataBlocks) (k : Nat), 64 ≤ k →
        (getRadioText (decodeReceivedData shl d b).2)[k]? = (getRadioText d)[k]?
          ∨ (getRadioText (decodeReceivedData shl d b).2)[k]? = (List.replicate 65 0)[k]?)
      ∧ (∀ (d : RdsDecoder) (b : RdsDataBlocks) (k : Nat), 8 ≤ k →
        (getProgrammeTypeName (setProgrammeTypeName d b))[k]? = (getProgrammeTypeName d)[k]?
          ∨ (getProgrammeTypeName (setProgrammeTypeName d b))[k]? =
            (List.replicate 9 0)[k]?)
      ∧ ∀ bs : List RdsDataBlocks,
          ((getProgrammeServiceName
              (bs.foldl (fun s b => (decodeReceivedData shl s b).2)
                RdsDecoder.init)).length = 9 ∧
            (getProgrammeServiceName
              (bs.foldl (fun s b => (decodeReceivedData shl s b).2)
                RdsDecoder.init))[8]? = some 0)
          ∧ ((getRadioText
              (bs.foldl (fun s b => (decodeReceivedData shl s b).2)
                RdsDecoder.init)).length = 65 ∧
            (getRadioText
              (bs.foldl (fun s b => (decodeReceivedData shl s b).2)
                RdsDecoder.init))[64]? = some 0)
          ∧ ((getProgrammeTypeName
              (bs.foldl (fun s b => (decodeReceivedData shl s b).2)
                RdsDecoder.init)).length = 9 ∧
            (getProgrammeTypeName
              (bs.foldl (fun s b => (decodeReceivedData shl s b).2)
                RdsDecoder.init))[8]? = some 0) := by
  refine ⟨?_, ?_, ?_, ?_⟩
  · intro d b k hk
    obtain ⟨base, hb, _, hbk⟩ := decodeReceivedData_programmeServiceName_frame shl d b
    unfold getProgrammeServiceName
    rw [hbk k hk]
    rcases hb with hb | hb
    · exact Or.inl (by rw [hb])
    · exact Or.inr (by rw [hb])
  · intro d b k hk
    obtain ⟨base, hb, _, hbk⟩ := decodeReceivedData_radioText_frame shl d b
    unfold getRadioText
    rw [hbk k hk]
    rcases hb with hb | hb
    · exact Or.inl (by rw [hb])
    · exact Or.inr (by rw [hb])
  · intro d b k hk
    obtain ⟨base, hb, _, hbk⟩ := setProgrammeTypeName_frame d b
    unfold getProgrammeTypeName
    rw [hbk k hk]
    rcases hb with hb | hb
    · exact Or.inl (by rw [hb])
    · exact Or.inr (by rw [hb])
  · intro bs
    unfold getProgrammeServiceName getRadioText getProgrammeTypeName
    exact decode_sequence_terminated shl bs RdsDecoder.init
      ⟨⟨rfl, rfl⟩, ⟨rfl, rfl⟩, ⟨rfl, rfl⟩⟩

/-! ### The end of the function left open -/

theorem decodeReceivedDataWith_matched (shl : Int → Int → Int)
    (fall : RdsDecoder → RdsDataBlocks → Option groupType × RdsDecoder) (d : RdsDecoder)
    (b : RdsDataBlocks)
    (h : getGroupTypeCode b ∈ [groupType.g0A, groupType.g0B, groupType.g1A, groupType.g1B,
      groupType.g2A, groupType.g2B, groupType.g4A, groupType.g10A]) :
    decodeReceivedDataWith shl fall d b = decodeReceivedData shl d b := by
  unfold decodeReceivedData decodeReceivedDataWith
  cases hg : getGroupTypeCode b <;> simp only [] <;> (exfalso; simp [hg] at h)

theorem decodeReceivedDataWith_unmatched (shl : Int → Int → Int)
    (fall : RdsDecoder → RdsDataBlocks → Option groupType × RdsDecoder) (d : RdsDecoder)
    (b : RdsDataBlocks)
    (h : getGroupTypeCode b ∉ [groupType.g0A, groupType.g0B, groupType.g1A, groupType.g1B,
      groupType.g2A, groupType.g2B, groupType.g4A, groupType.g10A]) :
    decodeReceivedDataWith shl fall d b =
      fall (setProgrammeTypeCode (setTrafficProgramme (setProgrammeReferenceNumber
        (setProgrammeAreaCoverage (setCountryCode d b) b) b) b) b) b := by
  unfold decodeReceivedDataWith
  cases hg : getGroupTypeCode b <;> simp only [] <;> (exfalso; simp [hg] at h)

theorem decodeReceivedData_fst_matched (shl : Int → Int → Int) (d : RdsDecoder)
    (b : RdsDataBlocks)
    (h : getGroupTypeCode b ∈ [groupType.g0A, groupType.g0B, groupType.g1A, groupType.g1B,
      groupType.g2A, groupType.g2B, groupType.g4A, groupType.g10A]) :
    (decodeReceivedData shl d b).1 = some (getGroupTypeCode b) := by
  unfold decodeReceivedData decodeReceivedDataWith
  cases hg : getGroupTypeCode b <;> simp only [] <;> (exfalso; simp [hg] at h)

theorem decodeReceivedData_m_group1_other (shl : Int → Int → Int) (d : RdsDecoder)
    (b : RdsDataBlocks) (h0 : getGroupTypeCode b ≠ groupType.g1A)
    (h1 : getGroupTypeCode b ≠ groupType.g1B) :
    (decodeReceivedData shl d b).2.m_group1 = d.m_group1 := by
  unfold decodeReceivedData decodeReceivedDataWith
  simp only [common_fields_eq]
  cases hg : getGroupTypeCode b <;> simp only []
  case g0A =>
    obtain ⟨bits, h⟩ := setProgrammeServiceName_eq shl _ b
    rw [h]
  case g0B =>
    obtain ⟨bits, h⟩ := setProgrammeServiceName_eq shl _ b
    rw [h]
  case g1A => exact absurd hg h0
  case g1B => exact absurd hg h1
  case g2A =>
    obtain ⟨g, h⟩ := prepareRadioText_eq _ b
    rw [h]
    obtain ⟨g2, h2⟩ := setRadioText2A_eq _ b
    rw [h2]
  case g2B =>
    obtain ⟨g, h⟩ := prepareRadioText_eq _ b
    rw [h]
    obtain ⟨g2, h2⟩ := setRadioText2B_eq _ b
    rw [h2]
  case g4A =>
    obtain ⟨g, t, h⟩ := timeAndDate_eq _ b
    rw [h]
  case g10A =>
    obtain ⟨g, h⟩ := setProgrammeTypeName_eq _ b
    rw [h]

theorem decodeReceivedData_m_group4A_other (shl : Int → Int → Int) (d : RdsDecoder)
    (b : RdsDataBlocks) (h0 : getGroupTypeCode b ≠ groupType.g4A) :
    (decodeReceivedData shl d b).2.m_group4A = d.m_group4A ∧
      (decodeReceivedData shl d b).2.m_date = d.m_date := by
  unfold decodeReceivedData decodeReceivedDataWith
  simp only [common_fields_eq]
  cases hg : getGroupTypeCode b <;> simp only []
  case g0A =>
    obtain ⟨bits, h⟩ := setProgrammeServiceName_eq shl _ b
    rw [h]; exact ⟨rfl, rfl⟩
  case g0B =>
    obtain ⟨bits, h⟩ := setProgrammeServiceName_eq shl _ b
    rw [h]; exact ⟨rfl, rfl⟩
  case g1A =>
    obtain ⟨g, h⟩ := group1A_eq _ b
    rw [h]; exact ⟨rfl, rfl⟩
  case g2A =>
    obtain ⟨g, h⟩ := prepareRadioText_eq _ b
    rw [h]
    obtain ⟨g2, h2⟩ := setRadioText2A_eq _ b
    rw [h2]; exact ⟨rfl, rfl⟩
  case g2B =>
    obtain ⟨g, h⟩ := prepareRadioText_eq _ b
    rw [h]
    obtain ⟨g2, h2⟩ := setRadioText2B_eq _ b
    rw [h2]; exact ⟨rfl, rfl⟩
  case g4A => exact absurd hg h0
  case g10A =>
    obtain ⟨g, h⟩ := setProgrammeTypeName_eq _ b
    rw [h]; exact ⟨rfl, rfl⟩
  all_goals first | exact ⟨rfl, rfl⟩ | trivial

/-- C17 (evaluation at the failing input). Where a case of the switch matches,
`decodeReceivedData` returns the group type and assigns, besides the common members, only
the members of that group, whatever happens at the open end of the function: for 0A/0B
only the decoder-control bits and the station name of `m_group0`, for 1A/1B only
`m_group1`, for 2A/2B only `m_group2`, for 4A only `m_group4A` and `m_date`; the 10A
handler assigns only `m_group10A`.  For the group with block B `0x6000` (code 6, `g3A`)
no case matches and the result is whatever the undefined end of the function yields:
where control continues into the 4A handler the time fields change (Modified Julian Day
16706, hour 4, minute 13 on a fresh decoder), where it continues into the 10A handler the
programme-type name changes. -/
theorem decodeReceivedData_frame_open_end (shl : Int → Int → Int) :
    (∀ (fall : RdsDecoder → RdsDataBlocks → Option groupType × RdsDecoder)
        (d : RdsDecoder) (b : RdsDataBlocks) (r : Option groupType × RdsDecoder),
        r = decodeReceivedDataWith shl fall d b →
        (getGroupTypeCode b = groupType.g0A ∨ getGroupTypeCode b = groupType.g0B →
          r.1 = some (getGroupTypeCode b) ∧
          r.2.m_group0.trafficAnnouncement = d.m_group0.trafficAnnouncement ∧
          r.2.m_group0.musicSpeech = d.m_group0.musicSpeech ∧
          r.2.m_group1 = d.m_group1 ∧ r.2.m_group2 = d.m_group2 ∧
          r.2.m_group4A = d.m_group4A ∧ r.2.m_group10A = d.m_group10A ∧
          r.2.m_date = d.m_date)
        ∧ (getGroupTypeCode b = groupType.g1A ∨ getGroupTypeCode b = groupType.g1B →
          r.1 = some (getGroupTypeCode b) ∧
          r.2.m_group0 = d.m_group0 ∧ r.2.m_group2 = d.m_group2 ∧
          r.2.m_group4A = d.m_group4A ∧ r.2.m_group10A = d.m_group10A ∧
          r.2.m_date = d.m_date)
        ∧ (getGroupTypeCode b = groupType.g2A ∨ getGroupTypeCode b = groupType.g2B →
          r.1 = some (getGroupTypeCode b) ∧
          r.2.m_group0 = d.m_group0 ∧ r.2.m_group1 = d.m_group1 ∧
          r.2.m_group4A = d.m_group4A ∧ r.2.m_group10A = d.m_group10A ∧
          r.2.m_date = d.m_date)
        ∧ (getGroupTypeCode b = groupType.g4A →
          r.1 = some (getGroupTypeCode b) ∧
          r.2.m_group0 = d.m_group0 ∧ r.2.m_group1 = d.m_group1 ∧
          r.2.m_group2 = d.m_group2 ∧ r.2.m_group10A = d.m_group10A))
      ∧ (∀ (d : RdsDecoder) (b : RdsDataBlocks),
          ∃ g : Group10A, setProgrammeTypeName d b = { d with m_group10A := g })
      ∧ getGroupTypeCode { blockA := 0, blockB := 0x6000, blockC := 0x4142, blockD := 0x4344 } =
        groupType.g3A
      ∧ (∀ (fall : RdsDecoder → RdsDataBlocks → Option groupType × RdsDecoder)
          (d : RdsDecoder),
          decodeReceivedDataWith shl fall d
              { blockA := 0, blockB := 0x6000, blockC := 0x4142, blockD := 0x4344 } =
            fall (setProgrammeTypeCode (setTrafficProgramme (setProgrammeReferenceNumber
              (setProgrammeAreaCoverage (setCountryCode d
                { blockA := 0, blockB := 0x6000, blockC := 0x4142, blockD := 0x4344 })
                { blockA := 0, blockB := 0x6000, blockC := 0x4142, blockD := 0x4344 })
                { blockA := 0, blockB := 0x6000, blockC := 0x4142, blockD := 0x4344 })
                { blockA := 0, blockB := 0x6000, blockC := 0x4142, blockD := 0x4344 })
                { blockA := 0, blockB := 0x6000, blockC := 0x4142, blockD := 0x4344 })
              { blockA := 0, blockB := 0x6000, blockC := 0x4142, blockD := 0x4344 })
      ∧ ((decodeReceivedDataWith (fun _ _ => 0)
            (fun s b => (some (getGroupTypeCode b), setDate (prepareTimeAndDate s b)))
            RdsDecoder.init
            { blockA := 0, blockB := 0x6000, blockC := 0x4142,
              blockD := 0x4344 }).2.m_group4A.modifiedJulianDay = 16706
        ∧ getHour (decodeReceivedDataWith (fun _ _ => 0)
            (fun s b => (some (getGroupTypeCode b), setDate (prepareTimeAndDate s b)))
            RdsDecoder.init
            { blockA := 0, blockB := 0x6000, blockC := 0x4142, blockD := 0x4344 }).2 = 4
        ∧ getMinute (decodeReceivedDataWith (fun _ _ => 0)
            (fun s b => (some (getGroupTypeCode b), setDate (prepareTimeAndDate s b)))
            RdsDecoder.init
            { blockA := 0, blockB := 0x6000, blockC := 0x4142, blockD := 0x4344 }).2 = 13)
      ∧ getProgrammeTypeName (decodeReceivedDataWith (fun _ _ => 0)
            (fun s b => (some (getGroupTypeCode b), setProgrammeTypeName s b))
            RdsDecoder.init
            { blockA := 0, blockB := 0x6000, blockC := 0x4142, blockD := 0x4344 }).2 =
          [0x41, 0x42, 0x43, 0x44, 0, 0, 0, 0, 0] := by
  have hg3 : getGroupTypeCode
      { blockA := 0, blockB := 0x6000, blockC := 0x4142, blockD := 0x4344 } =
      groupType.g3A := by decide
  refine ⟨?_, setProgrammeTypeName_eq, hg3, ?_, ⟨by decide, by decide, by decide⟩,
    by decide⟩
  · intro fall d b r hr
    refine ⟨?_, ?_, ?_, ?_⟩
    · intro hg
      have hne1 : getGroupTypeCode b ≠ groupType.g1A ∧ getGroupTypeCode b ≠ groupType.g1B ∧
          getGroupTypeCode b ≠ groupType.g2A ∧ getGroupTypeCode b ≠ groupType.g2B ∧
          getGroupTypeCode b ≠ groupType.g4A := by
        rcases hg with h | h <;> rw [h] <;> decide
      have hm : getGroupTypeCode b ∈ [groupType.g0A, groupType.g0B, groupType.g1A,
          groupType.g1B, groupType.g2A, groupType.g2B, groupType.g4A, groupType.g10A] := by
        rcases hg with h | h <;> rw [h] <;> decide
      rw [hr, decodeReceivedDataWith_matched shl fall d b hm]
      exact ⟨decodeReceivedData_fst_matched shl d b hm,
        (decodeReceivedData_traffic_flags shl d b).1,
        (decodeReceivedData_traffic_flags shl d b).2,
        decodeReceivedData_m_group1_other shl d b hne1.1 hne1.2.1,
        decodeReceivedData_m_group2_other shl d b hne1.2.2.1 hne1.2.2.2.1,
        (decodeReceivedData_m_group4A_other shl d b hne1.2.2.2.2).1,
        decodeReceivedData_m_group10A shl d b,
        (decodeReceivedData_m_group4A_other shl d b hne1.2.2.2.2).2⟩
    · intro hg
      have hne1 : getGroupTypeCode b ≠ groupType.g0A ∧ getGroupTypeCode b ≠ groupType.g0B ∧
          getGroupTypeCode b ≠ groupType.g2A ∧ getGroupTypeCode b ≠ groupType.g2B ∧
          getGroupTypeCode b ≠ groupType.g4A := by
        rcases hg with h | h <;> rw [h] <;> decide
      have hm : getGroupTypeCode b ∈ [groupType.g0A, groupType.g0B, groupType.g1A,
          groupType.g1B, groupType.g2A, groupType.g2B, groupType.g4A, groupType.g10A] := by
        rcases hg with h | h <;> rw [h] <;> decide
      rw [hr, decodeReceivedDataWith_matched shl fall d b hm]
      exact ⟨decodeReceivedData_fst_matched shl d b hm,
        decodeReceivedData_m_group0_other shl d b hne1.1 hne1.2.1,
        decodeReceivedData_m_group2_other shl d b hne1.2.2.1 hne1.2.2.2.1,
        (decodeReceivedData_m_group4A_other shl d b hne1.2.2.2.2).1,
        decodeReceivedData_m_group10A shl d b,
        (decodeReceivedData_m_group4A_other shl d b hne1.2.2.2.2).2⟩
    · intro hg
      have hne1 : getGroupTypeCode b ≠ groupType.g0A ∧ getGroupTypeCode b ≠ groupType.g0B ∧
          getGroupTypeCode b ≠ groupType.g1A ∧ getGroupTypeCode b ≠ groupType.g1B ∧
          getGroupTypeCode b ≠ groupType.g4A := by
        rcases hg with h | h <;> rw [h] <;> decide
      have hm : getGroupTypeCode b ∈ [groupType.g0A, groupType.g0B, groupType.g1A,
          groupType.g1B, groupType.g2A, groupType.g2B, groupType.g4A, groupType.g10A] := by
        rcases hg with h | h <;> rw [h] <;> decide
      rw [hr, decodeReceivedDataWith_matched shl fall d b hm]
      exact ⟨decodeReceivedData_fst_matched shl d b hm,
        decodeReceivedData_m_group0_other shl d b hne1.1 hne1.2.1,
        decodeReceivedData_m_group1_other shl d b hne1.2.2.1 hne1.2.2.2.1,
        (decodeReceivedData_m_group4A_other shl d b hne1.2.2.2.2).1,
        decodeReceivedData_m_group10A shl d b,
        (decodeReceivedData_m_group4A_other shl d b hne1.2.2.2.2).2⟩
    · intro hg
      have hne1 : getGroupTypeCode b ≠ groupType.g0A ∧ getGroupTypeCode b ≠ groupType.g0B ∧
          getGroupTypeCode b ≠ groupType.g1A ∧ getGroupTypeCode b ≠ groupType.g1B ∧
          getGroupTypeCode b ≠ groupType.g2A ∧ getGroupTypeCode b ≠ groupType.g2B := by
        rw [hg]; decide
      have hm : getGroupTypeCode b ∈ [groupType.g0A, groupType.g0B, groupType.g1A,
          groupType.g1B, groupType.g2A, groupType.g2B, groupType.g4A, groupType.g10A] := by
        rw [hg]; decide
      rw [hr, decodeReceivedDataWith_matched shl fall d b hm]
      exact ⟨decodeReceivedData_fst_matched shl d b hm,
        decodeReceivedData_m_group0_other shl d b hne1.1 hne1.2.1,
        decodeReceivedData_m_group1_other shl d b hne1.2.2.1 hne1.2.2.2.1,
        decodeReceivedData_m_group2_other shl d b hne1.2.2.2.2.1 hne1.2.2.2.2.2,
        decodeReceivedData_m_group10A shl d b⟩
  · intro fall d
    exact decodeReceivedDataWith_unmatched shl fall d _ (by rw [hg3]; decide)

/-- With the first two casts of `setDate` in range for the Modified Julian Day 44239 (79
and 28854), the stored day is 17 exactly when the result of the last cast, the
out-of-range conversion of `_month * 30.6001` to `uint8_t`, is 28 modulo 32. -/
theorem dateOfCasts_44239_day_17_iff (month0 c8 week w16 : Nat) :
    (dateOfCasts 44239 79 28854 month0 c8 week w16).day = 17 ↔ c8 % 32 = 28 := by
  unfold dateOfCasts toU8
  simp only []
  constructor
  · intro h
    split at h
    · omega
    · split at h <;> omega
  · intro h
    split
    · omega
    · split <;> omega

end RdsDecoder

end RDA
